import Mathlib

/-!
Shallow embedding of the `pubsub` package.

Sources embedded: `pubsub.go` (registry), `message.go`, `publisher.go`,
`subscriber.go`.

Modelling conventions
* `PubSubID` is a Go `string`, here `String`.
* A Go `map[K]V` is an association list; a lookup takes the first binding of
  the key, an assignment replaces that binding or appends a new one, `delete`
  drops every binding of the key.  A Go set `map[K]struct{}` is a list of its
  members; a `nil` map reads as the empty list.
* `*Publisher` and `*Subscriber` are indices into two heaps held by `World`;
  the global registries `Publishers` and `Subscribers` map identifiers to such
  pointers.
* The results of `uuid.New()` and `time.Now()` are parameters.
* A buffered `chan Message` is its capacity, its buffered messages (oldest
  first) and its closed flag.  A send that cannot proceed is reported as
  `blocks`; a send on a closed channel as `panics`.  `NewSubscriber` only
  makes channels of capacity at least 1; the hand-over of an unbuffered
  channel (capacity 0) is not modelled.
* A Go `int` is the 64-bit one: an integer argument is read modulo `2^64`
  (`goInt`).  `make(chan Message, n)` does not return for a size the runtime
  cannot allocate (`makeChan`); the call that does not return sets `panicked`.
* Every `go func` started by `Publish` is a `Goroutine` in the world; the
  scheduler is the caller of `World.runGoroutine`.
-/

namespace PubSub

/-- The type `PubSubID` (`type PubSubID string`). -/
abbrev PubSubID := String

/-! ## Go maps and sets -/

section GoMap

variable {K V E : Type} [DecidableEq K] [DecidableEq E]

/-- The comma-ok lookup `v, ok := m[k]`. -/
def mapGet? : List (K × V) → K → Option V
  | [], _ => none
  | (k', v) :: rest, k => if k' = k then some v else mapGet? rest k

/-- The assignment `m[k] = v`. -/
def mapPut : List (K × V) → K → V → List (K × V)
  | [], k, v => [(k, v)]
  | (k', v') :: rest, k, v =>
      if k' = k then (k, v) :: rest else (k', v') :: mapPut rest k v

/-- The builtin `delete(m, k)`. -/
def mapDel (m : List (K × V)) (k : K) : List (K × V) :=
  m.filter (fun e => e.1 ≠ k)

/-- The plain lookup `m[k]` of a map whose values are sets: the `nil` set when
the key is absent. -/
def mapIdx (m : List (K × List E)) (k : K) : List E :=
  (mapGet? m k).getD []

/-- The assignment `s[e] = struct{}{}` on a set. -/
def setAdd (s : List E) (e : E) : List E :=
  if e ∈ s then s else s ++ [e]

/-- The builtin `delete(s, e)` on a set. -/
def setDel (s : List E) (e : E) : List E :=
  s.filter (fun x => x ≠ e)

/-- The statement `m[k][e] = struct{}{}` preceded by
`if _, ok := m[k]; !ok { m[k] = make(...) }`. -/
def addInner (m : List (K × List E)) (k : K) (e : E) : List (K × List E) :=
  let m1 := match mapGet? m k with
    | some _ => m
    | none => mapPut m k []
  mapPut m1 k (setAdd (mapIdx m1 k) e)

/-- The statement `delete(m[k], e)`: nothing happens on an absent key (a `nil`
inner map), otherwise the inner set is updated in place. -/
def delInner (m : List (K × List E)) (k : K) (e : E) : List (K × List E) :=
  match mapGet? m k with
  | none => m
  | some s => mapPut m k (setDel s e)

end GoMap

/-! ## Data model -/

/-- The struct `Message` of `message.go`; `Data` is the `[]byte` payload and
`CreatedAt` the clock reading. -/
structure Message where
  ID : PubSubID
  Data : List UInt8
  Topics : List String
  Publisher : PubSubID
  CreatedAt : Nat
deriving DecidableEq, Repr

/-- The zero value `Message{}`. -/
def Message.zero : Message := ⟨"", [], [], "", 0⟩

/-- The error values the consume operations return. -/
inductive Error where
  | ErrSubscriberClosed
  | Canceled
  | DeadlineExceeded
deriving DecidableEq, Repr

/-- A buffered `chan Message`. -/
structure Chan where
  cap : Nat
  buf : List Message
  closed : Bool
deriving DecidableEq, Repr

/-- The struct `Publisher` (the mutex is not state). -/
structure Publisher where
  ID : PubSubID
  Subscribers : List (String × List PubSubID)
deriving DecidableEq, Repr

/-- The struct `Subscriber` (the mutex is not state). -/
structure Subscriber where
  ID : PubSubID
  Subscriptions : List (PubSubID × List String)
  MsgChan : Chan
deriving DecidableEq, Repr

/-- A goroutine started by `Publish`: either it has not yet looked its target
up (`dispatch`), or it is inside `sub.Receive(msg)` on the subscriber it
resolved, waiting for room in the channel (`sending`). -/
inductive Goroutine where
  | dispatch (subID : PubSubID) (msg : Message)
  | sending (sub : Nat) (msg : Message)
deriving DecidableEq, Repr

/-- The process state: both heaps, both global registries, the goroutines that
have not finished, and whether some goroutine has panicked. -/
structure World where
  pubs : List Publisher
  subs : List Subscriber
  Publishers : List (PubSubID × Nat)
  Subscribers : List (PubSubID × Nat)
  goroutines : List Goroutine
  panicked : Bool
deriving DecidableEq, Repr

/-- The state at program start. -/
def World.empty : World := ⟨[], [], [], [], [], false⟩

/-! ## `publisher.go`: methods on one publisher -/

/-- The method `AddSubscriber`. -/
def Publisher.AddSubscriber (p : Publisher) (subID : PubSubID) (topic : String) :
    Publisher :=
  { p with Subscribers := addInner p.Subscribers topic subID }

/-- The method `RemoveSubscriber`. -/
def Publisher.RemoveSubscriber (p : Publisher) (subID : PubSubID)
    (topics : List String) : Publisher :=
  { p with Subscribers := topics.foldl (fun m topic => delInner m topic subID) p.Subscribers }

/-- The local set `subIDs` that `Publish` builds: first the loop over `topics`,
then the loop over `p.Subscribers[""]`. -/
def Publisher.subIDs (p : Publisher) (topics : List String) : List PubSubID :=
  let fromTopics := topics.foldl
    (fun acc topic => (mapIdx p.Subscribers topic).foldl setAdd acc) []
  (mapIdx p.Subscribers "").foldl setAdd fromTopics

/-- The message `Publish` constructs. -/
def Publisher.mkMessage (p : Publisher) (topics : List String) (data : List UInt8)
    (msgID : PubSubID) (now : Nat) : Message :=
  { ID := msgID, Data := data, Topics := topics, Publisher := p.ID, CreatedAt := now }

/-- The method `Publish`, as the list of goroutines it starts. -/
def Publisher.Publish (p : Publisher) (topics : List String) (data : List UInt8)
    (msgID : PubSubID) (now : Nat) : List Goroutine :=
  let subIDs := p.subIDs topics
  if subIDs.length = 0 then []
  else subIDs.map (fun subID => Goroutine.dispatch subID (p.mkMessage topics data msgID now))

/-! ## `subscriber.go`: methods on one subscriber -/

/-- Outcome of a channel send. -/
inductive SendResult where
  | sent (s : Subscriber)
  | blocks
  | panics
deriving DecidableEq, Repr

/-- The method `Receive`: the statement `s.MsgChan <- msg`. -/
def Subscriber.Receive (s : Subscriber) (msg : Message) : SendResult :=
  if s.MsgChan.closed then .panics
  else if s.MsgChan.buf.length < s.MsgChan.cap then
    .sent { s with MsgChan := { s.MsgChan with buf := s.MsgChan.buf ++ [msg] } }
  else .blocks

/-- Outcome of a blocking consume. -/
inductive ConsumeResult where
  | returned (msg : Message) (err : Option Error) (s : Subscriber)
  | blocks
deriving DecidableEq, Repr

/-- The receive case `msg, ok := <-s.MsgChan` once it can proceed: `none` when
it cannot. -/
def Subscriber.recv? (s : Subscriber) : Option (Message × Bool × Subscriber) :=
  match s.MsgChan.buf with
  | m :: rest => some (m, true, { s with MsgChan := { s.MsgChan with buf := rest } })
  | [] => if s.MsgChan.closed then some (Message.zero, false, s) else none

/-- The method `ConsumeContext`.  `ctxErr` is `ctx.Err()` when `ctx.Done()` is
ready; `pickCtx` is the choice `select` makes when both cases are ready. -/
def Subscriber.ConsumeContext (s : Subscriber) (ctxErr : Option Error) (pickCtx : Bool) :
    ConsumeResult :=
  let fromChan : Message × Bool × Subscriber → ConsumeResult := fun r =>
    if r.2.1 then .returned r.1 none r.2.2
    else .returned Message.zero (some Error.ErrSubscriberClosed) r.2.2
  match ctxErr, s.recv? with
  | none, none => .blocks
  | some e, none => .returned Message.zero (some e) s
  | none, some r => fromChan r
  | some e, some r => if pickCtx then .returned Message.zero (some e) s else fromChan r

/-- The method `Consume`: `ConsumeContext(context.Background())`, a context
that is never done. -/
def Subscriber.Consume (s : Subscriber) : ConsumeResult :=
  s.ConsumeContext none false

/-- The method `TryConsume`: message, found flag, error, and the subscriber
afterwards. -/
def Subscriber.TryConsume (s : Subscriber) : Message × Bool × Option Error × Subscriber :=
  match s.recv? with
  | some r =>
      if r.2.1 then (r.1, true, none, r.2.2)
      else (Message.zero, false, some Error.ErrSubscriberClosed, r.2.2)
  | none => (Message.zero, false, none, s)

/-! ## `pubsub.go`: the global registries -/

/-- Record that a goroutine panicked. -/
def World.panic (w : World) : World := { w with panicked := true }

/-- Update the publisher behind a pointer; a nil pointer panics. -/
def World.updPub (w : World) (p : Nat) (f : Publisher → Publisher) : World :=
  match w.pubs[p]? with
  | none => w.panic
  | some pub => { w with pubs := w.pubs.set p (f pub) }

/-- Update the subscriber behind a pointer; a nil pointer panics. -/
def World.updSub (w : World) (s : Nat) (f : Subscriber → Subscriber) : World :=
  match w.subs[s]? with
  | none => w.panic
  | some sub => { w with subs := w.subs.set s (f sub) }

/-- The function `RegisterPublisher`. -/
def World.RegisterPublisher (w : World) (p : Nat) : World :=
  match w.pubs[p]? with
  | none => w.panic
  | some pub => { w with Publishers := mapPut w.Publishers pub.ID p }

/-- The function `RegisterSubscriber`. -/
def World.RegisterSubscriber (w : World) (s : Nat) : World :=
  match w.subs[s]? with
  | none => w.panic
  | some sub => { w with Subscribers := mapPut w.Subscribers sub.ID s }

/-- The function `UnregisterPublisher`. -/
def World.UnregisterPublisher (w : World) (p : Nat) : World :=
  match w.pubs[p]? with
  | none => w.panic
  | some pub => { w with Publishers := mapDel w.Publishers pub.ID }

/-- The function `UnregisterSubscriber`. -/
def World.UnregisterSubscriber (w : World) (s : Nat) : World :=
  match w.subs[s]? with
  | none => w.panic
  | some sub => { w with Subscribers := mapDel w.Subscribers sub.ID }

/-- The function `GetPublisher`; `none` is the nil pointer. -/
def World.GetPublisher (w : World) (id : PubSubID) : Option Nat :=
  mapGet? w.Publishers id

/-- The function `GetSubscriber`; `none` is the nil pointer. -/
def World.GetSubscriber (w : World) (id : PubSubID) : Option Nat :=
  mapGet? w.Subscribers id

/-! ## `publisher.go` on the world -/

/-- The constructor `NewPublisher`; `id` is the value of `randPubID()`.  The
new pointer is returned with the world. -/
def World.NewPublisher (w : World) (id : PubSubID) (autoRegister : Bool) : World × Nat :=
  let p := w.pubs.length
  let w1 := { w with pubs := w.pubs ++ [{ ID := id, Subscribers := [] }] }
  (if autoRegister then w1.RegisterPublisher p else w1, p)

/-- The method `Publish` on the publisher behind pointer `p`: its goroutines are
added to the world. -/
def World.Publish (w : World) (p : Nat) (topics : List String) (data : List UInt8)
    (msgID : PubSubID) (now : Nat) : World :=
  match w.pubs[p]? with
  | none => w.panic
  | some pub => { w with goroutines := w.goroutines ++ pub.Publish topics data msgID now }

/-- The method `Publisher.Unregister`. -/
def World.PublisherUnregister (w : World) (p : Nat) : World :=
  w.UnregisterPublisher p

/-! ## `subscriber.go` on the world -/

/-- The value a Go `int` (64 bits, two's complement) holds for the integer `n`:
`n` itself from `-2^63` to `2^63 - 1`, and `n` reduced modulo `2^64` into that
range otherwise. -/
def goInt (n : Int) : Int :=
  (n + 9223372036854775808) % 18446744073709551616 - 9223372036854775808

/-- The size of a `Message` in bytes on a 64-bit platform: two strings (16
bytes each), two slices (24 bytes each) and a `time.Time` (24 bytes). -/
def messageSize : Nat := 104

/-- The statement `if bufferSize <= 0 { bufferSize = 10 }` on the `int`
parameter `bufferSize`: the size `NewSubscriber` asks `make` for. -/
def bufferCap (bufferSize : Int) : Nat :=
  if goInt bufferSize ≤ 0 then 10 else (goInt bufferSize).toNat

/-- The builtin `make(chan Message, n)` for `n ≥ 0`.  The runtime panics
(`makechan: size out of range`) when the byte size of a buffer of `n` messages
does not fit an address (`2^64 = 18446744073709551616`) or exceeds the
runtime's bound on one allocation, and the call does not return either when
the memory is not there; `limit` is the largest size the runtime provides at
this call (its own bound and the memory at hand), a parameter like the clock.
`none` is the call that does not return. -/
def makeChan (n : Nat) (limit : Nat) : Option Chan :=
  if n * messageSize < 18446744073709551616 ∧ n ≤ limit then
    some { cap := n, buf := [], closed := false }
  else none

/-- The constructor `NewSubscriber`; `id` is the value of `randSubID()` and
`limit` the parameter of `makeChan`.  When `make` does not return, nothing is
allocated or registered and no pointer comes back. -/
def World.NewSubscriber (w : World) (id : PubSubID) (bufferSize : Int)
    (autoRegister : Bool) (limit : Nat) : World × Option Nat :=
  match makeChan (bufferCap bufferSize) limit with
  | none => (w.panic, none)
  | some ch =>
      let s := w.subs.length
      let sub : Subscriber := { ID := id, Subscriptions := [], MsgChan := ch }
      let w1 := { w with subs := w.subs ++ [sub] }
      (if autoRegister then w1.RegisterSubscriber s else w1, some s)

/-- The method `Subscribe`. -/
def World.Subscribe (w : World) (s : Nat) (pubID : PubSubID) (topic : String) : World :=
  match w.subs[s]? with
  | none => w.panic
  | some sub =>
      let w1 := { w with
        subs := w.subs.set s { sub with Subscriptions := addInner sub.Subscriptions pubID topic } }
      match w1.GetPublisher pubID with
      | some p => w1.updPub p (fun pub => pub.AddSubscriber sub.ID topic)
      | none => w1

/-- The method `UnsubscribePublisher`. -/
def World.UnsubscribePublisher (w : World) (s : Nat) (pubID : PubSubID) : World :=
  match w.subs[s]? with
  | none => w.panic
  | some sub =>
      match mapGet? sub.Subscriptions pubID with
      | none => w
      | some topics =>
          let w1 := { w with
            subs := w.subs.set s { sub with Subscriptions := mapDel sub.Subscriptions pubID } }
          match w1.GetPublisher pubID with
          | some p => w1.updPub p (fun pub => pub.RemoveSubscriber sub.ID topics)
          | none => w1

/-- One round of the loop of `UnsubscribeTopic`: `delete(s.Subscriptions[pubID],
topic)`, then the pruning of an empty entry. -/
def unsubscribeStep (pubID : PubSubID) (m : List (PubSubID × List String))
    (topic : String) : List (PubSubID × List String) :=
  let m1 := delInner m pubID topic
  if (mapIdx m1 pubID).length = 0 then mapDel m1 pubID else m1

/-- The method `UnsubscribeTopic`. -/
def World.UnsubscribeTopic (w : World) (s : Nat) (pubID : PubSubID)
    (topics : List String) : World :=
  match w.subs[s]? with
  | none => w.panic
  | some sub =>
      match mapGet? sub.Subscriptions pubID with
      | none => w
      | some _ =>
          let w1 := { w with
            subs := w.subs.set s
              { sub with Subscriptions := topics.foldl (unsubscribeStep pubID) sub.Subscriptions } }
          match w1.GetPublisher pubID with
          | some p => w1.updPub p (fun pub => pub.RemoveSubscriber sub.ID topics)
          | none => w1

/-- A call of `Receive` on the subscriber behind `s` by a goroutine that is not
one of `Publish`: when the send blocks the caller stays in the world as a
`sending` goroutine. -/
def World.Receive (w : World) (s : Nat) (msg : Message) : World :=
  match w.subs[s]? with
  | none => w.panic
  | some sub =>
      match sub.Receive msg with
      | .sent sub1 => { w with subs := w.subs.set s sub1 }
      | .blocks => { w with goroutines := w.goroutines ++ [Goroutine.sending s msg] }
      | .panics => w.panic

/-- The method `ConsumeContext` on the world: the state after the call (the
same state when the call blocks). -/
def World.ConsumeContext (w : World) (s : Nat) (ctxErr : Option Error) (pickCtx : Bool) :
    World :=
  match w.subs[s]? with
  | none => w.panic
  | some sub =>
      match sub.ConsumeContext ctxErr pickCtx with
      | .returned _ _ sub1 => { w with subs := w.subs.set s sub1 }
      | .blocks => w

/-- The method `Consume` on the world. -/
def World.Consume (w : World) (s : Nat) : World :=
  w.ConsumeContext s none false

/-- The method `TryConsume` on the world. -/
def World.TryConsume (w : World) (s : Nat) : World :=
  w.updSub s (fun sub => sub.TryConsume.2.2.2)

/-- The method `Subscriber.Unregister`: `close(s.MsgChan)`, which panics on a
closed channel, then `UnregisterSubscriber(s)`. -/
def World.SubscriberUnregister (w : World) (s : Nat) : World :=
  match w.subs[s]? with
  | none => w.panic
  | some sub =>
      if sub.MsgChan.closed then w.panic
      else
        let w1 := { w with
          subs := w.subs.set s { sub with MsgChan := { sub.MsgChan with closed := true } } }
        w1.UnregisterSubscriber s

/-! ## The goroutines of `Publish` -/

/-- The call `sub.Receive(msg)` made by goroutine `i` on the subscriber behind
`s`: the goroutine ends when the send completes, stays when it blocks. -/
def World.deliver (w : World) (i : Nat) (s : Nat) (msg : Message) : World :=
  match w.subs[s]? with
  | none => { w.panic with goroutines := w.goroutines.eraseIdx i }
  | some sub =>
      match sub.Receive msg with
      | .sent sub1 =>
          { w with subs := w.subs.set s sub1, goroutines := w.goroutines.eraseIdx i }
      | .blocks => { w with goroutines := w.goroutines.set i (Goroutine.sending s msg) }
      | .panics => { w.panic with goroutines := w.goroutines.eraseIdx i }

/-- Let goroutine `i` run: the body
`sub := GetSubscriber(subID); if sub != nil { sub.Receive(msg) }`. -/
def World.runGoroutine (w : World) (i : Nat) : World :=
  match w.goroutines[i]? with
  | none => w
  | some (.dispatch subID msg) =>
      match w.GetSubscriber subID with
      | none => { w with goroutines := w.goroutines.eraseIdx i }
      | some s => w.deliver i s msg
  | some (.sending s msg) => w.deliver i s msg

/-! ## Operations as data -/

/-- The calls a client of the package can make, and the scheduler's choice to
run a goroutine. -/
inductive Op where
  | NewPublisher (id : PubSubID) (autoRegister : Bool)
  | NewSubscriber (id : PubSubID) (bufferSize : Int) (autoRegister : Bool) (limit : Nat)
  | RegisterPublisher (p : Nat)
  | RegisterSubscriber (s : Nat)
  | UnregisterPublisher (p : Nat)
  | UnregisterSubscriber (s : Nat)
  | AddSubscriber (p : Nat) (subID : PubSubID) (topic : String)
  | RemoveSubscriber (p : Nat) (subID : PubSubID) (topics : List String)
  | Publish (p : Nat) (topics : List String) (data : List UInt8) (msgID : PubSubID) (now : Nat)
  | PublisherUnregister (p : Nat)
  | Subscribe (s : Nat) (pubID : PubSubID) (topic : String)
  | UnsubscribePublisher (s : Nat) (pubID : PubSubID)
  | UnsubscribeTopic (s : Nat) (pubID : PubSubID) (topics : List String)
  | Receive (s : Nat) (msg : Message)
  | ConsumeContext (s : Nat) (ctxErr : Option Error) (pickCtx : Bool)
  | Consume (s : Nat)
  | TryConsume (s : Nat)
  | SubscriberUnregister (s : Nat)
  | runGoroutine (i : Nat)
deriving DecidableEq, Repr

/-- The state after one operation. -/
def World.step (w : World) : Op → World
  | .NewPublisher id a => (w.NewPublisher id a).1
  | .NewSubscriber id n a limit => (w.NewSubscriber id n a limit).1
  | .RegisterPublisher p => w.RegisterPublisher p
  | .RegisterSubscriber s => w.RegisterSubscriber s
  | .UnregisterPublisher p => w.UnregisterPublisher p
  | .UnregisterSubscriber s => w.UnregisterSubscriber s
  | .AddSubscriber p subID topic => w.updPub p (fun pub => pub.AddSubscriber subID topic)
  | .RemoveSubscriber p subID topics => w.updPub p (fun pub => pub.RemoveSubscriber subID topics)
  | .Publish p topics data msgID now => w.Publish p topics data msgID now
  | .PublisherUnregister p => w.PublisherUnregister p
  | .Subscribe s pubID topic => w.Subscribe s pubID topic
  | .UnsubscribePublisher s pubID => w.UnsubscribePublisher s pubID
  | .UnsubscribeTopic s pubID topics => w.UnsubscribeTopic s pubID topics
  | .Receive s msg => w.Receive s msg
  | .ConsumeContext s e c => w.ConsumeContext s e c
  | .Consume s => w.Consume s
  | .TryConsume s => w.TryConsume s
  | .SubscriberUnregister s => w.SubscriberUnregister s
  | .runGoroutine i => w.runGoroutine i

/-- The state after a sequence of operations. -/
def World.run (w : World) (ops : List Op) : World :=
  ops.foldl World.step w

/-! ## Sequences of consume calls -/

/-- Which of the two consume methods a caller uses. -/
inductive ConsumeKind where
  | Consume
  | TryConsume
deriving DecidableEq, Repr

/-- What a consume call gives back to its caller. -/
inductive Observed where
  | consume (msg : Message) (err : Option Error)
  | tryConsume (msg : Message) (found : Bool) (err : Option Error)
  | blocked
deriving DecidableEq, Repr

/-- One call of `Consume` or `TryConsume`: what the caller sees and the
subscriber afterwards. -/
def Subscriber.call (s : Subscriber) : ConsumeKind → Observed × Subscriber
  | .Consume =>
      match s.Consume with
      | .returned msg err s1 => (.consume msg err, s1)
      | .blocks => (.blocked, s)
  | .TryConsume =>
      (.tryConsume s.TryConsume.1 s.TryConsume.2.1 s.TryConsume.2.2.1, s.TryConsume.2.2.2)

/-- A sequence of consume calls on one subscriber, nothing else touching it
in between. -/
def Subscriber.calls (s : Subscriber) : List ConsumeKind → List Observed × Subscriber
  | [] => ([], s)
  | k :: ks => ((s.call k).1 :: ((s.call k).2.calls ks).1, ((s.call k).2.calls ks).2)

/-- A successful return of message `m` from a call of kind `k`. -/
def ConsumeKind.ok (k : ConsumeKind) (m : Message) : Observed :=
  match k with
  | .Consume => .consume m none
  | .TryConsume => .tryConsume m true none

/-- The failure of a call of kind `k` with `ErrSubscriberClosed` and the zero
message. -/
def ConsumeKind.closedErr (k : ConsumeKind) : Observed :=
  match k with
  | .Consume => .consume Message.zero (some Error.ErrSubscriberClosed)
  | .TryConsume => .tryConsume Message.zero false (some Error.ErrSubscriberClosed)

/-! ## One mailbox under interleaved senders and consumers -/

/-- One subscriber together with the `Receive` calls that have not returned
and a record of what went in and out. -/
structure Mailbox where
  sub : Subscriber
  blocked : List Message
  handed : List Message
  enqueued : List Message
  consumed : List Message
  failed : List Message
deriving DecidableEq, Repr

/-- The events on one mailbox: a goroutine calls `Receive`, a blocked
`Receive` call is scheduled again, a consumer calls `Consume` or
`TryConsume`, the owner calls `close(s.MsgChan)`. -/
inductive MailOp where
  | receive (msg : Message)
  | resume (i : Nat)
  | consume
  | tryConsume
  | close
deriving DecidableEq, Repr

/-- A mailbox with no call in flight and empty records. -/
def Mailbox.init (s : Subscriber) : Mailbox := ⟨s, [], [], [], [], []⟩

/-- The mailbox after one event. -/
def Mailbox.step (mb : Mailbox) : MailOp → Mailbox
  | .receive msg =>
      match mb.sub.Receive msg with
      | .sent s1 =>
          { mb with sub := s1, handed := mb.handed ++ [msg], enqueued := mb.enqueued ++ [msg] }
      | .blocks => { mb with blocked := mb.blocked ++ [msg], handed := mb.handed ++ [msg] }
      | .panics => { mb with handed := mb.handed ++ [msg], failed := mb.failed ++ [msg] }
  | .resume i =>
      match mb.blocked[i]? with
      | none => mb
      | some msg =>
          match mb.sub.Receive msg with
          | .sent s1 =>
              { mb with sub := s1, blocked := mb.blocked.eraseIdx i,
                        enqueued := mb.enqueued ++ [msg] }
          | .blocks => mb
          | .panics => { mb with blocked := mb.blocked.eraseIdx i, failed := mb.failed ++ [msg] }
  | .consume =>
      match mb.sub.Consume with
      | .returned msg none s1 => { mb with sub := s1, consumed := mb.consumed ++ [msg] }
      | .returned _ (some _) s1 => { mb with sub := s1 }
      | .blocks => mb
  | .tryConsume =>
      if mb.sub.TryConsume.2.1 then
        { mb with sub := mb.sub.TryConsume.2.2.2, consumed := mb.consumed ++ [mb.sub.TryConsume.1] }
      else { mb with sub := mb.sub.TryConsume.2.2.2 }
  | .close =>
      if mb.sub.MsgChan.closed then mb
      else { mb with sub := { mb.sub with MsgChan := { mb.sub.MsgChan with closed := true } } }

/-- The mailbox after a sequence of events. -/
def Mailbox.run (mb : Mailbox) (ops : List MailOp) : Mailbox :=
  ops.foldl Mailbox.step mb

/-- What one mailbox event preserves: the FIFO equation between what was
enqueued and what was consumed or is buffered, the capacity, and the account
of every message handed to `Receive`. -/
structure Mailbox.Inv (b0 : List Message) (c : Nat) (mb : Mailbox) : Prop where
  fifo : mb.consumed ++ mb.sub.MsgChan.buf = b0 ++ mb.enqueued
  cap_eq : mb.sub.MsgChan.cap = c
  account : (b0 ++ mb.handed).Perm
    (mb.consumed ++ mb.sub.MsgChan.buf ++ mb.blocked ++ mb.failed)

/-! ## The scenario of the blocking policy -/

/-- The first message of the scenario: payload `"a"` on topic `"x"`. -/
def scenarioMsgA : Message := ⟨"msg-a", [97], ["x"], "pub-1", 1⟩

/-- The second message of the scenario: payload `"b"` on topic `"x"`. -/
def scenarioMsgB : Message := ⟨"msg-b", [98], ["x"], "pub-1", 2⟩

/-- Create P, create S with buffer size 1, subscribe S to P on `"x"`, publish
`"a"` and publish `"b"`. -/
def scenarioSetup : List Op :=
  [.NewPublisher "pub-1" true, .NewSubscriber "sub-1" 1 true 64, .Subscribe 0 "pub-1" "x",
   .Publish 0 ["x"] [97] "msg-a" 1, .Publish 0 ["x"] [98] "msg-b" 2]

/-- The scenario with the dispatch of `first` scheduled first (the other
dispatch then finds the mailbox full), a `Consume`, the blocked dispatch
resumed, and a second `Consume`: the messages the two `Consume` calls return
and the goroutines left at the end. -/
def scenarioObserved (first : Nat) : Option (ConsumeResult × ConsumeResult × List Goroutine) :=
  let w1 := (World.empty.run scenarioSetup).run [.runGoroutine first, .runGoroutine 0]
  let w2 := w1.run [.Consume 0, .runGoroutine 0]
  match w1.subs[0]?, w2.subs[0]? with
  | some s1, some s2 => some (s1.Consume, s2.Consume, (w2.Consume 0).goroutines)
  | _, _ => none

/-! ## Closed subscribers -/

/-- Subscriber `S1` is a later state of the closed subscriber `S`: same
identifier, still closed, and its buffer is what is left of the buffer of `S`
after some consumes. -/
def Subscriber.staysClosed (S S1 : Subscriber) : Prop :=
  S1.ID = S.ID ∧ S1.MsgChan.closed = true ∧ S1.MsgChan.buf <:+ S.MsgChan.buf

/-- Every closed subscriber of `w` is still there, closed, in `w1`. -/
def World.keepsClosed (w w1 : World) : Prop :=
  ∀ (s : Nat) (S : Subscriber), w.subs[s]? = some S → S.MsgChan.closed = true →
    ∃ S1, w1.subs[s]? = some S1 ∧ S.staysClosed S1

/-! ## The subscription relation -/

/-- The calls that change the subscription relation through the subscriber. -/
def Op.isSubscriptionCall : Op → Bool
  | .Subscribe _ _ _ => true
  | .UnsubscribePublisher _ _ => true
  | .UnsubscribeTopic _ _ _ => true
  | _ => false

/-- The world after constructing, with `autoRegister = true`, one publisher per
identifier of `pubIDs` and one subscriber per identifier and buffer size of
`subs`; the allocator provides every size that was asked for (a size whose
buffer does not fit an address still ends the constructor in a panic). -/
def World.fresh (pubIDs : List PubSubID) (subs : List (PubSubID × Int)) : World :=
  (World.empty.run (pubIDs.map (fun id => Op.NewPublisher id true))).run
    (subs.map (fun e => Op.NewSubscriber e.1 e.2 true (bufferCap e.2)))

/-- Both sides of the subscription relation agree: `T` is in
`S.Subscriptions[P.ID]` iff `S.ID` is in `P.Subscribers[T]`, for every
subscriber `S`, publisher `P` and topic `T` of the world. -/
def World.linksAgree (w : World) : Prop :=
  ∀ (s : Nat) (S : Subscriber) (p : Nat) (P : Publisher) (T : String),
    w.subs[s]? = some S → w.pubs[p]? = some P →
      (T ∈ mapIdx S.Subscriptions P.ID ↔ S.ID ∈ mapIdx P.Subscribers T)

/-- The state of a world whose identifiers are unique and whose publishers are
registered, with the two sides of the subscription relation in agreement. -/
structure World.Linked (w : World) : Prop where
  subDistinct : ∀ (s s1 : Nat) (S S1 : Subscriber),
    w.subs[s]? = some S → w.subs[s1]? = some S1 → S.ID = S1.ID → s = s1
  pubResolves : ∀ (p : Nat) (P : Publisher), w.pubs[p]? = some P → w.GetPublisher P.ID = some p
  resolveSound : ∀ (id : PubSubID) (p : Nat) (P : Publisher),
    w.GetPublisher id = some p → w.pubs[p]? = some P → P.ID = id
  agree : w.linksAgree

/-- A world of freshly constructed objects: unique subscriber identifiers,
registered publishers, and every topic map and subscription map empty. -/
structure World.Pristine (w : World) : Prop where
  subDistinct : ∀ (s s1 : Nat) (S S1 : Subscriber),
    w.subs[s]? = some S → w.subs[s1]? = some S1 → S.ID = S1.ID → s = s1
  pubResolves : ∀ (p : Nat) (P : Publisher), w.pubs[p]? = some P → w.GetPublisher P.ID = some p
  resolveValid : ∀ (id : PubSubID) (p : Nat),
    w.GetPublisher id = some p → ∃ P : Publisher, w.pubs[p]? = some P ∧ P.ID = id
  pubsEmpty : ∀ (p : Nat) (P : Publisher), w.pubs[p]? = some P → P.Subscribers = []
  subsEmpty : ∀ (s : Nat) (S : Subscriber), w.subs[s]? = some S → S.Subscriptions = []

/-! ## The example service (`examples/pubsub-grpc`, server side)

A handler is a function of the world and the fields of its request; it gives
the world afterwards and the gRPC status it returns (`OK` for a nil error).
A panic of the core call is recorded in the world, as everywhere. -/

/-- The gRPC status codes the handlers return. -/
inductive Code where
  | OK
  | InvalidArgument
  | NotFound
  | FailedPrecondition
  | Canceled
  | Internal
deriving DecidableEq, Repr

/-- The helper `GetSubscriber(subID string)` of the service. -/
def Service.GetSubscriber (w : World) (subID : String) : Except Code Nat :=
  if subID = "" then .error Code.InvalidArgument
  else
    match w.GetSubscriber subID with
    | none => .error Code.NotFound
    | some s => .ok s

/-- The helper `GetPublisher(pubID string)` of the service. -/
def Service.GetPublisher (w : World) (pubID : String) : Except Code Nat :=
  if pubID = "" then .error Code.InvalidArgument
  else
    match w.GetPublisher pubID with
    | none => .error Code.NotFound
    | some p => .ok p

/-- The handler `NewSubscriber`: the response carries the new identifier;
there is no response when `pubsub.NewSubscriber` does not return. -/
def Service.NewSubscriber (w : World) (id : PubSubID) (bufferSize : Int) (limit : Nat) :
    World × Option String :=
  match w.NewSubscriber id bufferSize true limit with
  | (w1, none) => (w1, none)
  | (w1, some _) => (w1, some id)

/-- The handler `NewPublisher`. -/
def Service.NewPublisher (w : World) (id : PubSubID) : World × String :=
  ((w.NewPublisher id true).1, id)

/-- The handler `UnregisterSubscriber`. -/
def Service.UnregisterSubscriber (w : World) (subId : String) : World × Code :=
  match Service.GetSubscriber w subId with
  | .error c => (w, c)
  | .ok s => (w.SubscriberUnregister s, Code.OK)

/-- The handler `Subscribe`. -/
def Service.Subscribe (w : World) (subId pubId topic : String) : World × Code :=
  match Service.GetSubscriber w subId with
  | .error c => (w, c)
  | .ok s => (w.Subscribe s pubId topic, Code.OK)

/-- The handler `UnsubscribePublisher`. -/
def Service.UnsubscribePublisher (w : World) (subId pubId : String) : World × Code :=
  match Service.GetSubscriber w subId with
  | .error c => (w, c)
  | .ok s => (w.UnsubscribePublisher s pubId, Code.OK)

/-- The handler `UnsubscribeTopic`. -/
def Service.UnsubscribeTopic (w : World) (subId pubId : String) (topics : List String) :
    World × Code :=
  match Service.GetSubscriber w subId with
  | .error c => (w, c)
  | .ok s => (w.UnsubscribeTopic s pubId topics, Code.OK)

/-- The handler `TryConsume`: world, status, and the response fields `Message`
(nil unless a message was found) and `Ok`.  The registry never holds a nil
pointer; the branch for one stands for the panic of dereferencing it. -/
def Service.TryConsume (w : World) (subId : String) : World × Code × Option Message × Bool :=
  match Service.GetSubscriber w subId with
  | .error c => (w, c, none, false)
  | .ok s =>
      match w.subs[s]? with
      | none => (w.panic, Code.Internal, none, false)
      | some sub =>
          match sub.TryConsume.2.2.1 with
          | some _ => (w.TryConsume s, Code.FailedPrecondition, none, false)
          | none =>
              (w.TryConsume s, Code.OK,
                if sub.TryConsume.2.1 then some sub.TryConsume.1 else none, sub.TryConsume.2.1)

/-- The loop of the handler `KeepConsume` on the subscriber behind `s`.  Each
element of `ctxs` is one round's view of the stream context (`ctx.Err()` when
`ctx.Done()` is ready, and the choice of `select`).  The result is the world,
the messages sent on the stream, and the status the handler returned: `none`
while it is still in the loop (blocked in `ConsumeContext`, or out of rounds). -/
def Service.keepConsumeLoop (s : Nat) :
    World → List (Option Error × Bool) → List Message → World × List Message × Option Code
  | w, [], sent => (w, sent, none)
  | w, c :: rest, sent =>
      match w.subs[s]? with
      | none => (w.panic, sent, none)
      | some sub =>
          match sub.ConsumeContext c.1 c.2 with
          | .blocks => (w, sent, none)
          | .returned _ (some Error.Canceled) sub1 =>
              ({ w with subs := w.subs.set s sub1 }, sent, some Code.OK)
          | .returned _ (some Error.DeadlineExceeded) sub1 =>
              ({ w with subs := w.subs.set s sub1 }, sent, some Code.OK)
          | .returned _ (some Error.ErrSubscriberClosed) sub1 =>
              ({ w with subs := w.subs.set s sub1 }, sent, some Code.Canceled)
          | .returned msg none sub1 =>
              Service.keepConsumeLoop s { w with subs := w.subs.set s sub1 } rest (sent ++ [msg])

/-- The handler `KeepConsume`. -/
def Service.KeepConsume (w : World) (subId : String) (ctxs : List (Option Error × Bool)) :
    World × List Message × Option Code :=
  match Service.GetSubscriber w subId with
  | .error c => (w, [], some c)
  | .ok s => Service.keepConsumeLoop s w ctxs []

/-- The handler `Publish`. -/
def Service.Publish (w : World) (pubId : String) (topics : List String) (data : List UInt8)
    (msgID : PubSubID) (now : Nat) : World × Code :=
  match Service.GetPublisher w pubId with
  | .error c => (w, c)
  | .ok p => (w.Publish p topics data msgID now, Code.OK)

/-- The handler `UnregisterPublisher`. -/
def Service.UnregisterPublisher (w : World) (pubId : String) : World × Code :=
  match Service.GetPublisher w pubId with
  | .error c => (w, c)
  | .ok p => (w.PublisherUnregister p, Code.OK)

/-! ## Subscription maps without empty entries -/

/-- No publisher identifier that is a key of `S.Subscriptions` is bound to an
empty topic set. -/
def Subscriber.noEmptyEntry (S : Subscriber) : Prop :=
  ∀ (k : PubSubID) (ts : List String), mapGet? S.Subscriptions k = some ts → ts ≠ []

/-- Every subscriber of the world has a subscription map without empty
entries. -/
def World.noEmptyEntries (w : World) : Prop :=
  ∀ S ∈ w.subs, S.noEmptyEntry

/-! ## Lemmas on maps and sets -/

section GoMapLemmas

set_option linter.unusedSectionVars false

variable {K V E : Type} [DecidableEq K] [DecidableEq E]

theorem mapGet?_mapPut (m : List (K × V)) (k k' : K) (v : V) :
    mapGet? (mapPut m k v) k' = if k = k' then some v else mapGet? m k' := by
  induction m with
  | nil => simp [mapPut, mapGet?]
  | cons e rest ih =>
      obtain ⟨k0, v0⟩ := e
      by_cases h0 : k0 = k
      · subst h0
        by_cases h1 : k0 = k' <;> simp [mapPut, mapGet?, h1]
      · by_cases h1 : k0 = k'
        · subst h1
          have h2 : ¬ k = k0 := fun h => h0 h.symm
          simp [mapPut, mapGet?, h0, h2]
        · simp [mapPut, mapGet?, h0, h1, ih]

theorem mapGet?_mapDel (m : List (K × V)) (k k' : K) :
    mapGet? (mapDel m k) k' = if k = k' then none else mapGet? m k' := by
  induction m with
  | nil => simp [mapDel, mapGet?]
  | cons e rest ih =>
      obtain ⟨k0, v0⟩ := e
      have ih' : mapGet? (List.filter (fun e => decide (e.1 ≠ k)) rest) k'
          = if k = k' then none else mapGet? rest k' := ih
      by_cases h0 : k0 = k
      · subst h0
        by_cases h1 : k0 = k' <;> simp [mapDel, mapGet?, h1, List.filter_cons] <;>
          simpa [h1] using ih'
      · by_cases h1 : k0 = k'
        · subst h1
          have h2 : ¬ k = k0 := fun h => h0 h.symm
          simp [mapDel, mapGet?, h0, h2, List.filter_cons]
        · simp only [mapDel, List.filter_cons, mapGet?, h0, h1, ne_eq, not_false_eq_true,
            decide_True, if_true, if_false]
          exact ih'

theorem mapDel_of_get?_none (m : List (K × V)) (k : K) (h : mapGet? m k = none) :
    mapDel m k = m := by
  induction m with
  | nil => rfl
  | cons e rest ih =>
      obtain ⟨k0, v0⟩ := e
      by_cases h0 : k0 = k
      · simp [mapGet?, h0] at h
      · simp only [mapGet?, h0, if_false] at h
        have := ih h
        simp only [mapDel] at this
        simp only [mapDel, List.filter_cons, h0, ne_eq, not_false_eq_true, decide_True,
          if_true, this]

theorem mapPut_of_get?_some (m : List (K × V)) (k : K) (v : V) (h : mapGet? m k = some v) :
    mapPut m k v = m := by
  induction m with
  | nil => simp [mapGet?] at h
  | cons e rest ih =>
      obtain ⟨k0, v0⟩ := e
      by_cases h0 : k0 = k
      · subst h0
        simp only [mapGet?, if_true, Option.some.injEq] at h
        simp [mapPut, h]
      · simp only [mapGet?, h0, if_false] at h
        simp [mapPut, h0, ih h]

theorem mapIdx_mapPut (m : List (K × List E)) (k k' : K) (v : List E) :
    mapIdx (mapPut m k v) k' = if k = k' then v else mapIdx m k' := by
  unfold mapIdx
  rw [mapGet?_mapPut]
  split <;> rfl

theorem mapIdx_mapDel (m : List (K × List E)) (k k' : K) :
    mapIdx (mapDel m k) k' = if k = k' then [] else mapIdx m k' := by
  unfold mapIdx
  rw [mapGet?_mapDel]
  split <;> rfl

theorem mem_setAdd (s : List E) (e x : E) : x ∈ setAdd s e ↔ x ∈ s ∨ x = e := by
  unfold setAdd
  split
  · constructor
    · exact Or.inl
    · rintro (h | h)
      · exact h
      · subst h; assumption
  · simp

theorem mem_setDel (s : List E) (e x : E) : x ∈ setDel s e ↔ x ∈ s ∧ x ≠ e := by
  simp [setDel, List.mem_filter]

theorem setDel_of_not_mem (s : List E) (e : E) (h : e ∉ s) : setDel s e = s := by
  unfold setDel
  rw [List.filter_eq_self]
  intro a ha
  have : a ≠ e := fun hae => h (hae ▸ ha)
  simpa using this

theorem nodup_setAdd (s : List E) (e : E) (h : s.Nodup) : (setAdd s e).Nodup := by
  unfold setAdd
  split
  · exact h
  · rename_i hne
    rw [List.nodup_append]
    refine ⟨h, List.nodup_singleton e, ?_⟩
    intro a ha hb
    simp only [List.mem_singleton] at hb
    subst hb
    exact hne ha

theorem mem_foldl_setAdd (l acc : List E) (x : E) :
    x ∈ l.foldl setAdd acc ↔ x ∈ acc ∨ x ∈ l := by
  induction l generalizing acc with
  | nil => simp
  | cons a rest ih =>
      simp only [List.foldl_cons, ih, mem_setAdd, List.mem_cons]
      tauto

theorem nodup_foldl_setAdd (l acc : List E) (h : acc.Nodup) : (l.foldl setAdd acc).Nodup := by
  induction l generalizing acc with
  | nil => simpa using h
  | cons a rest ih => exact ih _ (nodup_setAdd acc a h)

theorem mem_mapIdx_addInner (m : List (K × List E)) (k k' : K) (e x : E) :
    x ∈ mapIdx (addInner m k e) k' ↔ x ∈ mapIdx m k' ∨ (k = k' ∧ x = e) := by
  unfold addInner
  cases hg : mapGet? m k with
  | none =>
      simp only [mapIdx_mapPut, if_true]
      by_cases hk : k = k'
      · subst hk
        simp [mem_setAdd, mapIdx, hg]
      · simp [hk]
  | some s0 =>
      simp only [mapIdx_mapPut]
      by_cases hk : k = k'
      · subst hk
        simp [mem_setAdd]
      · simp [hk]

theorem mem_mapIdx_delInner (m : List (K × List E)) (k k' : K) (e x : E) :
    x ∈ mapIdx (delInner m k e) k' ↔ x ∈ mapIdx m k' ∧ ¬ (k = k' ∧ x = e) := by
  unfold delInner
  cases hg : mapGet? m k with
  | none =>
      simp only []
      constructor
      · intro h
        refine ⟨h, ?_⟩
        rintro ⟨hk, -⟩
        subst hk
        simp [mapIdx, hg] at h
      · exact fun h => h.1
  | some s0 =>
      simp only [mapIdx_mapPut]
      by_cases hk : k = k'
      · subst hk
        simp [mem_setDel, mapIdx, hg]
      · simp [hk]

theorem mem_mapIdx_foldl_delInner (topics : List K) (m : List (K × List E)) (k' : K) (e x : E) :
    x ∈ mapIdx (topics.foldl (fun m t => delInner m t e) m) k' ↔
      x ∈ mapIdx m k' ∧ ¬ (k' ∈ topics ∧ x = e) := by
  induction topics generalizing m with
  | nil => simp
  | cons t rest ih =>
      simp only [List.foldl_cons, ih, mem_mapIdx_delInner, List.mem_cons]
      constructor
      · rintro ⟨⟨h1, h2⟩, h3⟩
        refine ⟨h1, ?_⟩
        rintro ⟨h4 | h4, h5⟩
        · exact h2 ⟨h4.symm, h5⟩
        · exact h3 ⟨h4, h5⟩
      · rintro ⟨h1, h2⟩
        exact ⟨⟨h1, fun h => h2 ⟨Or.inl h.1.symm, h.2⟩⟩, fun h => h2 ⟨Or.inr h.1, h.2⟩⟩

end GoMapLemmas

/-! ## Lemmas on `Publish` -/

theorem mem_subIDs (p : Publisher) (topics : List String) (id : PubSubID) :
    id ∈ p.subIDs topics ↔
      id ∈ mapIdx p.Subscribers "" ∨ ∃ t ∈ topics, id ∈ mapIdx p.Subscribers t := by
  have key : ∀ (ts : List String) (acc : List PubSubID),
      id ∈ ts.foldl (fun acc topic => (mapIdx p.Subscribers topic).foldl setAdd acc) acc ↔
        id ∈ acc ∨ ∃ t ∈ ts, id ∈ mapIdx p.Subscribers t := by
    intro ts
    induction ts with
    | nil => intro acc; simp
    | cons t rest ih =>
        intro acc
        simp only [List.foldl_cons, ih, mem_foldl_setAdd, List.mem_cons, exists_eq_or_imp]
        tauto
  unfold Publisher.subIDs
  simp only [mem_foldl_setAdd, key, List.not_mem_nil, false_or]
  exact Or.comm

theorem nodup_subIDs (p : Publisher) (topics : List String) : (p.subIDs topics).Nodup := by
  have key : ∀ (ts : List String) (acc : List PubSubID), acc.Nodup →
      (ts.foldl (fun acc topic => (mapIdx p.Subscribers topic).foldl setAdd acc) acc).Nodup := by
    intro ts
    induction ts with
    | nil => intro acc h; simpa using h
    | cons t rest ih =>
        intro acc h
        exact ih _ (nodup_foldl_setAdd _ _ h)
  exact nodup_foldl_setAdd _ _ (key topics [] List.nodup_nil)

theorem Publish_eq_map (p : Publisher) (topics : List String) (data : List UInt8)
    (msgID : PubSubID) (now : Nat) :
    p.Publish topics data msgID now =
      (p.subIDs topics).map
        (fun subID => Goroutine.dispatch subID (p.mkMessage topics data msgID now)) := by
  unfold Publisher.Publish
  simp only []
  split
  · rename_i h
    rw [List.length_eq_zero.mp h]
    rfl
  · rfl

theorem mem_Publish (p : Publisher) (topics : List String) (data : List UInt8)
    (msgID : PubSubID) (now : Nat) (g : Goroutine) :
    g ∈ p.Publish topics data msgID now ↔
      ∃ id ∈ p.subIDs topics, g = Goroutine.dispatch id (p.mkMessage topics data msgID now) := by
  rw [Publish_eq_map, List.mem_map]
  constructor
  · rintro ⟨id, h1, h2⟩; exact ⟨id, h1, h2.symm⟩
  · rintro ⟨id, h1, h2⟩; exact ⟨id, h1, h2.symm⟩

theorem nodup_Publish (p : Publisher) (topics : List String) (data : List UInt8)
    (msgID : PubSubID) (now : Nat) : (p.Publish topics data msgID now).Nodup := by
  rw [Publish_eq_map]
  refine List.Nodup.map ?_ (nodup_subIDs p topics)
  intro a b h
  simpa using h

/-! ## Lemmas on the consume operations -/

theorem call_closed_cons (s : Subscriber) (k : ConsumeKind) (m : Message) (rest : List Message)
    (h : s.MsgChan.buf = m :: rest) :
    s.call k = (k.ok m, { s with MsgChan := { s.MsgChan with buf := rest } }) := by
  cases k <;>
    simp [Subscriber.call, Subscriber.Consume, Subscriber.ConsumeContext, Subscriber.TryConsume,
      Subscriber.recv?, h, ConsumeKind.ok]

theorem call_closed_nil (s : Subscriber) (k : ConsumeKind)
    (h : s.MsgChan.buf = []) (hc : s.MsgChan.closed = true) :
    s.call k = (k.closedErr, s) := by
  cases k <;>
    simp [Subscriber.call, Subscriber.Consume, Subscriber.ConsumeContext, Subscriber.TryConsume,
      Subscriber.recv?, h, hc, ConsumeKind.closedErr]

theorem calls_closed (kinds : List ConsumeKind) (s : Subscriber) (hc : s.MsgChan.closed = true) :
    (s.calls kinds).1 =
      List.zipWith ConsumeKind.ok kinds s.MsgChan.buf ++
        (kinds.drop s.MsgChan.buf.length).map ConsumeKind.closedErr := by
  induction kinds generalizing s with
  | nil => simp [Subscriber.calls]
  | cons k ks ih =>
      cases hb : s.MsgChan.buf with
      | nil =>
          have hcall := call_closed_nil s k hb hc
          have := ih s hc
          simp only [Subscriber.calls, hcall, this, hb]
          simp
      | cons m rest =>
          have hcall := call_closed_cons s k m rest hb
          have := ih { s with MsgChan := { s.MsgChan with buf := rest } } hc
          simp only [Subscriber.calls, hcall, this]
          simp

/-! ## Lemmas on the mailbox -/

theorem perm_cons_eraseIdx {α : Type} (l : List α) (i : Nat) (a : α) (h : l[i]? = some a) :
    l.Perm (a :: l.eraseIdx i) := by
  induction l generalizing i with
  | nil => simp at h
  | cons b rest ih =>
      cases i with
      | zero =>
          simp only [List.getElem?_cons_zero, Option.some.injEq] at h
          subst h
          simp
      | succ j =>
          simp only [List.getElem?_cons_succ] at h
          simp only [List.eraseIdx_cons_succ]
          exact ((ih j h).cons b).trans (List.Perm.swap a b _)

/-- The three outcomes of `Receive`, by the state of the channel. -/
theorem Receive_cases (s : Subscriber) (msg : Message) :
    (s.MsgChan.closed = true ∧ s.Receive msg = .panics) ∨
    (s.MsgChan.closed = false ∧ s.MsgChan.buf.length < s.MsgChan.cap ∧
      s.Receive msg =
        .sent { s with MsgChan := { s.MsgChan with buf := s.MsgChan.buf ++ [msg] } }) ∨
    (s.MsgChan.closed = false ∧ s.MsgChan.cap ≤ s.MsgChan.buf.length ∧
      s.Receive msg = .blocks) := by
  unfold Subscriber.Receive
  cases hc : s.MsgChan.closed with
  | true => simp
  | false =>
      by_cases hl : s.MsgChan.buf.length < s.MsgChan.cap
      · simp [hl]
      · simp [hl, Nat.le_of_not_lt hl]

/-- The three outcomes of `Consume`, by the state of the channel. -/
theorem Consume_cases (s : Subscriber) :
    (∃ m rest, s.MsgChan.buf = m :: rest ∧
      s.Consume = .returned m none { s with MsgChan := { s.MsgChan with buf := rest } }) ∨
    (s.MsgChan.buf = [] ∧ s.MsgChan.closed = true ∧
      s.Consume = .returned Message.zero (some Error.ErrSubscriberClosed) s) ∨
    (s.MsgChan.buf = [] ∧ s.MsgChan.closed = false ∧ s.Consume = .blocks) := by
  unfold Subscriber.Consume Subscriber.ConsumeContext Subscriber.recv?
  cases hb : s.MsgChan.buf with
  | cons m rest => exact Or.inl ⟨m, rest, rfl, by simp⟩
  | nil =>
      cases hc : s.MsgChan.closed with
      | true => simp
      | false => simp

/-- The three outcomes of `TryConsume`, by the state of the channel. -/
theorem TryConsume_cases (s : Subscriber) :
    (∃ m rest, s.MsgChan.buf = m :: rest ∧
      s.TryConsume = (m, true, none, { s with MsgChan := { s.MsgChan with buf := rest } })) ∨
    (s.MsgChan.buf = [] ∧ s.MsgChan.closed = true ∧
      s.TryConsume = (Message.zero, false, some Error.ErrSubscriberClosed, s)) ∨
    (s.MsgChan.buf = [] ∧ s.MsgChan.closed = false ∧
      s.TryConsume = (Message.zero, false, none, s)) := by
  unfold Subscriber.TryConsume Subscriber.recv?
  cases hb : s.MsgChan.buf with
  | cons m rest => exact Or.inl ⟨m, rest, rfl, by simp⟩
  | nil =>
      cases hc : s.MsgChan.closed with
      | true => simp
      | false => simp

theorem Mailbox.Inv.init (s : Subscriber) :
    Mailbox.Inv s.MsgChan.buf s.MsgChan.cap (Mailbox.init s) := by
  constructor <;> simp [Mailbox.init]

theorem Mailbox.Inv.step {b0 : List Message} {c : Nat} {mb : Mailbox}
    (h : Mailbox.Inv b0 c mb) (op : MailOp) : Mailbox.Inv b0 c (mb.step op) := by
  obtain ⟨hf, hc, ha⟩ := h
  cases op with
  | receive msg =>
      rcases Receive_cases mb.sub msg with ⟨-, hr⟩ | ⟨-, -, hr⟩ | ⟨-, -, hr⟩
      · simp only [Mailbox.step, hr]
        refine ⟨hf, hc, ?_⟩
        simp only [← List.append_assoc]
        exact List.Perm.append_right _ ha
      · simp only [Mailbox.step, hr]
        refine ⟨?_, hc, ?_⟩
        · simp only [← List.append_assoc, hf]
        · have h1 : (b0 ++ mb.handed ++ [msg]).Perm
              (mb.consumed ++ mb.sub.MsgChan.buf ++ mb.blocked ++ mb.failed ++ [msg]) :=
            List.Perm.append_right _ ha
          simp only [← List.append_assoc]
          refine h1.trans ?_
          simp only [List.append_assoc]
          refine List.Perm.append_left _ (List.Perm.append_left _ ?_)
          simp only [← List.append_assoc]
          exact List.perm_append_comm
      · simp only [Mailbox.step, hr]
        refine ⟨hf, hc, ?_⟩
        have h1 : (b0 ++ mb.handed ++ [msg]).Perm
            (mb.consumed ++ mb.sub.MsgChan.buf ++ mb.blocked ++ mb.failed ++ [msg]) :=
          List.Perm.append_right _ ha
        simp only [← List.append_assoc]
        refine h1.trans ?_
        simp only [List.append_assoc]
        refine List.Perm.append_left _ (List.Perm.append_left _ (List.Perm.append_left _ ?_))
        exact List.perm_append_comm
  | resume i =>
      cases hb : mb.blocked[i]? with
      | none => simpa [Mailbox.step, hb] using (⟨hf, hc, ha⟩ : Mailbox.Inv b0 c mb)
      | some msg =>
          have hp := perm_cons_eraseIdx mb.blocked i msg hb
          rcases Receive_cases mb.sub msg with ⟨-, hr⟩ | ⟨-, -, hr⟩ | ⟨-, -, hr⟩
          · simp only [Mailbox.step, hb, hr]
            refine ⟨hf, hc, ha.trans ?_⟩
            simp only [List.append_assoc]
            refine List.Perm.append_left _ (List.Perm.append_left _ ?_)
            refine (List.Perm.append_right _ hp).trans ?_
            simp only [List.cons_append, ← List.append_assoc]
            exact (List.perm_append_singleton _ _).symm
          · simp only [Mailbox.step, hb, hr]
            refine ⟨?_, hc, ha.trans ?_⟩
            · simp only [← List.append_assoc, hf]
            · simp only [List.append_assoc]
              refine List.Perm.append_left _ (List.Perm.append_left _ ?_)
              refine (List.Perm.append_right _ hp).trans ?_
              simp
          · simpa [Mailbox.step, hb, hr] using (⟨hf, hc, ha⟩ : Mailbox.Inv b0 c mb)
  | consume =>
      rcases Consume_cases mb.sub with ⟨m, rest, hb, hr⟩ | ⟨-, -, hr⟩ | ⟨-, -, hr⟩
      · simp only [Mailbox.step, hr]
        rw [hb] at hf ha
        refine ⟨?_, hc, ?_⟩
        · simpa using hf
        · simpa using ha
      · simpa [Mailbox.step, hr] using (⟨hf, hc, ha⟩ : Mailbox.Inv b0 c mb)
      · simpa [Mailbox.step, hr] using (⟨hf, hc, ha⟩ : Mailbox.Inv b0 c mb)
  | tryConsume =>
      rcases TryConsume_cases mb.sub with ⟨m, rest, hb, hr⟩ | ⟨-, -, hr⟩ | ⟨-, -, hr⟩
      · simp only [Mailbox.step, hr]
        rw [hb] at hf ha
        refine ⟨?_, hc, ?_⟩
        · simpa using hf
        · simpa using ha
      · simpa [Mailbox.step, hr] using (⟨hf, hc, ha⟩ : Mailbox.Inv b0 c mb)
      · simpa [Mailbox.step, hr] using (⟨hf, hc, ha⟩ : Mailbox.Inv b0 c mb)
  | close =>
      cases hcl : mb.sub.MsgChan.closed with
      | true => simpa [Mailbox.step, hcl] using (⟨hf, hc, ha⟩ : Mailbox.Inv b0 c mb)
      | false =>
          simp only [Mailbox.step, hcl]
          exact ⟨hf, hc, ha⟩

theorem Mailbox.Inv.run_events {b0 : List Message} {c : Nat} (ops : List MailOp) {mb : Mailbox}
    (h : Mailbox.Inv b0 c mb) : Mailbox.Inv b0 c (mb.run ops) := by
  induction ops generalizing mb with
  | nil => exact h
  | cons op rest ih => exact ih (h.step op)

theorem Consume_cons (s : Subscriber) (m : Message) (rest : List Message)
    (h : s.MsgChan.buf = m :: rest) :
    s.Consume = .returned m none { s with MsgChan := { s.MsgChan with buf := rest } } := by
  simp [Subscriber.Consume, Subscriber.ConsumeContext, Subscriber.recv?, h]

theorem TryConsume_cons (s : Subscriber) (m : Message) (rest : List Message)
    (h : s.MsgChan.buf = m :: rest) :
    s.TryConsume = (m, true, none, { s with MsgChan := { s.MsgChan with buf := rest } }) := by
  simp [Subscriber.TryConsume, Subscriber.recv?, h]

theorem Receive_room (s : Subscriber) (msg : Message) (hopen : s.MsgChan.closed = false)
    (hl : s.MsgChan.buf.length < s.MsgChan.cap) :
    s.Receive msg =
      .sent { s with MsgChan := { s.MsgChan with buf := s.MsgChan.buf ++ [msg] } } := by
  simp [Subscriber.Receive, hopen, hl]

theorem Receive_closed (s : Subscriber) (msg : Message) (hc : s.MsgChan.closed = true) :
    s.Receive msg = .panics := by
  simp [Subscriber.Receive, hc]

/-- On a channel nobody closes: it stays open, never holds more than its
capacity, and no `Receive` call fails. -/
theorem Mailbox.open_step (mb : Mailbox) (op : MailOp) (hop : op ≠ MailOp.close)
    (hopen : mb.sub.MsgChan.closed = false)
    (hlen : mb.sub.MsgChan.buf.length ≤ mb.sub.MsgChan.cap) (hfail : mb.failed = []) :
    (mb.step op).sub.MsgChan.closed = false ∧
    (mb.step op).sub.MsgChan.buf.length ≤ (mb.step op).sub.MsgChan.cap ∧
    (mb.step op).failed = [] := by
  cases op with
  | receive msg =>
      rcases Receive_cases mb.sub msg with ⟨h, -⟩ | ⟨-, hl, hr⟩ | ⟨-, -, hr⟩
      · rw [hopen] at h; cases h
      · simp only [Mailbox.step, hr]
        refine ⟨hopen, ?_, hfail⟩
        simp only [List.length_append, List.length_singleton]
        omega
      · simp only [Mailbox.step, hr]
        exact ⟨hopen, hlen, hfail⟩
  | resume i =>
      cases hb : mb.blocked[i]? with
      | none => simpa [Mailbox.step, hb] using And.intro hopen (And.intro hlen hfail)
      | some msg =>
          rcases Receive_cases mb.sub msg with ⟨h, -⟩ | ⟨-, hl, hr⟩ | ⟨-, -, hr⟩
          · rw [hopen] at h; cases h
          · simp only [Mailbox.step, hb, hr]
            refine ⟨hopen, ?_, hfail⟩
            simp only [List.length_append, List.length_singleton]
            omega
          · simpa [Mailbox.step, hb, hr] using And.intro hopen (And.intro hlen hfail)
  | consume =>
      rcases Consume_cases mb.sub with ⟨m, rest, hb, hr⟩ | ⟨-, -, hr⟩ | ⟨-, -, hr⟩
      · simp only [Mailbox.step, hr]
        rw [hb] at hlen
        refine ⟨hopen, ?_, hfail⟩
        simp only [List.length_cons] at hlen
        omega
      · simpa [Mailbox.step, hr] using And.intro hopen (And.intro hlen hfail)
      · simpa [Mailbox.step, hr] using And.intro hopen (And.intro hlen hfail)
  | tryConsume =>
      rcases TryConsume_cases mb.sub with ⟨m, rest, hb, hr⟩ | ⟨-, -, hr⟩ | ⟨-, -, hr⟩
      · simp only [Mailbox.step, hr]
        rw [hb] at hlen
        refine ⟨hopen, ?_, hfail⟩
        simp only [List.length_cons] at hlen
        simp only [if_true]
        omega
      · simpa [Mailbox.step, hr] using And.intro hopen (And.intro hlen hfail)
      · simpa [Mailbox.step, hr] using And.intro hopen (And.intro hlen hfail)
  | close => exact absurd rfl hop

theorem Mailbox.open_run (ops : List MailOp) (mb : Mailbox) (hops : MailOp.close ∉ ops)
    (hopen : mb.sub.MsgChan.closed = false)
    (hlen : mb.sub.MsgChan.buf.length ≤ mb.sub.MsgChan.cap) (hfail : mb.failed = []) :
    (mb.run ops).sub.MsgChan.closed = false ∧
    (mb.run ops).sub.MsgChan.buf.length ≤ (mb.run ops).sub.MsgChan.cap ∧
    (mb.run ops).failed = [] := by
  induction ops generalizing mb with
  | nil => exact ⟨hopen, hlen, hfail⟩
  | cons op rest ih =>
      have hop : op ≠ MailOp.close := fun h => hops (h ▸ List.mem_cons_self _ _)
      have hrest : MailOp.close ∉ rest := fun h => hops (List.mem_cons_of_mem _ h)
      obtain ⟨h1, h2, h3⟩ := Mailbox.open_step mb op hop hopen hlen hfail
      exact ih (mb.step op) hrest h1 h2 h3

/-! ## Lemmas on the world operations -/

theorem lt_of_getElem?_eq_some {α : Type} {l : List α} {i : Nat} {a : α}
    (h : l[i]? = some a) : i < l.length :=
  (List.getElem?_eq_some.mp h).1

theorem getElem?_set_of_some {α : Type} (l : List α) (i j : Nat) (a b : α)
    (h : l[i]? = some b) :
    (l.set i a)[j]? = if i = j then some a else l[j]? := by
  rw [List.getElem?_set]
  by_cases hij : i = j
  · subst hij
    simp [lt_of_getElem?_eq_some h]
  · simp [hij]

theorem updPub_pubs_get (w : World) (p p1 : Nat) (f : Publisher → Publisher) :
    (w.updPub p f).pubs[p1]? = if p = p1 then (w.pubs[p1]?).map f else w.pubs[p1]? := by
  unfold World.updPub
  cases h : w.pubs[p]? with
  | none =>
      by_cases hp : p = p1
      · subst hp; simp [World.panic, h]
      · simp [World.panic, hp]
  | some P =>
      simp only [getElem?_set_of_some w.pubs p p1 (f P) P h]
      by_cases hp : p = p1
      · subst hp; simp [h]
      · simp [hp]

theorem updPub_frame (w : World) (p : Nat) (f : Publisher → Publisher) :
    (w.updPub p f).subs = w.subs ∧ (w.updPub p f).Publishers = w.Publishers ∧
    (w.updPub p f).Subscribers = w.Subscribers ∧ (w.updPub p f).goroutines = w.goroutines := by
  unfold World.updPub
  cases h : w.pubs[p]? <;> simp [World.panic]

theorem Subscribe_frame (w : World) (s : Nat) (pubID : PubSubID) (topic : String) :
    (w.Subscribe s pubID topic).Publishers = w.Publishers ∧
    (w.Subscribe s pubID topic).Subscribers = w.Subscribers ∧
    (w.Subscribe s pubID topic).goroutines = w.goroutines := by
  unfold World.Subscribe
  cases hS : w.subs[s]? with
  | none => simp [World.panic]
  | some S =>
      simp only [World.GetPublisher]
      split
      · rename_i p hP
        obtain ⟨-, h2, h3, h4⟩ := updPub_frame
          (World.mk w.pubs
            (w.subs.set s (Subscriber.mk S.ID (addInner S.Subscriptions pubID topic) S.MsgChan))
            w.Publishers w.Subscribers w.goroutines w.panicked)
          p (fun pub => pub.AddSubscriber S.ID topic)
        exact ⟨h2, h3, h4⟩
      · simp

theorem Subscribe_subs (w : World) (s : Nat) (S : Subscriber) (pubID : PubSubID)
    (topic : String) (hS : w.subs[s]? = some S) :
    (w.Subscribe s pubID topic).subs =
      w.subs.set s (Subscriber.mk S.ID (addInner S.Subscriptions pubID topic) S.MsgChan) := by
  unfold World.Subscribe
  simp only [hS, World.GetPublisher]
  split
  · rename_i p hP
    exact (updPub_frame
      (World.mk w.pubs
        (w.subs.set s (Subscriber.mk S.ID (addInner S.Subscriptions pubID topic) S.MsgChan))
        w.Publishers w.Subscribers w.goroutines w.panicked)
      p (fun pub => pub.AddSubscriber S.ID topic)).1
  · rfl

theorem Subscribe_pubs_get (w : World) (s : Nat) (S : Subscriber) (pubID : PubSubID)
    (topic : String) (hS : w.subs[s]? = some S) (p1 : Nat) :
    (w.Subscribe s pubID topic).pubs[p1]? =
      if w.GetPublisher pubID = some p1
      then (w.pubs[p1]?).map (fun pub => pub.AddSubscriber S.ID topic)
      else w.pubs[p1]? := by
  unfold World.Subscribe
  simp only [hS, World.GetPublisher]
  split
  · rename_i p hP
    simp only [updPub_pubs_get, hP, Option.some.injEq]
  · rename_i hP
    simp [hP]

theorem Publish_frame (w : World) (p : Nat) (topics : List String) (data : List UInt8)
    (msgID : PubSubID) (now : Nat) :
    (w.Publish p topics data msgID now).pubs = w.pubs ∧
    (w.Publish p topics data msgID now).subs = w.subs ∧
    (w.Publish p topics data msgID now).Publishers = w.Publishers ∧
    (w.Publish p topics data msgID now).Subscribers = w.Subscribers := by
  unfold World.Publish
  cases h : w.pubs[p]? <;> simp [World.panic]

/-! ## Lemmas on closed subscribers -/

theorem ConsumeContext_staysClosed (S : Subscriber) (e : Option Error) (c : Bool)
    (m : Message) (err : Option Error) (S1 : Subscriber)
    (hr : S.ConsumeContext e c = .returned m err S1) (hc : S.MsgChan.closed = true) :
    S.staysClosed S1 := by
  unfold Subscriber.ConsumeContext Subscriber.recv? at hr
  cases hb : S.MsgChan.buf with
  | nil =>
      rw [hb] at hr
      simp only [hc, if_true] at hr
      cases e with
      | none =>
          simp at hr
          obtain ⟨-, -, h⟩ := hr
          subst h
          exact ⟨rfl, hc, List.suffix_refl _⟩
      | some e0 =>
          cases c <;> simp at hr <;> obtain ⟨-, -, h⟩ := hr <;> subst h <;>
            exact ⟨rfl, hc, List.suffix_refl _⟩
  | cons m0 rest =>
      rw [hb] at hr
      cases e with
      | none =>
          simp at hr
          obtain ⟨-, -, h⟩ := hr
          subst h
          exact ⟨rfl, hc, by simp [hb, List.suffix_cons]⟩
      | some e0 =>
          cases c <;> simp at hr <;> obtain ⟨-, -, h⟩ := hr <;> subst h
          · exact ⟨rfl, hc, by simp [hb, List.suffix_cons]⟩
          · exact ⟨rfl, hc, List.suffix_refl _⟩

theorem TryConsume_staysClosed (S : Subscriber) (hc : S.MsgChan.closed = true) :
    S.staysClosed S.TryConsume.2.2.2 := by
  rcases TryConsume_cases S with ⟨m, rest, hb, hr⟩ | ⟨-, -, hr⟩ | ⟨-, -, hr⟩
  · rw [hr]
    exact ⟨rfl, hc, by simp [hb, List.suffix_cons]⟩
  · rw [hr]
    exact ⟨rfl, hc, List.suffix_refl _⟩
  · rw [hr]
    exact ⟨rfl, hc, List.suffix_refl _⟩

theorem keepsClosed_of_subs_eq (w w1 : World) (h : w1.subs = w.subs) : w.keepsClosed w1 := by
  intro s S hS hc
  exact ⟨S, by rw [h, hS], rfl, hc, List.suffix_refl _⟩

theorem keepsClosed_refl (w : World) : w.keepsClosed w :=
  keepsClosed_of_subs_eq w w rfl

theorem keepsClosed_trans {w w1 w2 : World} (h1 : w.keepsClosed w1) (h2 : w1.keepsClosed w2) :
    w.keepsClosed w2 := by
  intro s S hS hc
  obtain ⟨S1, hS1, hid1, hc1, hb1⟩ := h1 s S hS hc
  obtain ⟨S2, hS2, hid2, hc2, hb2⟩ := h2 s S1 hS1 hc1
  exact ⟨S2, hS2, hid2.trans hid1, hc2, hb2.trans hb1⟩

theorem keepsClosed_set (w w1 : World) (s1 : Nat) (S1 S2 : Subscriber)
    (hS1 : w.subs[s1]? = some S1) (h : w1.subs = w.subs.set s1 S2)
    (hrel : S1.MsgChan.closed = true → S1.staysClosed S2) : w.keepsClosed w1 := by
  intro s S hS hc
  rw [h, getElem?_set_of_some w.subs s1 s S2 S1 hS1]
  by_cases hs : s1 = s
  · subst hs
    rw [hS1] at hS
    cases hS
    exact ⟨S2, by simp, hrel hc⟩
  · exact ⟨S, by simp [hs, hS], rfl, hc, List.suffix_refl _⟩

theorem keepsClosed_append (w w1 : World) (l : List Subscriber) (h : w1.subs = w.subs ++ l) :
    w.keepsClosed w1 := by
  intro s S hS hc
  refine ⟨S, ?_, rfl, hc, List.suffix_refl _⟩
  rw [h, List.getElem?_append_left (lt_of_getElem?_eq_some hS), hS]

theorem updPub_keepsClosed (w : World) (p : Nat) (f : Publisher → Publisher) :
    w.keepsClosed (w.updPub p f) :=
  keepsClosed_of_subs_eq _ _ (updPub_frame w p f).1

theorem RegisterPublisher_subs (w : World) (p : Nat) : (w.RegisterPublisher p).subs = w.subs := by
  unfold World.RegisterPublisher
  cases w.pubs[p]? <;> rfl

theorem RegisterSubscriber_subs (w : World) (s : Nat) :
    (w.RegisterSubscriber s).subs = w.subs := by
  unfold World.RegisterSubscriber
  cases w.subs[s]? <;> rfl

theorem makeChan_eq_some (n limit : Nat) (ch : Chan) (h : makeChan n limit = some ch) :
    ch = ⟨n, [], false⟩ ∧ n * messageSize < 18446744073709551616 ∧ n ≤ limit := by
  unfold makeChan at h
  split at h
  · rename_i hc
    simp only [Option.some.injEq] at h
    exact ⟨h.symm, hc⟩
  · cases h

theorem makeChan_eq_none (n limit : Nat) (h : makeChan n limit = none) :
    ¬ (n * messageSize < 18446744073709551616 ∧ n ≤ limit) := by
  unfold makeChan at h
  split at h
  · cases h
  · assumption

theorem NewSubscriber_cases (w : World) (id : PubSubID) (n : Int) (a : Bool) (limit : Nat) :
    (makeChan (bufferCap n) limit = none ∧
      w.NewSubscriber id n a limit = (w.panic, none)) ∨
    (makeChan (bufferCap n) limit = some ⟨bufferCap n, [], false⟩ ∧
      w.NewSubscriber id n a limit =
        (if a then
            (World.mk w.pubs (w.subs ++ [Subscriber.mk id [] ⟨bufferCap n, [], false⟩])
              w.Publishers w.Subscribers w.goroutines w.panicked).RegisterSubscriber
              w.subs.length
          else
            World.mk w.pubs (w.subs ++ [Subscriber.mk id [] ⟨bufferCap n, [], false⟩])
              w.Publishers w.Subscribers w.goroutines w.panicked,
         some w.subs.length)) := by
  cases hm : makeChan (bufferCap n) limit with
  | none =>
      left
      refine ⟨rfl, ?_⟩
      simp only [World.NewSubscriber, hm]
  | some ch =>
      right
      obtain ⟨hch, -⟩ := makeChan_eq_some _ _ _ hm
      subst hch
      refine ⟨rfl, ?_⟩
      simp only [World.NewSubscriber, hm]

theorem NewSubscriber_subs (w : World) (id : PubSubID) (n : Int) (a : Bool) (limit : Nat) :
    (w.NewSubscriber id n a limit).1.subs = w.subs ∨
    (w.NewSubscriber id n a limit).1.subs =
      w.subs ++ [Subscriber.mk id [] ⟨bufferCap n, [], false⟩] := by
  rcases NewSubscriber_cases w id n a limit with ⟨-, h⟩ | ⟨-, h⟩
  · left
    rw [h]
    rfl
  · right
    rw [h]
    cases a
    · rfl
    · simp only [if_true, RegisterSubscriber_subs]

theorem UnregisterPublisher_subs (w : World) (p : Nat) :
    (w.UnregisterPublisher p).subs = w.subs := by
  unfold World.UnregisterPublisher
  cases w.pubs[p]? <;> rfl

theorem UnregisterSubscriber_subs (w : World) (s : Nat) :
    (w.UnregisterSubscriber s).subs = w.subs := by
  unfold World.UnregisterSubscriber
  cases w.subs[s]? <;> rfl

theorem deliver_keepsClosed (w : World) (i s : Nat) (msg : Message) :
    w.keepsClosed (w.deliver i s msg) := by
  unfold World.deliver
  cases hS : w.subs[s]? with
  | none => exact keepsClosed_of_subs_eq _ _ rfl
  | some S =>
      rcases Receive_cases S msg with ⟨-, hr⟩ | ⟨ho, -, hr⟩ | ⟨-, -, hr⟩
      · simp only [hr]
        exact keepsClosed_of_subs_eq _ _ rfl
      · simp only [hr]
        refine keepsClosed_set _ _ s S _ hS rfl ?_
        intro hc
        rw [ho] at hc
        cases hc
      · simp only [hr]
        exact keepsClosed_of_subs_eq _ _ rfl

theorem step_keepsClosed (w : World) (op : Op) : w.keepsClosed (w.step op) := by
  cases op with
  | NewPublisher id a =>
      refine keepsClosed_of_subs_eq _ _ ?_
      simp only [World.step, World.NewPublisher]
      split
      · rw [RegisterPublisher_subs]
      · rfl
  | NewSubscriber id n a limit =>
      rcases NewSubscriber_subs w id n a limit with h | h
      · exact keepsClosed_of_subs_eq _ _ h
      · exact keepsClosed_append _ _ [Subscriber.mk id [] ⟨bufferCap n, [], false⟩] h
  | RegisterPublisher p => exact keepsClosed_of_subs_eq _ _ (RegisterPublisher_subs w p)
  | RegisterSubscriber s => exact keepsClosed_of_subs_eq _ _ (RegisterSubscriber_subs w s)
  | UnregisterPublisher p => exact keepsClosed_of_subs_eq _ _ (UnregisterPublisher_subs w p)
  | UnregisterSubscriber s => exact keepsClosed_of_subs_eq _ _ (UnregisterSubscriber_subs w s)
  | AddSubscriber p subID topic => exact updPub_keepsClosed w p _
  | RemoveSubscriber p subID topics => exact updPub_keepsClosed w p _
  | Publish p topics data msgID now =>
      exact keepsClosed_of_subs_eq _ _ (Publish_frame w p topics data msgID now).2.1
  | PublisherUnregister p => exact keepsClosed_of_subs_eq _ _ (UnregisterPublisher_subs w p)
  | Subscribe s pubID topic =>
      cases hS : w.subs[s]? with
      | none =>
          refine keepsClosed_of_subs_eq _ _ ?_
          simp [World.step, World.Subscribe, hS, World.panic]
      | some S =>
          refine keepsClosed_set _ _ s S _ hS (Subscribe_subs w s S pubID topic hS) ?_
          intro hc
          exact ⟨rfl, hc, List.suffix_refl _⟩
  | UnsubscribePublisher s pubID =>
      simp only [World.step, World.UnsubscribePublisher]
      cases hS : w.subs[s]? with
      | none => exact keepsClosed_of_subs_eq _ _ rfl
      | some S =>
          simp only []
          split
          · exact keepsClosed_refl w
          · refine keepsClosed_set _ _ s S
              (Subscriber.mk S.ID (mapDel S.Subscriptions pubID) S.MsgChan) hS ?_ ?_
            · simp only [World.GetPublisher]
              split
              · rw [(updPub_frame _ _ _).1]
              · rfl
            · intro hc
              exact ⟨rfl, hc, List.suffix_refl _⟩
  | UnsubscribeTopic s pubID topics =>
      simp only [World.step, World.UnsubscribeTopic]
      cases hS : w.subs[s]? with
      | none => exact keepsClosed_of_subs_eq _ _ rfl
      | some S =>
          simp only []
          split
          · exact keepsClosed_refl w
          · refine keepsClosed_set _ _ s S
              (Subscriber.mk S.ID (topics.foldl (unsubscribeStep pubID) S.Subscriptions)
                S.MsgChan) hS ?_ ?_
            · simp only [World.GetPublisher]
              split
              · rw [(updPub_frame _ _ _).1]
              · rfl
            · intro hc
              exact ⟨rfl, hc, List.suffix_refl _⟩
  | Receive s msg =>
      simp only [World.step, World.Receive]
      cases hS : w.subs[s]? with
      | none => exact keepsClosed_of_subs_eq _ _ rfl
      | some S =>
          rcases Receive_cases S msg with ⟨-, hr⟩ | ⟨ho, -, hr⟩ | ⟨-, -, hr⟩
          · simp only [hr]
            exact keepsClosed_of_subs_eq _ _ rfl
          · simp only [hr]
            refine keepsClosed_set _ _ s S _ hS rfl ?_
            intro hc
            rw [ho] at hc
            cases hc
          · simp only [hr]
            exact keepsClosed_of_subs_eq _ _ rfl
  | ConsumeContext s e c =>
      simp only [World.step, World.ConsumeContext]
      cases hS : w.subs[s]? with
      | none => exact keepsClosed_of_subs_eq _ _ rfl
      | some S =>
          simp only []
          cases hr : S.ConsumeContext e c with
          | blocks => exact keepsClosed_refl w
          | returned m err S1 =>
              refine keepsClosed_set _ _ s S S1 hS rfl ?_
              intro hc
              exact ConsumeContext_staysClosed S e c m err S1 hr hc
  | Consume s =>
      simp only [World.step, World.Consume, World.ConsumeContext]
      cases hS : w.subs[s]? with
      | none => exact keepsClosed_of_subs_eq _ _ rfl
      | some S =>
          simp only []
          cases hr : S.ConsumeContext none false with
          | blocks => exact keepsClosed_refl w
          | returned m err S1 =>
              refine keepsClosed_set _ _ s S S1 hS rfl ?_
              intro hc
              exact ConsumeContext_staysClosed S none false m err S1 hr hc
  | TryConsume s =>
      simp only [World.step, World.TryConsume, World.updSub]
      cases hS : w.subs[s]? with
      | none => exact keepsClosed_of_subs_eq _ _ rfl
      | some S =>
          refine keepsClosed_set _ _ s S _ hS rfl ?_
          intro hc
          exact TryConsume_staysClosed S hc
  | SubscriberUnregister s =>
      simp only [World.step, World.SubscriberUnregister]
      cases hS : w.subs[s]? with
      | none => exact keepsClosed_of_subs_eq _ _ rfl
      | some S =>
          simp only []
          split
          · exact keepsClosed_of_subs_eq _ _ rfl
          · refine keepsClosed_set _ _ s S
              (Subscriber.mk S.ID S.Subscriptions ⟨S.MsgChan.cap, S.MsgChan.buf, true⟩) hS ?_ ?_
            · rw [UnregisterSubscriber_subs]
            · intro hc
              exact ⟨rfl, rfl, List.suffix_refl _⟩
  | runGoroutine i =>
      simp only [World.step, World.runGoroutine]
      split
      · exact keepsClosed_refl w
      · split
        · exact keepsClosed_of_subs_eq _ _ rfl
        · exact deliver_keepsClosed w i _ _
      · exact deliver_keepsClosed w i _ _

theorem run_keepsClosed (ops : List Op) (w : World) : w.keepsClosed (w.run ops) := by
  induction ops generalizing w with
  | nil => exact keepsClosed_refl w
  | cons op rest ih => exact keepsClosed_trans (step_keepsClosed w op) (ih (w.step op))

/-! ## Lemmas on the subscription calls -/

theorem mapIdx_unsubscribeStep (pubID : PubSubID) (m : List (PubSubID × List String))
    (t : String) (k : PubSubID) :
    mapIdx (unsubscribeStep pubID m t) k = mapIdx (delInner m pubID t) k := by
  unfold unsubscribeStep
  simp only []
  split
  · rename_i h
    rw [mapIdx_mapDel]
    by_cases hk : pubID = k
    · subst hk
      simp [List.length_eq_zero.mp h]
    · simp [hk]
  · rfl

theorem mem_mapIdx_unsubscribe (topics : List String) (pubID : PubSubID)
    (m : List (PubSubID × List String)) (k : PubSubID) (T : String) :
    T ∈ mapIdx (topics.foldl (unsubscribeStep pubID) m) k ↔
      T ∈ mapIdx m k ∧ ¬ (k = pubID ∧ T ∈ topics) := by
  induction topics generalizing m with
  | nil => simp
  | cons t rest ih =>
      simp only [List.foldl_cons, ih, mapIdx_unsubscribeStep, mem_mapIdx_delInner, List.mem_cons]
      constructor
      · rintro ⟨⟨h1, h2⟩, h3⟩
        refine ⟨h1, ?_⟩
        rintro ⟨h4, h5 | h5⟩
        · exact h2 ⟨h4.symm, h5⟩
        · exact h3 ⟨h4, h5⟩
      · rintro ⟨h1, h2⟩
        exact ⟨⟨h1, fun h => h2 ⟨h.1.symm, Or.inl h.2⟩⟩, fun h => h2 ⟨h.1, Or.inr h.2⟩⟩

theorem mem_Subscribers_AddSubscriber (P : Publisher) (subID id : PubSubID) (topic T : String) :
    id ∈ mapIdx (P.AddSubscriber subID topic).Subscribers T ↔
      id ∈ mapIdx P.Subscribers T ∨ (topic = T ∧ id = subID) := by
  simp only [Publisher.AddSubscriber]
  exact mem_mapIdx_addInner _ _ _ _ _

theorem mem_Subscribers_RemoveSubscriber (P : Publisher) (subID id : PubSubID)
    (topics : List String) (T : String) :
    id ∈ mapIdx (P.RemoveSubscriber subID topics).Subscribers T ↔
      id ∈ mapIdx P.Subscribers T ∧ ¬ (T ∈ topics ∧ id = subID) := by
  simp only [Publisher.RemoveSubscriber]
  exact mem_mapIdx_foldl_delInner _ _ _ _ _

theorem UnsubscribeTopic_absent (w : World) (s : Nat) (S : Subscriber) (pubID : PubSubID)
    (topics : List String) (hS : w.subs[s]? = some S)
    (hk : mapGet? S.Subscriptions pubID = none) :
    w.UnsubscribeTopic s pubID topics = w := by
  simp [World.UnsubscribeTopic, hS, hk]

theorem UnsubscribeTopic_frame (w : World) (s : Nat) (pubID : PubSubID) (topics : List String) :
    (w.UnsubscribeTopic s pubID topics).Publishers = w.Publishers ∧
    (w.UnsubscribeTopic s pubID topics).Subscribers = w.Subscribers ∧
    (w.UnsubscribeTopic s pubID topics).goroutines = w.goroutines := by
  unfold World.UnsubscribeTopic
  cases hS : w.subs[s]? with
  | none => simp [World.panic]
  | some S =>
      simp only []
      split
      · simp
      · simp only [World.GetPublisher]
        split
        · rename_i p hP
          obtain ⟨-, h2, h3, h4⟩ := updPub_frame
            (World.mk w.pubs
              (w.subs.set s (Subscriber.mk S.ID
                (topics.foldl (unsubscribeStep pubID) S.Subscriptions) S.MsgChan))
              w.Publishers w.Subscribers w.goroutines w.panicked)
            p (fun pub => pub.RemoveSubscriber S.ID topics)
          exact ⟨h2, h3, h4⟩
        · simp

theorem UnsubscribeTopic_subs (w : World) (s : Nat) (S : Subscriber) (pubID : PubSubID)
    (topics ts : List String) (hS : w.subs[s]? = some S)
    (hk : mapGet? S.Subscriptions pubID = some ts) :
    (w.UnsubscribeTopic s pubID topics).subs =
      w.subs.set s (Subscriber.mk S.ID
        (topics.foldl (unsubscribeStep pubID) S.Subscriptions) S.MsgChan) := by
  unfold World.UnsubscribeTopic
  simp only [hS, hk, World.GetPublisher]
  split
  · rename_i p hP
    exact (updPub_frame
      (World.mk w.pubs
        (w.subs.set s (Subscriber.mk S.ID
          (topics.foldl (unsubscribeStep pubID) S.Subscriptions) S.MsgChan))
        w.Publishers w.Subscribers w.goroutines w.panicked)
      p (fun pub => pub.RemoveSubscriber S.ID topics)).1
  · rfl

theorem UnsubscribeTopic_pubs_get (w : World) (s : Nat) (S : Subscriber) (pubID : PubSubID)
    (topics ts : List String) (hS : w.subs[s]? = some S)
    (hk : mapGet? S.Subscriptions pubID = some ts) (p1 : Nat) :
    (w.UnsubscribeTopic s pubID topics).pubs[p1]? =
      if w.GetPublisher pubID = some p1
      then (w.pubs[p1]?).map (fun pub => pub.RemoveSubscriber S.ID topics)
      else w.pubs[p1]? := by
  unfold World.UnsubscribeTopic
  simp only [hS, hk, World.GetPublisher]
  split
  · rename_i p hP
    simp only [updPub_pubs_get, hP, Option.some.injEq]
  · rename_i hP
    simp [hP]

theorem UnsubscribePublisher_absent (w : World) (s : Nat) (S : Subscriber) (pubID : PubSubID)
    (hS : w.subs[s]? = some S) (hk : mapGet? S.Subscriptions pubID = none) :
    w.UnsubscribePublisher s pubID = w := by
  simp [World.UnsubscribePublisher, hS, hk]

theorem UnsubscribePublisher_frame (w : World) (s : Nat) (pubID : PubSubID) :
    (w.UnsubscribePublisher s pubID).Publishers = w.Publishers ∧
    (w.UnsubscribePublisher s pubID).Subscribers = w.Subscribers ∧
    (w.UnsubscribePublisher s pubID).goroutines = w.goroutines := by
  unfold World.UnsubscribePublisher
  cases hS : w.subs[s]? with
  | none => simp [World.panic]
  | some S =>
      simp only []
      split
      · simp
      · rename_i ts hk
        simp only [World.GetPublisher]
        split
        · rename_i p hP
          obtain ⟨-, h2, h3, h4⟩ := updPub_frame
            (World.mk w.pubs
              (w.subs.set s (Subscriber.mk S.ID (mapDel S.Subscriptions pubID) S.MsgChan))
              w.Publishers w.Subscribers w.goroutines w.panicked)
            p (fun pub => pub.RemoveSubscriber S.ID ts)
          exact ⟨h2, h3, h4⟩
        · simp

theorem UnsubscribePublisher_subs (w : World) (s : Nat) (S : Subscriber) (pubID : PubSubID)
    (ts : List String) (hS : w.subs[s]? = some S)
    (hk : mapGet? S.Subscriptions pubID = some ts) :
    (w.UnsubscribePublisher s pubID).subs =
      w.subs.set s (Subscriber.mk S.ID (mapDel S.Subscriptions pubID) S.MsgChan) := by
  unfold World.UnsubscribePublisher
  simp only [hS, hk, World.GetPublisher]
  split
  · rename_i p hP
    exact (updPub_frame
      (World.mk w.pubs
        (w.subs.set s (Subscriber.mk S.ID (mapDel S.Subscriptions pubID) S.MsgChan))
        w.Publishers w.Subscribers w.goroutines w.panicked)
      p (fun pub => pub.RemoveSubscriber S.ID ts)).1
  · rfl

theorem UnsubscribePublisher_pubs_get (w : World) (s : Nat) (S : Subscriber)
    (pubID : PubSubID) (ts : List String) (hS : w.subs[s]? = some S)
    (hk : mapGet? S.Subscriptions pubID = some ts) (p1 : Nat) :
    (w.UnsubscribePublisher s pubID).pubs[p1]? =
      if w.GetPublisher pubID = some p1
      then (w.pubs[p1]?).map (fun pub => pub.RemoveSubscriber S.ID ts)
      else w.pubs[p1]? := by
  unfold World.UnsubscribePublisher
  simp only [hS, hk, World.GetPublisher]
  split
  · rename_i p hP
    simp only [updPub_pubs_get, hP, Option.some.injEq]
  · rename_i hP
    simp [hP]

/-- The common shape of the three subscription calls: the caller's
subscription map is replaced by `L1`, which differs from the old one at key
`pubID` only, and the publisher `pubID` resolves to (if any) is changed by `g`,
which touches the caller's membership only and mirrors the local change. -/
theorem World.Linked.update {w w1 : World} (h : w.Linked) (s : Nat) (S : Subscriber)
    (pubID : PubSubID) (L1 : List (PubSubID × List String)) (g : Publisher → Publisher)
    (hS : w.subs[s]? = some S)
    (hsubs : w1.subs = w.subs.set s (Subscriber.mk S.ID L1 S.MsgChan))
    (hpubs : ∀ p1, w1.pubs[p1]? =
      if w.GetPublisher pubID = some p1 then (w.pubs[p1]?).map g else w.pubs[p1]?)
    (hreg : w1.Publishers = w.Publishers)
    (hgID : ∀ P, (g P).ID = P.ID)
    (hother : ∀ k T, k ≠ pubID → (T ∈ mapIdx L1 k ↔ T ∈ mapIdx S.Subscriptions k))
    (hgother : ∀ P id T, id ≠ S.ID →
      (id ∈ mapIdx (g P).Subscribers T ↔ id ∈ mapIdx P.Subscribers T))
    (hcons : ∀ P T, P.ID = pubID →
      (T ∈ mapIdx S.Subscriptions pubID ↔ S.ID ∈ mapIdx P.Subscribers T) →
      (T ∈ mapIdx L1 pubID ↔ S.ID ∈ mapIdx (g P).Subscribers T)) :
    w1.Linked := by
  have hsubget : ∀ s1, w1.subs[s1]? =
      if s = s1 then some (Subscriber.mk S.ID L1 S.MsgChan) else w.subs[s1]? := by
    intro s1
    rw [hsubs, getElem?_set_of_some w.subs s s1 _ S hS]
  have hsuborig : ∀ (s1 : Nat) (S1 : Subscriber), w1.subs[s1]? = some S1 →
      ∃ S0 : Subscriber, w.subs[s1]? = some S0 ∧ S0.ID = S1.ID := by
    intro s1 S1 h1
    rw [hsubget] at h1
    by_cases hs : s = s1
    · subst hs
      simp only [if_true, Option.some.injEq] at h1
      subst h1
      exact ⟨S, hS, rfl⟩
    · simp only [hs, if_false] at h1
      exact ⟨S1, h1, rfl⟩
  have hpuborig : ∀ (p1 : Nat) (P1 : Publisher), w1.pubs[p1]? = some P1 →
      ∃ P0 : Publisher, w.pubs[p1]? = some P0 ∧ P0.ID = P1.ID := by
    intro p1 P1 h1
    rw [hpubs] at h1
    split at h1
    · cases h0 : w.pubs[p1]? with
      | none => rw [h0] at h1; cases h1
      | some P0 =>
          rw [h0] at h1
          simp only [Option.map_some', Option.some.injEq] at h1
          subst h1
          exact ⟨P0, rfl, (hgID P0).symm⟩
    · exact ⟨P1, h1, rfl⟩
  have hget : ∀ id, w1.GetPublisher id = w.GetPublisher id := by
    intro id
    simp only [World.GetPublisher, hreg]
  refine ⟨?_, ?_, ?_, ?_⟩
  · intro s1 s2 S1 S2 h1 h2 hid
    obtain ⟨A, hA, hAid⟩ := hsuborig s1 S1 h1
    obtain ⟨B, hB, hBid⟩ := hsuborig s2 S2 h2
    exact h.subDistinct s1 s2 A B hA hB (by rw [hAid, hBid, hid])
  · intro p1 P1 h1
    obtain ⟨P0, hP0, hid⟩ := hpuborig p1 P1 h1
    rw [hget, ← hid]
    exact h.pubResolves p1 P0 hP0
  · intro id p1 P1 hg h1
    obtain ⟨P0, hP0, hid⟩ := hpuborig p1 P1 h1
    rw [hget] at hg
    rw [← hid]
    exact h.resolveSound id p1 P0 hg hP0
  · intro s1 S1 p1 P1 T h1 h2
    rw [hsubget] at h1
    rw [hpubs] at h2
    by_cases hs : s = s1
    · subst hs
      simp only [if_true, Option.some.injEq] at h1
      subst h1
      by_cases hp : w.GetPublisher pubID = some p1
      · simp only [hp, if_true] at h2
        cases h0 : w.pubs[p1]? with
        | none => rw [h0] at h2; cases h2
        | some P0 =>
            rw [h0] at h2
            simp only [Option.map_some', Option.some.injEq] at h2
            subst h2
            have hid : P0.ID = pubID := h.resolveSound pubID p1 P0 hp h0
            rw [hgID, hid]
            have hold := h.agree s S p1 P0 T hS h0
            rw [hid] at hold
            exact hcons P0 T hid hold
      · simp only [hp, if_false] at h2
        have hne : P1.ID ≠ pubID := by
          intro heq
          have := h.pubResolves p1 P1 h2
          rw [heq] at this
          exact hp this
        have hold := h.agree s S p1 P1 T hS h2
        exact (hother P1.ID T hne).trans hold
    · simp only [hs, if_false] at h1
      have hne : S1.ID ≠ S.ID := by
        intro heq
        exact hs (h.subDistinct s s1 S S1 hS h1 heq.symm)
      by_cases hp : w.GetPublisher pubID = some p1
      · simp only [hp, if_true] at h2
        cases h0 : w.pubs[p1]? with
        | none => rw [h0] at h2; cases h2
        | some P0 =>
            rw [h0] at h2
            simp only [Option.map_some', Option.some.injEq] at h2
            subst h2
            rw [hgID]
            exact (h.agree s1 S1 p1 P0 T h1 h0).trans (hgother P0 S1.ID T hne).symm
      · simp only [hp, if_false] at h2
        exact h.agree s1 S1 p1 P1 T h1 h2

theorem World.Linked.panic {w : World} (h : w.Linked) : w.panic.Linked :=
  ⟨h.subDistinct, h.pubResolves, h.resolveSound, h.agree⟩

theorem World.Linked.Subscribe {w : World} (h : w.Linked) (s : Nat) (pubID : PubSubID)
    (topic : String) : (w.Subscribe s pubID topic).Linked := by
  cases hS : w.subs[s]? with
  | none =>
      have : w.Subscribe s pubID topic = w.panic := by simp [World.Subscribe, hS]
      rw [this]
      exact h.panic
  | some S =>
      refine h.update s S pubID (addInner S.Subscriptions pubID topic)
        (fun pub => pub.AddSubscriber S.ID topic) hS (Subscribe_subs w s S pubID topic hS)
        (Subscribe_pubs_get w s S pubID topic hS) (Subscribe_frame w s pubID topic).1
        (fun _ => rfl) ?_ ?_ ?_
      · intro k T hk
        rw [mem_mapIdx_addInner]
        constructor
        · rintro (h1 | ⟨h1, -⟩)
          · exact h1
          · exact absurd h1.symm hk
        · exact Or.inl
      · intro P id T hid
        rw [mem_Subscribers_AddSubscriber]
        constructor
        · rintro (h1 | ⟨-, h1⟩)
          · exact h1
          · exact absurd h1 hid
        · exact Or.inl
      · intro P T _ hold
        rw [mem_mapIdx_addInner, mem_Subscribers_AddSubscriber, hold]
        constructor
        · rintro (h1 | ⟨-, h1⟩)
          · exact Or.inl h1
          · exact Or.inr ⟨h1.symm, rfl⟩
        · rintro (h1 | ⟨h1, -⟩)
          · exact Or.inl h1
          · exact Or.inr ⟨rfl, h1.symm⟩

theorem World.Linked.UnsubscribeTopic {w : World} (h : w.Linked) (s : Nat) (pubID : PubSubID)
    (topics : List String) : (w.UnsubscribeTopic s pubID topics).Linked := by
  cases hS : w.subs[s]? with
  | none =>
      have : w.UnsubscribeTopic s pubID topics = w.panic := by
        simp [World.UnsubscribeTopic, hS]
      rw [this]
      exact h.panic
  | some S =>
      cases hk : mapGet? S.Subscriptions pubID with
      | none =>
          rw [UnsubscribeTopic_absent w s S pubID topics hS hk]
          exact h
      | some ts =>
          refine h.update s S pubID (topics.foldl (unsubscribeStep pubID) S.Subscriptions)
            (fun pub => pub.RemoveSubscriber S.ID topics) hS
            (UnsubscribeTopic_subs w s S pubID topics ts hS hk)
            (UnsubscribeTopic_pubs_get w s S pubID topics ts hS hk)
            (UnsubscribeTopic_frame w s pubID topics).1 (fun _ => rfl) ?_ ?_ ?_
          · intro k T hne
            rw [mem_mapIdx_unsubscribe]
            constructor
            · exact fun h1 => h1.1
            · exact fun h1 => ⟨h1, fun h2 => hne h2.1⟩
          · intro P id T hid
            rw [mem_Subscribers_RemoveSubscriber]
            constructor
            · exact fun h1 => h1.1
            · exact fun h1 => ⟨h1, fun h2 => hid h2.2⟩
          · intro P T _ hold
            rw [mem_mapIdx_unsubscribe, mem_Subscribers_RemoveSubscriber, hold]
            constructor
            · exact fun h1 => ⟨h1.1, fun h2 => h1.2 ⟨rfl, h2.1⟩⟩
            · exact fun h1 => ⟨h1.1, fun h2 => h1.2 ⟨h2.2, rfl⟩⟩

theorem World.Linked.UnsubscribePublisher {w : World} (h : w.Linked) (s : Nat)
    (pubID : PubSubID) : (w.UnsubscribePublisher s pubID).Linked := by
  cases hS : w.subs[s]? with
  | none =>
      have : w.UnsubscribePublisher s pubID = w.panic := by
        simp [World.UnsubscribePublisher, hS]
      rw [this]
      exact h.panic
  | some S =>
      cases hk : mapGet? S.Subscriptions pubID with
      | none =>
          rw [UnsubscribePublisher_absent w s S pubID hS hk]
          exact h
      | some ts =>
          have hts : mapIdx S.Subscriptions pubID = ts := by simp [mapIdx, hk]
          refine h.update s S pubID (mapDel S.Subscriptions pubID)
            (fun pub => pub.RemoveSubscriber S.ID ts) hS
            (UnsubscribePublisher_subs w s S pubID ts hS hk)
            (UnsubscribePublisher_pubs_get w s S pubID ts hS hk)
            (UnsubscribePublisher_frame w s pubID).1 (fun _ => rfl) ?_ ?_ ?_
          · intro k T hne
            rw [mapIdx_mapDel]
            simp [Ne.symm hne]
          · intro P id T hid
            rw [mem_Subscribers_RemoveSubscriber]
            constructor
            · exact fun h1 => h1.1
            · exact fun h1 => ⟨h1, fun h2 => hid h2.2⟩
          · intro P T _ hold
            rw [mapIdx_mapDel, mem_Subscribers_RemoveSubscriber, ← hold, hts]
            simp

theorem World.Linked.run_calls {w : World} (h : w.Linked) (ops : List Op)
    (hops : ∀ op ∈ ops, op.isSubscriptionCall = true) : (w.run ops).Linked := by
  induction ops generalizing w with
  | nil => exact h
  | cons op rest ih =>
      have hop := hops op (List.mem_cons_self _ _)
      have hrest : ∀ o ∈ rest, o.isSubscriptionCall = true :=
        fun o ho => hops o (List.mem_cons_of_mem _ ho)
      have hstep : (w.step op).Linked := by
        cases op with
        | Subscribe s pubID topic => exact h.Subscribe s pubID topic
        | UnsubscribePublisher s pubID => exact h.UnsubscribePublisher s pubID
        | UnsubscribeTopic s pubID topics => exact h.UnsubscribeTopic s pubID topics
        | _ => simp [Op.isSubscriptionCall] at hop
      exact ih hstep hrest

/-! ## Lemmas on freshly constructed worlds -/

theorem getElem?_append_singleton {α : Type} (l : List α) (x a : α) (i : Nat)
    (h : (l ++ [x])[i]? = some a) : l[i]? = some a ∨ (i = l.length ∧ a = x) := by
  rw [List.getElem?_append] at h
  split at h
  · exact Or.inl h
  · rename_i hlt
    have hi : i - l.length = 0 := by
      cases hd : i - l.length with
      | zero => rfl
      | succ n => rw [hd] at h; simp at h
    rw [hi] at h
    simp only [List.getElem?_cons_zero, Option.some.injEq] at h
    exact Or.inr ⟨by omega, h.symm⟩

theorem NewPublisher_true_eq (w : World) (id : PubSubID) :
    (w.NewPublisher id true).1 =
      { w with pubs := w.pubs ++ [Publisher.mk id []],
               Publishers := mapPut w.Publishers id w.pubs.length } := by
  simp [World.NewPublisher, World.RegisterPublisher]

theorem NewSubscriber_true_eq (w : World) (id : PubSubID) (n : Int) (limit : Nat) :
    (w.NewSubscriber id n true limit).1 = w.panic ∨
    (w.NewSubscriber id n true limit).1 =
      { w with subs := w.subs ++ [Subscriber.mk id [] ⟨bufferCap n, [], false⟩],
               Subscribers := mapPut w.Subscribers id w.subs.length } := by
  rcases NewSubscriber_cases w id n true limit with ⟨-, h⟩ | ⟨-, h⟩
  · left
    rw [h]
  · right
    rw [h]
    simp [World.RegisterSubscriber]

theorem World.Pristine.after_panic {w : World} (h : w.Pristine) : w.panic.Pristine :=
  ⟨h.subDistinct, h.pubResolves, h.resolveValid, h.pubsEmpty, h.subsEmpty⟩

theorem World.Pristine.empty : World.empty.Pristine := by
  constructor <;> intros <;> simp_all [World.empty, World.GetPublisher, mapGet?]

theorem World.Pristine.toLinked {w : World} (h : w.Pristine) : w.Linked := by
  refine ⟨h.subDistinct, h.pubResolves, ?_, ?_⟩
  · intro id p P hg hP
    obtain ⟨P0, hP0, hid⟩ := h.resolveValid id p hg
    rw [hP] at hP0
    cases hP0
    exact hid
  · intro s S p P T hS hP
    rw [h.pubsEmpty p P hP, h.subsEmpty s S hS]
    simp [mapIdx, mapGet?]

theorem World.Pristine.NewPublisher {w : World} (h : w.Pristine) (id : PubSubID)
    (hfresh : ∀ (p : Nat) (P : Publisher), w.pubs[p]? = some P → P.ID ≠ id) :
    (w.NewPublisher id true).1.Pristine := by
  rw [NewPublisher_true_eq]
  refine ⟨h.subDistinct, ?_, ?_, ?_, h.subsEmpty⟩
  · intro p P hP
    simp only [World.GetPublisher, mapGet?_mapPut]
    rcases getElem?_append_singleton _ _ _ _ hP with h1 | ⟨h1, h2⟩
    · have hne := hfresh p P h1
      simp only [Ne.symm hne, if_false]
      exact h.pubResolves p P h1
    · subst h2
      simp [h1]
  · intro id1 p hg
    simp only [World.GetPublisher, mapGet?_mapPut] at hg
    by_cases hid : id = id1
    · simp only [hid, if_true, Option.some.injEq] at hg
      subst hg
      exact ⟨Publisher.mk id [], by simp, hid⟩
    · simp only [hid, if_false] at hg
      obtain ⟨P0, hP0, hid0⟩ := h.resolveValid id1 p hg
      refine ⟨P0, ?_, hid0⟩
      simp only []
      rw [List.getElem?_append_left (lt_of_getElem?_eq_some hP0)]
      exact hP0
  · intro p P hP
    rcases getElem?_append_singleton _ _ _ _ hP with h1 | ⟨-, h2⟩
    · exact h.pubsEmpty p P h1
    · subst h2
      rfl

theorem World.Pristine.NewSubscriber {w : World} (h : w.Pristine) (id : PubSubID) (n : Int)
    (limit : Nat)
    (hfresh : ∀ (s : Nat) (S : Subscriber), w.subs[s]? = some S → S.ID ≠ id) :
    (w.NewSubscriber id n true limit).1.Pristine := by
  rcases NewSubscriber_true_eq w id n limit with heq | heq
  · rw [heq]
    exact h.after_panic
  rw [heq]
  refine ⟨?_, h.pubResolves, h.resolveValid, h.pubsEmpty, ?_⟩
  · intro s s1 S S1 hS hS1 hid
    rcases getElem?_append_singleton _ _ _ _ hS with h1 | ⟨h1, h2⟩
    · rcases getElem?_append_singleton _ _ _ _ hS1 with h3 | ⟨h3, h4⟩
      · exact h.subDistinct s s1 S S1 h1 h3 hid
      · subst h4
        exact absurd hid (hfresh s S h1)
    · rcases getElem?_append_singleton _ _ _ _ hS1 with h3 | ⟨h3, h4⟩
      · subst h2
        exact absurd hid.symm (hfresh s1 S1 h3)
      · rw [h1, h3]
  · intro s S hS
    rcases getElem?_append_singleton _ _ _ _ hS with h1 | ⟨-, h2⟩
    · exact h.subsEmpty s S h1
    · subst h2
      rfl

theorem World.Pristine.newPublishers (ids : List PubSubID) {w : World} (h : w.Pristine)
    (hnodup : ids.Nodup)
    (hfresh : ∀ id ∈ ids, ∀ (p : Nat) (P : Publisher), w.pubs[p]? = some P → P.ID ≠ id) :
    (w.run (ids.map (fun id => Op.NewPublisher id true))).Pristine ∧
    (w.run (ids.map (fun id => Op.NewPublisher id true))).subs = w.subs := by
  induction ids generalizing w with
  | nil => exact ⟨h, rfl⟩
  | cons id rest ih =>
      have hn := List.nodup_cons.mp hnodup
      have h1 : (w.step (Op.NewPublisher id true)).Pristine :=
        h.NewPublisher id (hfresh id (List.mem_cons_self _ _))
      have hsubs : (w.step (Op.NewPublisher id true)).subs = w.subs := by
        simp only [World.step, NewPublisher_true_eq]
      have hfresh1 : ∀ id1 ∈ rest, ∀ (p : Nat) (P : Publisher),
          (w.step (Op.NewPublisher id true)).pubs[p]? = some P → P.ID ≠ id1 := by
        intro id1 hid1 p P hP
        simp only [World.step, NewPublisher_true_eq] at hP
        rcases getElem?_append_singleton _ _ _ _ hP with h2 | ⟨-, h2⟩
        · exact hfresh id1 (List.mem_cons_of_mem _ hid1) p P h2
        · subst h2
          intro heq
          have heq1 : id = id1 := heq
          rw [← heq1] at hid1
          exact hn.1 hid1
      obtain ⟨h2, h3⟩ := ih h1 hn.2 hfresh1
      exact ⟨h2, h3.trans hsubs⟩

theorem World.Pristine.newSubscribers (subs : List (PubSubID × Int)) {w : World}
    (h : w.Pristine) (hnodup : (subs.map Prod.fst).Nodup)
    (hfresh : ∀ e ∈ subs, ∀ (s : Nat) (S : Subscriber), w.subs[s]? = some S → S.ID ≠ e.1) :
    (w.run (subs.map (fun e => Op.NewSubscriber e.1 e.2 true (bufferCap e.2)))).Pristine := by
  induction subs generalizing w with
  | nil => exact h
  | cons e rest ih =>
      simp only [List.map_cons, List.nodup_cons] at hnodup
      have h1 : (w.step (Op.NewSubscriber e.1 e.2 true (bufferCap e.2))).Pristine :=
        h.NewSubscriber e.1 e.2 (bufferCap e.2) (hfresh e (List.mem_cons_self _ _))
      have hfresh1 : ∀ e1 ∈ rest, ∀ (s : Nat) (S : Subscriber),
          (w.step (Op.NewSubscriber e.1 e.2 true (bufferCap e.2))).subs[s]? = some S →
            S.ID ≠ e1.1 := by
        intro e1 he1 s S hS
        rcases NewSubscriber_subs w e.1 e.2 true (bufferCap e.2) with hsubs | hsubs
        · rw [show (w.step (Op.NewSubscriber e.1 e.2 true (bufferCap e.2))).subs = w.subs
            from hsubs] at hS
          exact hfresh e1 (List.mem_cons_of_mem _ he1) s S hS
        rw [show (w.step (Op.NewSubscriber e.1 e.2 true (bufferCap e.2))).subs = _
          from hsubs] at hS
        rcases getElem?_append_singleton _ _ _ _ hS with h2 | ⟨-, h2⟩
        · exact hfresh e1 (List.mem_cons_of_mem _ he1) s S h2
        · subst h2
          intro heq
          exact hnodup.1 (List.mem_map.mpr ⟨e1, he1, heq.symm⟩)
      exact ih h1 hnodup.2 hfresh1

theorem World.Pristine.fresh (pubIDs : List PubSubID) (subs : List (PubSubID × Int))
    (hp : pubIDs.Nodup) (hs : (subs.map Prod.fst).Nodup) :
    (World.fresh pubIDs subs).Pristine := by
  unfold World.fresh
  obtain ⟨h1, h2⟩ := World.Pristine.newPublishers pubIDs World.Pristine.empty hp
    (by intro id _ p P hP; simp [World.empty] at hP)
  refine World.Pristine.newSubscribers subs h1 hs ?_
  intro e _ s S hS
  rw [h2] at hS
  simp [World.empty] at hS

/-! ## More lemmas on maps and sets -/

section GoMapLemmas2

set_option linter.unusedSectionVars false

variable {K V E : Type} [DecidableEq K] [DecidableEq E]

theorem setAdd_of_mem (s : List E) (e : E) (h : e ∈ s) : setAdd s e = s := by
  simp [setAdd, h]

theorem delInner_of_not_mem (m : List (K × List E)) (k : K) (e : E)
    (h : e ∉ mapIdx m k) : delInner m k e = m := by
  unfold delInner
  cases hg : mapGet? m k with
  | none => rfl
  | some s =>
      have hs : e ∉ s := by simpa [mapIdx, hg] using h
      simp only [setDel_of_not_mem s e hs]
      exact mapPut_of_get?_some m k s hg

theorem foldl_delInner_of_not_mem (topics : List K) (m : List (K × List E)) (e : E)
    (h : ∀ t ∈ topics, e ∉ mapIdx m t) :
    topics.foldl (fun m t => delInner m t e) m = m := by
  induction topics with
  | nil => rfl
  | cons t rest ih =>
      simp only [List.foldl_cons]
      rw [delInner_of_not_mem m t e (h t (List.mem_cons_self _ _))]
      exact ih (fun t' ht' => h t' (List.mem_cons_of_mem _ ht'))

theorem addInner_idem (m : List (K × List E)) (k : K) (e : E) :
    addInner (addInner m k e) k e = addInner m k e := by
  have hmem : e ∈ mapIdx (addInner m k e) k :=
    (mem_mapIdx_addInner m k k e e).mpr (Or.inr ⟨rfl, rfl⟩)
  generalize hm1 : addInner m k e = m1 at hmem
  unfold addInner
  cases hg : mapGet? m1 k with
  | none => simp [mapIdx, hg] at hmem
  | some s =>
      have hs : e ∈ s := by simpa [mapIdx, hg] using hmem
      simp only [mapIdx, hg, Option.getD_some, setAdd_of_mem s e hs]
      exact mapPut_of_get?_some m1 k s hg

theorem mapGet?_addInner_ne (m : List (K × List E)) (k k' : K) (e : E) (h : k ≠ k') :
    mapGet? (addInner m k e) k' = mapGet? m k' := by
  unfold addInner
  cases hg : mapGet? m k with
  | none => simp [mapGet?_mapPut, h]
  | some s => simp [mapGet?_mapPut, h]

theorem mapGet?_delInner_ne (m : List (K × List E)) (k k' : K) (e : E) (h : k ≠ k') :
    mapGet? (delInner m k e) k' = mapGet? m k' := by
  unfold delInner
  cases hg : mapGet? m k with
  | none => rfl
  | some s => simp [mapGet?_mapPut, h]

theorem mapGet?_delInner_self (m : List (K × List E)) (k : K) (e : E) :
    mapGet? (delInner m k e) k = (mapGet? m k).map (fun s => setDel s e) := by
  unfold delInner
  cases hg : mapGet? m k with
  | none => simp [hg]
  | some s => simp [mapGet?_mapPut]

theorem foldl_setDel_nil (topics : List E) : topics.foldl setDel ([] : List E) = [] := by
  induction topics with
  | nil => rfl
  | cons t rest ih => simpa [setDel] using ih

theorem mem_foldl_setDel (topics s : List E) (x : E) :
    x ∈ topics.foldl setDel s ↔ x ∈ s ∧ x ∉ topics := by
  induction topics generalizing s with
  | nil => simp
  | cons t rest ih =>
      simp only [List.foldl_cons, ih, mem_setDel, List.mem_cons, not_or]
      tauto

end GoMapLemmas2

/-! ## Lemmas on the loop of `UnsubscribeTopic` -/

theorem mapGet?_unsubscribeStep_ne (pubID : PubSubID) (m : List (PubSubID × List String))
    (t : String) (k : PubSubID) (hk : k ≠ pubID) :
    mapGet? (unsubscribeStep pubID m t) k = mapGet? m k := by
  unfold unsubscribeStep
  simp only []
  split
  · rw [mapGet?_mapDel, if_neg (Ne.symm hk), mapGet?_delInner_ne _ _ _ _ (Ne.symm hk)]
  · exact mapGet?_delInner_ne _ _ _ _ (Ne.symm hk)

theorem mapGet?_unsubscribe_ne (topics : List String) (pubID : PubSubID)
    (m : List (PubSubID × List String)) (k : PubSubID) (hk : k ≠ pubID) :
    mapGet? (topics.foldl (unsubscribeStep pubID) m) k = mapGet? m k := by
  induction topics generalizing m with
  | nil => rfl
  | cons t rest ih =>
      simp only [List.foldl_cons]
      rw [ih, mapGet?_unsubscribeStep_ne pubID m t k hk]

theorem mapGet?_unsubscribeStep_self (pubID : PubSubID) (m : List (PubSubID × List String))
    (t : String) :
    mapGet? (unsubscribeStep pubID m t) pubID =
      (mapGet? m pubID).bind (fun s => if setDel s t = [] then none else some (setDel s t)) := by
  unfold unsubscribeStep
  simp only []
  cases hg : mapGet? m pubID with
  | none =>
      have h1 : delInner m pubID t = m := by simp [delInner, hg]
      simp [h1, mapIdx, hg, mapGet?_mapDel]
  | some s0 =>
      have h1 : mapGet? (delInner m pubID t) pubID = some (setDel s0 t) := by
        rw [mapGet?_delInner_self, hg]
        rfl
      by_cases he : setDel s0 t = []
      · simp [mapIdx, h1, he, mapGet?_mapDel]
      · have : ¬ (setDel s0 t).length = 0 := fun h => he (List.length_eq_zero.mp h)
        simp [mapIdx, h1, he, this]

theorem mapGet?_unsubscribe_self (topics : List String) (pubID : PubSubID)
    (m : List (PubSubID × List String)) :
    mapGet? (topics.foldl (unsubscribeStep pubID) m) pubID =
      (mapGet? m pubID).bind (fun s =>
        if topics = [] then some s
        else if topics.foldl setDel s = [] then none else some (topics.foldl setDel s)) := by
  induction topics generalizing m with
  | nil => cases hg : mapGet? m pubID <;> simp [hg]
  | cons t rest ih =>
      simp only [List.foldl_cons]
      rw [ih, mapGet?_unsubscribeStep_self]
      cases hg : mapGet? m pubID with
      | none => simp
      | some s0 =>
          by_cases he : setDel s0 t = []
          · simp [he, foldl_setDel_nil]
          · by_cases hr : rest = []
            · subst hr
              simp [he]
            · simp [he, hr]

/-! ## Lemmas on `UnsubscribePublisher` in a linked world -/

theorem set_of_getElem?_eq_some {α : Type} (l : List α) (i : Nat) (a : α)
    (h : l[i]? = some a) : l.set i a = l := by
  induction l generalizing i with
  | nil => simp at h
  | cons b rest ih =>
      cases i with
      | zero =>
          simp only [List.getElem?_cons_zero, Option.some.injEq] at h
          simp [h]
      | succ j =>
          simp only [List.getElem?_cons_succ] at h
          simp [ih j h]

theorem unsubscribeStep_of_not_mem (pubID : PubSubID) (m : List (PubSubID × List String))
    (t : String) (h : t ∉ mapIdx m pubID) (he : mapGet? m pubID ≠ some []) :
    unsubscribeStep pubID m t = m := by
  unfold unsubscribeStep
  simp only [delInner_of_not_mem m pubID t h]
  split
  · rename_i hlen
    cases hg : mapGet? m pubID with
    | none => exact mapDel_of_get?_none m pubID hg
    | some s0 =>
        exfalso
        have : s0 = [] := by
          have := List.length_eq_zero.mp hlen
          simpa [mapIdx, hg] using this
        exact he (by rw [hg, this])
  · rfl

theorem unsubscribe_of_not_mem (topics : List String) (pubID : PubSubID)
    (m : List (PubSubID × List String)) (h : ∀ t ∈ topics, t ∉ mapIdx m pubID)
    (he : mapGet? m pubID ≠ some []) :
    topics.foldl (unsubscribeStep pubID) m = m := by
  induction topics with
  | nil => rfl
  | cons t rest ih =>
      simp only [List.foldl_cons]
      rw [unsubscribeStep_of_not_mem pubID m t (h t (List.mem_cons_self _ _)) he]
      exact ih (fun t1 ht1 => h t1 (List.mem_cons_of_mem _ ht1))

theorem RemoveSubscriber_of_not_member (P : Publisher) (id : PubSubID) (topics : List String)
    (h : ∀ t ∈ topics, id ∉ mapIdx P.Subscribers t) : P.RemoveSubscriber id topics = P := by
  simp only [Publisher.RemoveSubscriber, foldl_delInner_of_not_mem topics P.Subscribers id h]

/-! ## Lemmas on registry lookups -/

section RegistryLemmas

set_option linter.unusedSectionVars false

variable {K V : Type} [DecidableEq K]

theorem mapGet?_eq_none_of_no_key (m : List (K × V)) (k : K) (h : ∀ v : V, (k, v) ∉ m) :
    mapGet? m k = none := by
  induction m with
  | nil => rfl
  | cons e rest ih =>
      obtain ⟨k0, v0⟩ := e
      by_cases h0 : k0 = k
      · subst h0
        exact absurd (List.mem_cons_self _ _) (h v0)
      · simp only [mapGet?, h0, if_false]
        exact ih (fun v hv => h v (List.mem_cons_of_mem _ hv))

theorem mem_of_mapGet?_eq_some (m : List (K × V)) (k : K) (v : V) (h : mapGet? m k = some v) :
    (k, v) ∈ m := by
  induction m with
  | nil => simp [mapGet?] at h
  | cons e rest ih =>
      obtain ⟨k0, v0⟩ := e
      by_cases h0 : k0 = k
      · subst h0
        simp only [mapGet?, if_true, Option.some.injEq] at h
        subst h
        exact List.mem_cons_self _ _
      · simp only [mapGet?, h0, if_false] at h
        exact List.mem_cons_of_mem _ (ih h)

theorem mapDel_mapDel (m : List (K × V)) (k : K) : mapDel (mapDel m k) k = mapDel m k := by
  simp [mapDel, List.filter_filter]

end RegistryLemmas

/-! ## Lemmas on the goroutines -/

theorem getElem?_eraseIdx_other {α : Type} (l : List α) (i j : Nat) (h : j ≠ i) :
    (l.eraseIdx i)[if j < i then j else j - 1]? = l[j]? := by
  rw [List.getElem?_eraseIdx]
  by_cases hlt : j < i
  · simp [hlt]
  · have h1 : ¬ j - 1 < i := by omega
    have h2 : j - 1 + 1 = j := by omega
    simp [hlt, h1, h2]

/-- What a goroutine does to the subscribers and the panic flag depends only
on the goroutine, the subscribers, the subscriber registry and the flag. -/
theorem runGoroutine_congr (w1 w2 : World) (j1 j2 : Nat)
    (hg : w1.goroutines[j1]? = w2.goroutines[j2]?) (hsubs : w1.subs = w2.subs)
    (hreg : w1.Subscribers = w2.Subscribers) (hpanic : w1.panicked = w2.panicked) :
    (w1.runGoroutine j1).subs = (w2.runGoroutine j2).subs ∧
    (w1.runGoroutine j1).panicked = (w2.runGoroutine j2).panicked := by
  have hdel : ∀ (s : Nat) (msg : Message),
      (w1.deliver j1 s msg).subs = (w2.deliver j2 s msg).subs ∧
      (w1.deliver j1 s msg).panicked = (w2.deliver j2 s msg).panicked := by
    intro s msg
    unfold World.deliver
    rw [hsubs]
    cases hS : w2.subs[s]? with
    | none => simp [World.panic, hsubs]
    | some S =>
        rcases Receive_cases S msg with ⟨-, hr⟩ | ⟨-, -, hr⟩ | ⟨-, -, hr⟩ <;>
          simp [hr, World.panic, hsubs, hpanic]
  unfold World.runGoroutine
  rw [hg]
  cases hj : w2.goroutines[j2]? with
  | none => exact ⟨hsubs, hpanic⟩
  | some g =>
      cases g with
      | dispatch subID msg =>
          simp only [World.GetSubscriber, hreg]
          cases hr : mapGet? w2.Subscribers subID with
          | none => exact ⟨hsubs, hpanic⟩
          | some s => exact hdel s msg
      | sending s msg => exact hdel s msg

/-! ## Lemmas on the example service -/

theorem Service.GetSubscriber_empty (w : World) :
    Service.GetSubscriber w "" = .error Code.InvalidArgument := by
  simp [Service.GetSubscriber]

theorem Service.GetSubscriber_unresolved (w : World) (id : String) (hne : id ≠ "")
    (h : w.GetSubscriber id = none) : Service.GetSubscriber w id = .error Code.NotFound := by
  simp [Service.GetSubscriber, hne, h]

theorem Service.GetSubscriber_resolved (w : World) (id : String) (s : Nat) (hne : id ≠ "")
    (h : w.GetSubscriber id = some s) : Service.GetSubscriber w id = .ok s := by
  simp [Service.GetSubscriber, hne, h]

theorem Service.GetPublisher_empty (w : World) :
    Service.GetPublisher w "" = .error Code.InvalidArgument := by
  simp [Service.GetPublisher]

theorem Service.GetPublisher_unresolved (w : World) (id : String) (hne : id ≠ "")
    (h : w.GetPublisher id = none) : Service.GetPublisher w id = .error Code.NotFound := by
  simp [Service.GetPublisher, hne, h]

/-! ## Lemmas on subscription maps without empty entries -/

theorem mapGet?_addInner_self (m : List (PubSubID × List String)) (k : PubSubID) (e : String) :
    mapGet? (addInner m k e) k = some (setAdd (mapIdx m k) e) := by
  unfold addInner
  cases hg : mapGet? m k with
  | none => simp [mapGet?_mapPut, mapIdx, hg]
  | some ts => simp [mapGet?_mapPut, mapIdx, hg]

theorem setAdd_ne_nil (ts : List String) (e : String) : setAdd ts e ≠ [] := by
  intro h
  have : e ∈ setAdd ts e := (mem_setAdd ts e e).mpr (Or.inr rfl)
  rw [h] at this
  cases this

theorem noEmptyEntry_Subscribe (S : Subscriber) (pubID : PubSubID) (topic : String)
    (h : S.noEmptyEntry) :
    (Subscriber.mk S.ID (addInner S.Subscriptions pubID topic) S.MsgChan).noEmptyEntry := by
  intro k ts hk
  simp only [] at hk
  by_cases hkp : pubID = k
  · subst hkp
    rw [mapGet?_addInner_self] at hk
    cases hk
    exact setAdd_ne_nil _ _
  · rw [mapGet?_addInner_ne _ _ _ _ hkp] at hk
    exact h k ts hk

theorem noEmptyEntry_UnsubscribePublisher (S : Subscriber) (pubID : PubSubID)
    (h : S.noEmptyEntry) :
    (Subscriber.mk S.ID (mapDel S.Subscriptions pubID) S.MsgChan).noEmptyEntry := by
  intro k ts hk
  simp only [mapGet?_mapDel] at hk
  by_cases hkp : pubID = k
  · simp [hkp] at hk
  · simp only [hkp, if_false] at hk
    exact h k ts hk

theorem noEmptyEntry_UnsubscribeTopic (S : Subscriber) (pubID : PubSubID)
    (topics : List String) (h : S.noEmptyEntry) :
    (Subscriber.mk S.ID (topics.foldl (unsubscribeStep pubID) S.Subscriptions)
      S.MsgChan).noEmptyEntry := by
  intro k ts hk
  simp only [] at hk
  by_cases hkp : k = pubID
  · subst hkp
    rw [mapGet?_unsubscribe_self] at hk
    cases hg : mapGet? S.Subscriptions k with
    | none => rw [hg] at hk; simp at hk
    | some s0 =>
        rw [hg] at hk
        simp only [Option.some_bind] at hk
        by_cases ht : topics = []
        · simp only [ht, if_true, Option.some.injEq] at hk
          subst hk
          exact h k s0 hg
        · simp only [ht, if_false] at hk
          by_cases hr : topics.foldl setDel s0 = []
          · simp [hr] at hk
          · simp only [hr, if_false, Option.some.injEq] at hk
            subst hk
            exact hr
  · rw [mapGet?_unsubscribe_ne topics pubID S.Subscriptions k hkp] at hk
    exact h k ts hk

theorem ConsumeContext_Subscriptions (S : Subscriber) (e : Option Error) (c : Bool)
    (m : Message) (err : Option Error) (S1 : Subscriber)
    (hr : S.ConsumeContext e c = .returned m err S1) :
    S1.Subscriptions = S.Subscriptions := by
  unfold Subscriber.ConsumeContext Subscriber.recv? at hr
  cases hb : S.MsgChan.buf with
  | nil =>
      rw [hb] at hr
      cases hcl : S.MsgChan.closed <;> rw [hcl] at hr <;> cases e <;> cases c <;>
        simp at hr <;> (obtain ⟨-, -, h⟩ := hr; subst h; rfl)
  | cons m0 rest =>
      rw [hb] at hr
      cases e <;> cases c <;> simp at hr <;> (obtain ⟨-, -, h⟩ := hr; subst h; rfl)

theorem noEmptyEntries_of_subs_eq (w w1 : World) (h : w1.subs = w.subs)
    (hw : w.noEmptyEntries) : w1.noEmptyEntries := by
  intro S hS
  rw [h] at hS
  exact hw S hS

theorem noEmptyEntries_set (w w1 : World) (s : Nat) (S1 : Subscriber)
    (h : w1.subs = w.subs.set s S1) (hS1 : S1.noEmptyEntry) (hw : w.noEmptyEntries) :
    w1.noEmptyEntries := by
  intro S hS
  rw [h] at hS
  rcases List.mem_or_eq_of_mem_set hS with h1 | h1
  · exact hw S h1
  · rw [h1]; exact hS1

theorem noEmptyEntries_same_map (w w1 : World) (s : Nat) (S S1 : Subscriber)
    (hS : w.subs[s]? = some S) (h : w1.subs = w.subs.set s S1)
    (hmap : S1.Subscriptions = S.Subscriptions) (hw : w.noEmptyEntries) :
    w1.noEmptyEntries := by
  refine noEmptyEntries_set w w1 s S1 h ?_ hw
  intro k ts hk
  rw [hmap] at hk
  exact hw S (List.getElem?_mem hS) k ts hk

theorem deliver_noEmptyEntries (w : World) (i s : Nat) (msg : Message)
    (hw : w.noEmptyEntries) : (w.deliver i s msg).noEmptyEntries := by
  unfold World.deliver
  cases hS : w.subs[s]? with
  | none => exact noEmptyEntries_of_subs_eq _ _ rfl hw
  | some S =>
      rcases Receive_cases S msg with ⟨-, hr⟩ | ⟨-, -, hr⟩ | ⟨-, -, hr⟩
      · simp only [hr]
        exact noEmptyEntries_of_subs_eq _ _ rfl hw
      · simp only [hr]
        exact noEmptyEntries_same_map w _ s S _ hS rfl rfl hw
      · simp only [hr]
        exact noEmptyEntries_of_subs_eq _ _ rfl hw

theorem step_noEmptyEntries (w : World) (op : Op) (hw : w.noEmptyEntries) :
    (w.step op).noEmptyEntries := by
  cases op with
  | NewPublisher id a =>
      refine noEmptyEntries_of_subs_eq _ _ ?_ hw
      simp only [World.step, World.NewPublisher]
      split
      · rw [RegisterPublisher_subs]
      · rfl
  | NewSubscriber id n a limit =>
      rcases NewSubscriber_subs w id n a limit with hsubs | hsubs
      · exact noEmptyEntries_of_subs_eq _ _ hsubs hw
      replace hsubs : (w.step (Op.NewSubscriber id n a limit)).subs =
          w.subs ++ [Subscriber.mk id [] ⟨bufferCap n, [], false⟩] := hsubs
      intro S hS
      rw [hsubs, List.mem_append] at hS
      rcases hS with h1 | h1
      · exact hw S h1
      · simp only [List.mem_singleton] at h1
        subst h1
        intro k ts hk
        simp [mapGet?] at hk
  | RegisterPublisher p => exact noEmptyEntries_of_subs_eq _ _ (RegisterPublisher_subs w p) hw
  | RegisterSubscriber s => exact noEmptyEntries_of_subs_eq _ _ (RegisterSubscriber_subs w s) hw
  | UnregisterPublisher p =>
      exact noEmptyEntries_of_subs_eq _ _ (UnregisterPublisher_subs w p) hw
  | UnregisterSubscriber s =>
      exact noEmptyEntries_of_subs_eq _ _ (UnregisterSubscriber_subs w s) hw
  | AddSubscriber p subID topic =>
      exact noEmptyEntries_of_subs_eq _ _ (updPub_frame w p _).1 hw
  | RemoveSubscriber p subID topics =>
      exact noEmptyEntries_of_subs_eq _ _ (updPub_frame w p _).1 hw
  | Publish p topics data msgID now =>
      exact noEmptyEntries_of_subs_eq _ _ (Publish_frame w p topics data msgID now).2.1 hw
  | PublisherUnregister p =>
      exact noEmptyEntries_of_subs_eq _ _ (UnregisterPublisher_subs w p) hw
  | Subscribe s pubID topic =>
      cases hS : w.subs[s]? with
      | none =>
          refine noEmptyEntries_of_subs_eq _ _ ?_ hw
          simp [World.step, World.Subscribe, hS, World.panic]
      | some S =>
          exact noEmptyEntries_set w _ s _ (Subscribe_subs w s S pubID topic hS)
            (noEmptyEntry_Subscribe S pubID topic (hw S (List.getElem?_mem hS))) hw
  | UnsubscribePublisher s pubID =>
      cases hS : w.subs[s]? with
      | none =>
          refine noEmptyEntries_of_subs_eq _ _ ?_ hw
          simp [World.step, World.UnsubscribePublisher, hS, World.panic]
      | some S =>
          cases hk : mapGet? S.Subscriptions pubID with
          | none =>
              simp only [World.step]
              rw [UnsubscribePublisher_absent w s S pubID hS hk]
              exact hw
          | some ts =>
              exact noEmptyEntries_set w _ s _ (UnsubscribePublisher_subs w s S pubID ts hS hk)
                (noEmptyEntry_UnsubscribePublisher S pubID (hw S (List.getElem?_mem hS))) hw
  | UnsubscribeTopic s pubID topics =>
      cases hS : w.subs[s]? with
      | none =>
          refine noEmptyEntries_of_subs_eq _ _ ?_ hw
          simp [World.step, World.UnsubscribeTopic, hS, World.panic]
      | some S =>
          cases hk : mapGet? S.Subscriptions pubID with
          | none =>
              simp only [World.step]
              rw [UnsubscribeTopic_absent w s S pubID topics hS hk]
              exact hw
          | some ts =>
              exact noEmptyEntries_set w _ s _
                (UnsubscribeTopic_subs w s S pubID topics ts hS hk)
                (noEmptyEntry_UnsubscribeTopic S pubID topics (hw S (List.getElem?_mem hS))) hw
  | Receive s msg =>
      simp only [World.step, World.Receive]
      cases hS : w.subs[s]? with
      | none => exact noEmptyEntries_of_subs_eq _ _ rfl hw
      | some S =>
          rcases Receive_cases S msg with ⟨-, hr⟩ | ⟨-, -, hr⟩ | ⟨-, -, hr⟩
          · simp only [hr]
            exact noEmptyEntries_of_subs_eq _ _ rfl hw
          · simp only [hr]
            exact noEmptyEntries_same_map w _ s S _ hS rfl rfl hw
          · simp only [hr]
            exact noEmptyEntries_of_subs_eq _ _ rfl hw
  | ConsumeContext s e c =>
      simp only [World.step, World.ConsumeContext]
      cases hS : w.subs[s]? with
      | none => exact noEmptyEntries_of_subs_eq _ _ rfl hw
      | some S =>
          simp only []
          cases hr : S.ConsumeContext e c with
          | blocks => exact hw
          | returned m err S1 =>
              exact noEmptyEntries_same_map w _ s S S1 hS rfl
                (ConsumeContext_Subscriptions S e c m err S1 hr) hw
  | Consume s =>
      simp only [World.step, World.Consume, World.ConsumeContext]
      cases hS : w.subs[s]? with
      | none => exact noEmptyEntries_of_subs_eq _ _ rfl hw
      | some S =>
          simp only []
          cases hr : S.ConsumeContext none false with
          | blocks => exact hw
          | returned m err S1 =>
              exact noEmptyEntries_same_map w _ s S S1 hS rfl
                (ConsumeContext_Subscriptions S none false m err S1 hr) hw
  | TryConsume s =>
      simp only [World.step, World.TryConsume, World.updSub]
      cases hS : w.subs[s]? with
      | none => exact noEmptyEntries_of_subs_eq _ _ rfl hw
      | some S =>
          refine noEmptyEntries_same_map w _ s S _ hS rfl ?_ hw
          rcases TryConsume_cases S with ⟨m, rest, -, hr⟩ | ⟨-, -, hr⟩ | ⟨-, -, hr⟩ <;> rw [hr]
  | SubscriberUnregister s =>
      simp only [World.step, World.SubscriberUnregister]
      cases hS : w.subs[s]? with
      | none => exact noEmptyEntries_of_subs_eq _ _ rfl hw
      | some S =>
          simp only []
          split
          · exact noEmptyEntries_of_subs_eq _ _ rfl hw
          · refine noEmptyEntries_same_map w _ s S
              (Subscriber.mk S.ID S.Subscriptions ⟨S.MsgChan.cap, S.MsgChan.buf, true⟩) hS ?_
              rfl hw
            rw [UnregisterSubscriber_subs]
  | runGoroutine i =>
      simp only [World.step, World.runGoroutine]
      split
      · exact hw
      · split
        · exact noEmptyEntries_of_subs_eq _ _ rfl hw
        · exact deliver_noEmptyEntries w i _ _ hw
      · exact deliver_noEmptyEntries w i _ _ hw

theorem run_noEmptyEntries (ops : List Op) (w : World) (hw : w.noEmptyEntries) :
    (w.run ops).noEmptyEntries := by
  induction ops generalizing w with
  | nil => exact hw
  | cons op rest ih => exact ih (w.step op) (step_noEmptyEntries w op hw)

/-! ## Claims -/

/-- C1: the goroutines `Publish` starts are dispatches of the one message it
built; an identifier is the target of a dispatch iff it is in the wildcard set
`Subscribers[""]` or in `Subscribers[t]` for some `t` in `topics`; every target
has exactly one dispatch, every other identifier none; and a member of the
wildcard set is a target for every `topics`, the empty list included. -/
theorem C1_publish_targets_are_union (p : Publisher) (topics : List String)
    (data : List UInt8) (msgID : PubSubID) (now : Nat) :
    (∀ g ∈ p.Publish topics data msgID now,
        ∃ id, g = Goroutine.dispatch id (p.mkMessage topics data msgID now)) ∧
    (∀ id, Goroutine.dispatch id (p.mkMessage topics data msgID now)
          ∈ p.Publish topics data msgID now ↔
        (id ∈ mapIdx p.Subscribers "" ∨ ∃ t ∈ topics, id ∈ mapIdx p.Subscribers t)) ∧
    (∀ id, (id ∈ mapIdx p.Subscribers "" ∨ ∃ t ∈ topics, id ∈ mapIdx p.Subscribers t) →
        (p.Publish topics data msgID now).count
          (Goroutine.dispatch id (p.mkMessage topics data msgID now)) = 1) ∧
    (∀ id, ¬ (id ∈ mapIdx p.Subscribers "" ∨ ∃ t ∈ topics, id ∈ mapIdx p.Subscribers t) →
        (p.Publish topics data msgID now).count
          (Goroutine.dispatch id (p.mkMessage topics data msgID now)) = 0) ∧
    (∀ id ∈ mapIdx p.Subscribers "",
        Goroutine.dispatch id (p.mkMessage topics data msgID now)
          ∈ p.Publish topics data msgID now ∧
        Goroutine.dispatch id (p.mkMessage [] data msgID now)
          ∈ p.Publish [] data msgID now) := by
  have hmem : ∀ (ts : List String) (id : PubSubID),
      Goroutine.dispatch id (p.mkMessage ts data msgID now) ∈ p.Publish ts data msgID now ↔
        (id ∈ mapIdx p.Subscribers "" ∨ ∃ t ∈ ts, id ∈ mapIdx p.Subscribers t) := by
    intro ts id
    rw [mem_Publish, ← mem_subIDs]
    constructor
    · rintro ⟨id', h1, h2⟩
      cases h2
      exact h1
    · intro h
      exact ⟨id, h, rfl⟩
  refine ⟨?_, hmem topics, ?_, ?_, ?_⟩
  · intro g hg
    obtain ⟨id, -, h⟩ := (mem_Publish p topics data msgID now g).mp hg
    exact ⟨id, h⟩
  · intro id h
    exact List.count_eq_one_of_mem (nodup_Publish p topics data msgID now)
      ((hmem topics id).mpr h)
  · intro id h
    exact List.count_eq_zero.mpr (fun hm => h ((hmem topics id).mp hm))
  · intro id h
    exact ⟨(hmem topics id).mpr (Or.inl h), (hmem [] id).mpr (Or.inl h)⟩

/-- C4: when `Subscribers[t]` is empty or absent for every `t` in `topics` and
for the empty-string topic, `Publish` takes its early return: the set of
targets is empty, no goroutine is started, and the world (publishers' topic
maps, registries, subscribers with their mailboxes and subscription maps,
goroutines) is the same as before the call. -/
theorem C4_publish_without_targets_is_noop (w : World) (p : Nat) (pub : Publisher)
    (topics : List String) (data : List UInt8) (msgID : PubSubID) (now : Nat)
    (hp : w.pubs[p]? = some pub)
    (htopics : ∀ t ∈ topics, mapIdx pub.Subscribers t = [])
    (hwild : mapIdx pub.Subscribers "" = []) :
    pub.subIDs topics = [] ∧
    pub.Publish topics data msgID now = [] ∧
    w.Publish p topics data msgID now = w := by
  have h1 : pub.subIDs topics = [] := by
    apply List.eq_nil_iff_forall_not_mem.mpr
    intro id hid
    rcases (mem_subIDs pub topics id).mp hid with h | ⟨t, ht, h⟩
    · simp [hwild] at h
    · simp [htopics t ht] at h
  have h2 : pub.Publish topics data msgID now = [] := by
    rw [Publish_eq_map, h1]
    rfl
  refine ⟨h1, h2, ?_⟩
  unfold World.Publish
  rw [hp]
  simp [h2]

/-- Witness for C4: a publisher whose set for `"x"` is present but empty and
whose sets for `"y"` and `""` are absent. -/
theorem C4_publish_without_targets_is_noop_witness :
    let pub : Publisher := ⟨"pub-1", [("x", []), ("z", ["sub-1"])]⟩
    let w : World := ⟨[pub], [], [("pub-1", 0)], [], [], false⟩
    pub.subIDs ["x", "y"] = [] ∧
    pub.Publish ["x", "y"] [104, 105] "msg-1" 7 = [] ∧
    w.Publish 0 ["x", "y"] [104, 105] "msg-1" 7 = w :=
  C4_publish_without_targets_is_noop
    ⟨[⟨"pub-1", [("x", []), ("z", ["sub-1"])]⟩], [], [("pub-1", 0)], [], [], false⟩ 0
    ⟨"pub-1", [("x", []), ("z", ["sub-1"])]⟩ ["x", "y"] [104, 105] "msg-1" 7
    (by rfl) (by decide) (by decide)

/-- C6: `TryConsume` always returns (it has no blocking outcome).  On a
non-empty mailbox it removes the oldest message and returns it with
`found = true` and no error; on an empty open mailbox it returns the zero
message, `found = false`, no error, and the subscriber is unchanged, whatever
the capacity; on an empty closed mailbox it returns the zero message,
`found = false` and `ErrSubscriberClosed`. -/
theorem C6_tryConsume_by_mailbox_state (s : Subscriber) :
    (∀ m rest, s.MsgChan.buf = m :: rest →
        s.TryConsume =
          (m, true, none, { s with MsgChan := { s.MsgChan with buf := rest } })) ∧
    (s.MsgChan.buf = [] → s.MsgChan.closed = false →
        s.TryConsume = (Message.zero, false, none, s)) ∧
    (s.MsgChan.buf = [] → s.MsgChan.closed = true →
        s.TryConsume = (Message.zero, false, some Error.ErrSubscriberClosed, s)) := by
  refine ⟨?_, ?_, ?_⟩
  · intro m rest h
    simp [Subscriber.TryConsume, Subscriber.recv?, h]
  · intro h hc
    simp [Subscriber.TryConsume, Subscriber.recv?, h, hc]
  · intro h hc
    simp [Subscriber.TryConsume, Subscriber.recv?, h, hc]

/-- Witness for C6: the three mailbox states at capacities 2, 1 and 5. -/
theorem C6_tryConsume_by_mailbox_state_witness :
    let m1 : Message := ⟨"msg-1", [1], ["x"], "pub-1", 3⟩
    let m2 : Message := ⟨"msg-2", [2], ["x"], "pub-1", 4⟩
    (Subscriber.mk "sub-1" [] ⟨2, [m1, m2], false⟩).TryConsume =
        (m1, true, none, Subscriber.mk "sub-1" [] ⟨2, [m2], false⟩) ∧
    (Subscriber.mk "sub-1" [] ⟨1, [], false⟩).TryConsume =
        (Message.zero, false, none, Subscriber.mk "sub-1" [] ⟨1, [], false⟩) ∧
    (Subscriber.mk "sub-1" [] ⟨5, [], true⟩).TryConsume =
        (Message.zero, false, some Error.ErrSubscriberClosed,
          Subscriber.mk "sub-1" [] ⟨5, [], true⟩) :=
  ⟨(C6_tryConsume_by_mailbox_state
      (Subscriber.mk "sub-1" [] ⟨2, [⟨"msg-1", [1], ["x"], "pub-1", 3⟩,
        ⟨"msg-2", [2], ["x"], "pub-1", 4⟩], false⟩)).1 _ _ rfl,
   (C6_tryConsume_by_mailbox_state (Subscriber.mk "sub-1" [] ⟨1, [], false⟩)).2.1 rfl rfl,
   (C6_tryConsume_by_mailbox_state (Subscriber.mk "sub-1" [] ⟨5, [], true⟩)).2.2 rfl rfl⟩

/-- C10, evaluated on the code: a publisher with `"sub-1"` registered under
`"y"` only; `Publish` with the empty string among the topics starts no
dispatch at all, so `"sub-1"` is not a target. -/
theorem C10_empty_topic_in_publish_reaches_wildcard_set_only :
    "sub-1" ∈ mapIdx (Publisher.mk "pub-1" [("y", ["sub-1"])]).Subscribers "y" ∧
    (Publisher.mk "pub-1" [("y", ["sub-1"])]).Publish [""] [104, 105] "msg-1" 7 = [] ∧
    (Publisher.mk "pub-1" [("y", ["sub-1"]), ("", ["sub-2"])]).Publish ["", "x"] [104, 105]
        "msg-1" 7 =
      [Goroutine.dispatch "sub-2" ⟨"msg-1", [104, 105], ["", "x"], "pub-1", 7⟩] := by
  refine ⟨by decide, by decide, by decide⟩

/-- C5: after `Unregister` on a subscriber whose mailbox holds `m1..mk` the
mailbox still holds them and the channel is closed (also when the call
panicked because the channel was closed already); of any later sequence of
`Consume` and `TryConsume` calls the first `k` return `m1..mk` in that order
with no error (`TryConsume` with `found = true`), and every call after them
returns the zero message with `ErrSubscriberClosed` (`TryConsume` with
`found = false`). -/
theorem C5_drain_after_unregister (w : World) (s : Nat) (sub : Subscriber)
    (hs : w.subs[s]? = some sub) :
    ∃ sub1, (w.SubscriberUnregister s).subs[s]? = some sub1 ∧
      sub1.MsgChan.buf = sub.MsgChan.buf ∧
      sub1.MsgChan.closed = true ∧
      ∀ kinds : List ConsumeKind,
        (sub1.calls kinds).1 =
          List.zipWith ConsumeKind.ok kinds sub.MsgChan.buf ++
            (kinds.drop sub.MsgChan.buf.length).map ConsumeKind.closedErr := by
  have hlt : s < w.subs.length := by
    rcases Nat.lt_or_ge s w.subs.length with h | h
    · exact h
    · rw [List.getElem?_eq_none h] at hs
      cases hs
  cases hopen : sub.MsgChan.closed with
  | false =>
      refine ⟨{ sub with MsgChan := { sub.MsgChan with closed := true } }, ?_, rfl, rfl, ?_⟩
      · simp [World.SubscriberUnregister, World.UnregisterSubscriber, hs, hopen,
          List.getElem?_set, hlt]
      · intro kinds
        exact calls_closed kinds _ rfl
  | true =>
      refine ⟨sub, ?_, rfl, hopen, ?_⟩
      · simp [World.SubscriberUnregister, hs, hopen, World.panic]
      · intro kinds
        exact calls_closed kinds _ hopen

/-- Witness for C5: two buffered messages, then `Consume`, `TryConsume`,
`TryConsume`, `Consume`. -/
theorem C5_drain_after_unregister_witness :
    let m1 : Message := ⟨"msg-1", [1], ["x"], "pub-1", 3⟩
    let m2 : Message := ⟨"msg-2", [2], ["x"], "pub-1", 4⟩
    let sub : Subscriber := ⟨"sub-1", [], ⟨2, [m1, m2], false⟩⟩
    let w : World := ⟨[], [sub], [], [("sub-1", 0)], [], false⟩
    ∃ sub1, (w.SubscriberUnregister 0).subs[0]? = some sub1 ∧
      sub1.MsgChan.buf = [m1, m2] ∧
      sub1.MsgChan.closed = true ∧
      ∀ kinds : List ConsumeKind,
        (sub1.calls kinds).1 =
          List.zipWith ConsumeKind.ok kinds [m1, m2] ++
            (kinds.drop 2).map ConsumeKind.closedErr :=
  C5_drain_after_unregister
    ⟨[], [⟨"sub-1", [], ⟨2, [⟨"msg-1", [1], ["x"], "pub-1", 3⟩,
      ⟨"msg-2", [2], ["x"], "pub-1", 4⟩], false⟩⟩], [], [("sub-1", 0)], [], false⟩ 0
    ⟨"sub-1", [], ⟨2, [⟨"msg-1", [1], ["x"], "pub-1", 3⟩,
      ⟨"msg-2", [2], ["x"], "pub-1", 4⟩], false⟩⟩ rfl

/-- C7: on one subscriber, after any interleaving of `Receive` calls (new or
resumed after blocking), `Consume` and `TryConsume` calls and a `close`, the
messages returned by the consume calls followed by the messages still
buffered are exactly the initially buffered messages followed by the messages
the completed `Receive` calls enqueued, in that order; from an empty mailbox
the returned sequence is therefore a prefix of the enqueued sequence. -/
theorem C7_mailbox_is_fifo (s : Subscriber) (ops : List MailOp) :
    ((Mailbox.init s).run ops).consumed ++ ((Mailbox.init s).run ops).sub.MsgChan.buf =
      s.MsgChan.buf ++ ((Mailbox.init s).run ops).enqueued ∧
    (s.MsgChan.buf = [] →
      ((Mailbox.init s).run ops).consumed <+: ((Mailbox.init s).run ops).enqueued) := by
  have h := (Mailbox.Inv.init s).run_events ops
  refine ⟨h.fifo, ?_⟩
  intro hb
  have hf := h.fifo
  rw [hb, List.nil_append] at hf
  exact ⟨_, hf⟩

/-- Witness for C7: capacity 2, three `Receive` calls of which the third
blocks, consumes interleaved. -/
theorem C7_mailbox_is_fifo_witness :
    let m1 : Message := ⟨"msg-1", [1], ["x"], "pub-1", 3⟩
    let m2 : Message := ⟨"msg-2", [2], ["x"], "pub-1", 4⟩
    let m3 : Message := ⟨"msg-3", [3], ["x"], "pub-1", 5⟩
    let s : Subscriber := ⟨"sub-1", [], ⟨2, [], false⟩⟩
    let ops : List MailOp :=
      [.receive m1, .receive m2, .receive m3, .tryConsume, .resume 0, .consume]
    ((Mailbox.init s).run ops).consumed = [m1, m2] ∧
    ((Mailbox.init s).run ops).enqueued = [m1, m2, m3] ∧
    ((Mailbox.init s).run ops).consumed <+: ((Mailbox.init s).run ops).enqueued :=
  ⟨by decide, by decide,
    (C7_mailbox_is_fifo ⟨"sub-1", [], ⟨2, [], false⟩⟩
      [.receive ⟨"msg-1", [1], ["x"], "pub-1", 3⟩, .receive ⟨"msg-2", [2], ["x"], "pub-1", 4⟩,
        .receive ⟨"msg-3", [3], ["x"], "pub-1", 5⟩, .tryConsume, .resume 0, .consume]).2 rfl⟩

/-- C8: on a subscriber nobody closes, with capacity `c ≥ 1`, after any
interleaving of `Receive` calls (new or resumed) and consume calls: the
channel is open with capacity `c` and holds at most `c` messages; no `Receive`
call has failed; the messages handed to `Receive` (after those initially
buffered) are, as a multiset, exactly the consumed, the buffered and the
blocked ones; a `Receive` on a full mailbox blocks and only joins the blocked
calls; and after a consume call has freed a slot that blocked call completes
by appending its message.  In the scenario (capacity 1, subscribed on `"x"`,
publishes of `"a"` and `"b"`), whichever dispatch runs first, two `Consume`
calls return both messages and no goroutine is left. -/
theorem C8_full_mailbox_blocks_delivery (s : Subscriber) (ops : List MailOp)
    (hopen : s.MsgChan.closed = false) (hcap : 0 < s.MsgChan.cap)
    (hlen : s.MsgChan.buf.length ≤ s.MsgChan.cap)
    (hops : MailOp.close ∉ ops) :
    ((Mailbox.init s).run ops).sub.MsgChan.closed = false ∧
    ((Mailbox.init s).run ops).sub.MsgChan.cap = s.MsgChan.cap ∧
    0 < ((Mailbox.init s).run ops).sub.MsgChan.cap ∧
    ((Mailbox.init s).run ops).sub.MsgChan.buf.length ≤ s.MsgChan.cap ∧
    ((Mailbox.init s).run ops).failed = [] ∧
    (s.MsgChan.buf ++ ((Mailbox.init s).run ops).handed).Perm
      (((Mailbox.init s).run ops).consumed ++ ((Mailbox.init s).run ops).sub.MsgChan.buf ++
        ((Mailbox.init s).run ops).blocked) ∧
    (∀ msg, ((Mailbox.init s).run ops).sub.MsgChan.buf.length = s.MsgChan.cap →
      ((Mailbox.init s).run ops).sub.Receive msg = .blocks ∧
      ((Mailbox.init s).run ops).step (.receive msg) =
        { (Mailbox.init s).run ops with
          blocked := ((Mailbox.init s).run ops).blocked ++ [msg],
          handed := ((Mailbox.init s).run ops).handed ++ [msg] }) ∧
    (∀ msg m rest, ((Mailbox.init s).run ops).sub.MsgChan.buf = m :: rest →
      (m :: rest).length = s.MsgChan.cap →
      ∀ c, c = MailOp.consume ∨ c = MailOp.tryConsume →
      ((Mailbox.init s).run ops).run
          [.receive msg, c, .resume ((Mailbox.init s).run ops).blocked.length] =
        { (Mailbox.init s).run ops with
          sub := { ((Mailbox.init s).run ops).sub with
            MsgChan := { ((Mailbox.init s).run ops).sub.MsgChan with buf := rest ++ [msg] } },
          handed := ((Mailbox.init s).run ops).handed ++ [msg],
          enqueued := ((Mailbox.init s).run ops).enqueued ++ [msg],
          consumed := ((Mailbox.init s).run ops).consumed ++ [m] }) ∧
    scenarioObserved 0 =
      some (.returned scenarioMsgA none ⟨"sub-1", [("pub-1", ["x"])], ⟨1, [], false⟩⟩,
            .returned scenarioMsgB none ⟨"sub-1", [("pub-1", ["x"])], ⟨1, [], false⟩⟩, []) ∧
    scenarioObserved 1 =
      some (.returned scenarioMsgB none ⟨"sub-1", [("pub-1", ["x"])], ⟨1, [], false⟩⟩,
            .returned scenarioMsgA none ⟨"sub-1", [("pub-1", ["x"])], ⟨1, [], false⟩⟩, []) := by
  have hinv := (Mailbox.Inv.init s).run_events ops
  obtain ⟨h1, h2, h3⟩ := Mailbox.open_run ops (Mailbox.init s) hops hopen hlen rfl
  generalize (Mailbox.init s).run ops = mb at hinv h1 h2 h3 ⊢
  have hpos := hcap
  clear hcap
  have hcap := hinv.cap_eq
  refine ⟨h1, hcap, hcap ▸ hpos, hcap ▸ h2, h3, ?_, ?_, ?_, by decide, by decide⟩
  · have := hinv.account
    rw [h3, List.append_nil] at this
    exact this
  · intro msg hfull
    have hr : mb.sub.Receive msg = .blocks := by
      rcases Receive_cases mb.sub msg with ⟨h, -⟩ | ⟨-, hl, -⟩ | ⟨-, -, hr⟩
      · rw [h1] at h; cases h
      · omega
      · exact hr
    refine ⟨hr, ?_⟩
    simp only [Mailbox.step, hr]
  · intro msg m rest hb hfull c hc
    have hr : mb.sub.Receive msg = .blocks := by
      rcases Receive_cases mb.sub msg with ⟨h, -⟩ | ⟨-, hl, -⟩ | ⟨-, -, hr⟩
      · rw [h1] at h; cases h
      · rw [hb] at hl; omega
      · exact hr
    have hlt : rest.length < mb.sub.MsgChan.cap := by
      simp only [List.length_cons] at hfull
      omega
    have hstep1 : mb.step (.receive msg) =
        { mb with blocked := mb.blocked ++ [msg], handed := mb.handed ++ [msg] } := by
      simp only [Mailbox.step, hr]
    have hstep2 : (mb.step (.receive msg)).step c =
        { mb with sub := { mb.sub with MsgChan := { mb.sub.MsgChan with buf := rest } },
                  blocked := mb.blocked ++ [msg], handed := mb.handed ++ [msg],
                  consumed := mb.consumed ++ [m] } := by
      rw [hstep1]
      rcases hc with hc | hc <;> subst hc
      · simp only [Mailbox.step, Consume_cons mb.sub m rest hb]
      · simp [Mailbox.step, TryConsume_cons mb.sub m rest hb]
    have hget : (mb.blocked ++ [msg])[mb.blocked.length]? = some msg := by simp
    have hsend := Receive_room
      { mb.sub with MsgChan := { mb.sub.MsgChan with buf := rest } } msg h1 hlt
    show ((mb.step (.receive msg)).step c).step (.resume mb.blocked.length) = _
    rw [hstep2]
    have herase : (mb.blocked ++ [msg]).eraseIdx mb.blocked.length = mb.blocked := by
      rw [List.eraseIdx_append_of_length_le (Nat.le_refl _)]
      simp
    simp only [Mailbox.step, hget, hsend]
    simp [herase]

/-- Witness for C8: capacity 1, `Receive` of `"a"` and of `"b"` (which
blocks), a `Consume`, the blocked call resumed, a second `Consume`. -/
theorem C8_full_mailbox_blocks_delivery_witness :
    let s : Subscriber := ⟨"sub-1", [("pub-1", ["x"])], ⟨1, [], false⟩⟩
    let ops : List MailOp :=
      [.receive scenarioMsgA, .receive scenarioMsgB, .consume, .resume 0, .consume]
    ((Mailbox.init s).run [.receive scenarioMsgA, .receive scenarioMsgB]).blocked
      = [scenarioMsgB] ∧
    ((Mailbox.init s).run ops).consumed = [scenarioMsgA, scenarioMsgB] ∧
    ((Mailbox.init s).run ops).sub.MsgChan.buf.length ≤ 1 ∧
    ((Mailbox.init s).run ops).failed = [] :=
  ⟨by decide, by decide,
    (C8_full_mailbox_blocks_delivery ⟨"sub-1", [("pub-1", ["x"])], ⟨1, [], false⟩⟩
      [.receive scenarioMsgA, .receive scenarioMsgB, .consume, .resume 0, .consume]
      rfl (by decide) (by decide) (by decide)).2.2.2.1,
    (C8_full_mailbox_blocks_delivery ⟨"sub-1", [("pub-1", ["x"])], ⟨1, [], false⟩⟩
      [.receive scenarioMsgA, .receive scenarioMsgB, .consume, .resume 0, .consume]
      rfl (by decide) (by decide) (by decide)).2.2.2.2.1⟩

/-- C2, as stated, on the code, at two inputs.  First: publisher `"pub-1"` is
registered, subscriber `"sub-1"` is made by `NewSubscriber(3, false)` and so is
not in the registry.  After `Subscribe("pub-1", "news")` both sides record the
link and the mailbox is open and empty; `Publish(["news"], "hi")` starts one
dispatch to `"sub-1"`; that dispatch runs and ends (`GetSubscriber` returns
nil), and `Consume` does not return.  Second: the subscriber is registered and
the publisher is made by `NewPublisher(false)`; `Subscribe` returns with the
link recorded on the subscriber only, `Publish` starts no dispatch, and
`Consume` does not return. -/
theorem C2_unregistered_party_gets_nothing :
    ((((World.empty.run [.NewPublisher "pub-1" true, .NewSubscriber "sub-1" 3 false 64]).Subscribe
        0 "pub-1" "news").subs[0]?.map
          (fun S => (mapIdx S.Subscriptions "pub-1", S.MsgChan)))
      = some (["news"], ⟨3, [], false⟩) ∧
    (((World.empty.run [.NewPublisher "pub-1" true, .NewSubscriber "sub-1" 3 false 64]).Subscribe
        0 "pub-1" "news").pubs[0]?.map (fun P => mapIdx P.Subscribers "news"))
      = some ["sub-1"] ∧
    (((World.empty.run [.NewPublisher "pub-1" true, .NewSubscriber "sub-1" 3 false 64]).Subscribe
        0 "pub-1" "news").Publish 0 ["news"] [104, 105] "msg-1" 7).goroutines
      = [Goroutine.dispatch "sub-1" ⟨"msg-1", [104, 105], ["news"], "pub-1", 7⟩] ∧
    ((((World.empty.run [.NewPublisher "pub-1" true, .NewSubscriber "sub-1" 3 false 64]).Subscribe
        0 "pub-1" "news").Publish 0 ["news"] [104, 105] "msg-1" 7).runGoroutine 0).goroutines
      = [] ∧
    ((((World.empty.run [.NewPublisher "pub-1" true, .NewSubscriber "sub-1" 3 false 64]).Subscribe
        0 "pub-1" "news").Publish 0 ["news"] [104, 105] "msg-1" 7).runGoroutine 0).subs[0]?.map
          Subscriber.Consume
      = some ConsumeResult.blocks) ∧
    ((((World.empty.run [.NewPublisher "pub-1" false, .NewSubscriber "sub-1" 3 true 64]).Subscribe
        0 "pub-1" "news").subs[0]?.map
          (fun S => (mapIdx S.Subscriptions "pub-1", S.MsgChan)))
      = some (["news"], ⟨3, [], false⟩) ∧
    (((World.empty.run [.NewPublisher "pub-1" false, .NewSubscriber "sub-1" 3 true 64]).Subscribe
        0 "pub-1" "news").Publish 0 ["news"] [104, 105] "msg-1" 7).goroutines
      = [] ∧
    (((World.empty.run [.NewPublisher "pub-1" false, .NewSubscriber "sub-1" 3 true 64]).Subscribe
        0 "pub-1" "news").Publish 0 ["news"] [104, 105] "msg-1" 7).subs[0]?.map
          Subscriber.Consume
      = some ConsumeResult.blocks) := by
  refine ⟨⟨by decide, by decide, by decide, by decide, by decide⟩,
    ⟨by decide, by decide, by decide⟩⟩

/-- C2, amended: publisher `P` and subscriber `S` both resolve in the registry
and `S`'s mailbox is open, empty and of capacity at least 1.  After
`S.Subscribe(P.ID, T)` and `P.Publish([T], D)` a dispatch to `S.ID` has been
started; once that dispatch has run, `S.Consume()` returns, with no error, the
message whose `Data` is `D`, whose `Topics` are `[T]` and whose `Publisher` is
`P.ID` (with the identifier and timestamp `Publish` drew). -/
theorem C2_publish_then_consume (w : World) (p s : Nat) (P : Publisher) (S : Subscriber)
    (T : String) (D : List UInt8) (msgID : PubSubID) (now : Nat)
    (hP : w.pubs[p]? = some P) (hS : w.subs[s]? = some S)
    (hregP : w.GetPublisher P.ID = some p) (hregS : w.GetSubscriber S.ID = some s)
    (hopen : S.MsgChan.closed = false) (hempty : S.MsgChan.buf = [])
    (hcap : 0 < S.MsgChan.cap) :
    ∃ i, ((w.Subscribe s P.ID T).Publish p [T] D msgID now).goroutines[i]? =
          some (Goroutine.dispatch S.ID ⟨msgID, D, [T], P.ID, now⟩) ∧
      ∃ S1 S2,
        (((w.Subscribe s P.ID T).Publish p [T] D msgID now).runGoroutine i).subs[s]? = some S1 ∧
        S1.Consume = .returned ⟨msgID, D, [T], P.ID, now⟩ none S2 ∧
        S2.MsgChan.buf = [] := by
  have hfr := Subscribe_frame w s P.ID T
  have hsubs := Subscribe_subs w s S P.ID T hS
  have hpub1 : (w.Subscribe s P.ID T).pubs[p]? = some (P.AddSubscriber S.ID T) := by
    rw [Subscribe_pubs_get w s S P.ID T hS p]
    simp [hregP, hP]
  have hsub1 : (w.Subscribe s P.ID T).subs[s]? =
      some (Subscriber.mk S.ID (addInner S.Subscriptions P.ID T) S.MsgChan) := by
    rw [hsubs, getElem?_set_of_some w.subs s s _ S hS]
    simp
  generalize w.Subscribe s P.ID T = w1 at hfr hsubs hpub1 hsub1 ⊢
  have hfr2 := Publish_frame w1 p [T] D msgID now
  have hgor : (w1.Publish p [T] D msgID now).goroutines =
      w1.goroutines ++ (P.AddSubscriber S.ID T).Publish [T] D msgID now := by
    simp [World.Publish, hpub1]
  have hmem : Goroutine.dispatch S.ID ⟨msgID, D, [T], P.ID, now⟩ ∈
      (P.AddSubscriber S.ID T).Publish [T] D msgID now := by
    rw [mem_Publish]
    refine ⟨S.ID, ?_, rfl⟩
    rw [mem_subIDs]
    refine Or.inr ⟨T, List.mem_singleton_self T, ?_⟩
    simp only [Publisher.AddSubscriber]
    rw [mem_mapIdx_addInner]
    exact Or.inr ⟨rfl, rfl⟩
  obtain ⟨j, hj⟩ := List.mem_iff_getElem?.mp hmem
  have hi : (w1.Publish p [T] D msgID now).goroutines[w1.goroutines.length + j]? =
      some (Goroutine.dispatch S.ID ⟨msgID, D, [T], P.ID, now⟩) := by
    rw [hgor, List.getElem?_append_right (Nat.le_add_right _ _)]
    simpa using hj
  refine ⟨w1.goroutines.length + j, hi, ?_⟩
  generalize w1.Publish p [T] D msgID now = w2 at hfr2 hgor hi ⊢
  have hsub2 : w2.subs[s]? =
      some (Subscriber.mk S.ID (addInner S.Subscriptions P.ID T) S.MsgChan) := by
    rw [hfr2.2.1, hsub1]
  have hreg2 : w2.GetSubscriber S.ID = some s := by
    unfold World.GetSubscriber
    rw [hfr2.2.2.2, hfr.2.1]
    exact hregS
  have hrecv := Receive_room
    (Subscriber.mk S.ID (addInner S.Subscriptions P.ID T) S.MsgChan)
    ⟨msgID, D, [T], P.ID, now⟩ hopen (by simpa [hempty] using hcap)
  refine ⟨Subscriber.mk S.ID (addInner S.Subscriptions P.ID T)
      ⟨S.MsgChan.cap, [⟨msgID, D, [T], P.ID, now⟩], S.MsgChan.closed⟩,
    Subscriber.mk S.ID (addInner S.Subscriptions P.ID T) ⟨S.MsgChan.cap, [], S.MsgChan.closed⟩,
    ?_, Consume_cons _ ⟨msgID, D, [T], P.ID, now⟩ [] rfl, rfl⟩
  simp only [World.runGoroutine, hi, hreg2, World.deliver, hsub2, hrecv]
  rw [getElem?_set_of_some w2.subs s s _ _ hsub2]
  simp [hempty]

/-- Witness for C2: the publisher and subscriber made by the constructors with
`autoRegister = true`. -/
theorem C2_publish_then_consume_witness :
    let w : World := World.empty.run [.NewPublisher "pub-1" true, .NewSubscriber "sub-1" 3 true 64]
    ∃ i, ((w.Subscribe 0 "pub-1" "news").Publish 0 ["news"] [104, 105] "msg-1" 7).goroutines[i]? =
          some (Goroutine.dispatch "sub-1" ⟨"msg-1", [104, 105], ["news"], "pub-1", 7⟩) ∧
      ∃ S1 S2,
        (((w.Subscribe 0 "pub-1" "news").Publish 0 ["news"] [104, 105] "msg-1" 7).runGoroutine
            i).subs[0]? = some S1 ∧
        S1.Consume = .returned ⟨"msg-1", [104, 105], ["news"], "pub-1", 7⟩ none S2 ∧
        S2.MsgChan.buf = [] :=
  C2_publish_then_consume
    (World.empty.run [.NewPublisher "pub-1" true, .NewSubscriber "sub-1" 3 true 64]) 0 0
    ⟨"pub-1", []⟩ ⟨"sub-1", [], ⟨3, [], false⟩⟩ "news" [104, 105] "msg-1" 7
    (by decide) (by decide) (by decide) (by decide) rfl rfl (by decide)

/-- C9: `Unregister` on an open subscriber `S` removes `S.ID` from the
registry, closes the channel, and leaves the buffered messages, the
subscription map of `S`, every other subscriber and every publisher as they
were.  After any further sequence of operations of the package (constructors,
registry functions, publisher and subscriber methods, goroutines of `Publish`
being scheduled) `S` is still closed, its buffer is a suffix of the buffer it
had (nothing was enqueued), and a `Receive` on it panics at once (send on a
closed channel) and changes nothing but the panic flag. -/
theorem C9_unregister_closes_for_good (w : World) (s : Nat) (S : Subscriber)
    (hS : w.subs[s]? = some S) (hopen : S.MsgChan.closed = false) :
    (w.SubscriberUnregister s).GetSubscriber S.ID = none ∧
    (w.SubscriberUnregister s).pubs = w.pubs ∧
    (w.SubscriberUnregister s).Publishers = w.Publishers ∧
    (w.SubscriberUnregister s).subs[s]? =
      some (Subscriber.mk S.ID S.Subscriptions ⟨S.MsgChan.cap, S.MsgChan.buf, true⟩) ∧
    (∀ s1, s1 ≠ s → (w.SubscriberUnregister s).subs[s1]? = w.subs[s1]?) ∧
    ∀ ops : List Op, ∃ S2,
      ((w.SubscriberUnregister s).run ops).subs[s]? = some S2 ∧
      S2.ID = S.ID ∧ S2.MsgChan.closed = true ∧ S2.MsgChan.buf <:+ S.MsgChan.buf ∧
      ∀ msg, S2.Receive msg = .panics ∧
        ((w.SubscriberUnregister s).run ops).Receive s msg =
          ((w.SubscriberUnregister s).run ops).panic := by
  have hset : (w.subs.set s
      (Subscriber.mk S.ID S.Subscriptions ⟨S.MsgChan.cap, S.MsgChan.buf, true⟩))[s]? =
      some (Subscriber.mk S.ID S.Subscriptions ⟨S.MsgChan.cap, S.MsgChan.buf, true⟩) := by
    rw [getElem?_set_of_some w.subs s s _ S hS]
    simp
  have hw : w.SubscriberUnregister s =
      { w with
        subs := w.subs.set s
          (Subscriber.mk S.ID S.Subscriptions ⟨S.MsgChan.cap, S.MsgChan.buf, true⟩),
        Subscribers := mapDel w.Subscribers S.ID } := by
    simp only [World.SubscriberUnregister, hS, hopen, World.UnregisterSubscriber, hset]
    simp
  have hsub1 : (w.SubscriberUnregister s).subs[s]? =
      some (Subscriber.mk S.ID S.Subscriptions ⟨S.MsgChan.cap, S.MsgChan.buf, true⟩) := by
    rw [hw]
    exact hset
  refine ⟨?_, ?_, ?_, hsub1, ?_, ?_⟩
  · rw [hw]
    simp [World.GetSubscriber, mapGet?_mapDel]
  · rw [hw]
  · rw [hw]
  · intro s1 hs1
    rw [hw]
    simp only []
    rw [getElem?_set_of_some w.subs s s1 _ S hS]
    simp [Ne.symm hs1]
  · intro ops
    obtain ⟨S2, hS2, hid, hc, hb⟩ :=
      run_keepsClosed ops (w.SubscriberUnregister s) s _ hsub1 rfl
    refine ⟨S2, hS2, hid, hc, hb, ?_⟩
    intro msg
    have hr := Receive_closed S2 msg hc
    refine ⟨hr, ?_⟩
    simp only [World.Receive, hS2, hr]

/-- Witness for C9: a registered subscriber holding one message; after
`Unregister` a publisher that still lists it publishes and the dispatch is
scheduled, then `RegisterSubscriber` puts it back into the registry: it stays
closed. -/
theorem C9_unregister_closes_for_good_witness :
    let m1 : Message := ⟨"msg-1", [1], ["x"], "pub-1", 3⟩
    let S : Subscriber := ⟨"sub-1", [("pub-1", ["x"])], ⟨2, [m1], false⟩⟩
    let w : World := ⟨[⟨"pub-1", [("x", ["sub-1"])]⟩], [S], [("pub-1", 0)], [("sub-1", 0)], [], false⟩
    (w.SubscriberUnregister 0).GetSubscriber "sub-1" = none ∧
    ∃ S2, ((w.SubscriberUnregister 0).run
        [.Publish 0 ["x"] [2] "msg-2" 4, .runGoroutine 0, .RegisterSubscriber 0]).subs[0]?
          = some S2 ∧
      S2.MsgChan.closed = true ∧ S2.MsgChan.buf <:+ [m1] ∧
      S2.Receive ⟨"msg-3", [3], ["x"], "pub-1", 5⟩ = .panics :=
  have h := C9_unregister_closes_for_good
    ⟨[⟨"pub-1", [("x", ["sub-1"])]⟩],
      [⟨"sub-1", [("pub-1", ["x"])], ⟨2, [⟨"msg-1", [1], ["x"], "pub-1", 3⟩], false⟩⟩],
      [("pub-1", 0)], [("sub-1", 0)], [], false⟩ 0
    ⟨"sub-1", [("pub-1", ["x"])], ⟨2, [⟨"msg-1", [1], ["x"], "pub-1", 3⟩], false⟩⟩ rfl rfl
  ⟨h.1,
    (h.2.2.2.2.2 [.Publish 0 ["x"] [2] "msg-2" 4, .runGoroutine 0, .RegisterSubscriber 0]).elim
      (fun S2 hS2 => ⟨S2, hS2.1, hS2.2.2.1, hS2.2.2.2.1,
        (hS2.2.2.2.2 ⟨"msg-3", [3], ["x"], "pub-1", 5⟩).1⟩)⟩

/-- C3: start from publishers and subscribers freshly constructed with
`autoRegister = true` under pairwise distinct publisher identifiers and
pairwise distinct subscriber identifiers; after any sequence of `Subscribe`,
`UnsubscribeTopic` and `UnsubscribePublisher` calls (with any arguments), for
every subscriber `S`, publisher `P` and topic `T`: `T` is in
`S.Subscriptions[P.ID]` iff `S.ID` is in `P.Subscribers[T]`. -/
theorem C3_subscription_sides_agree (pubIDs : List PubSubID) (subs : List (PubSubID × Int))
    (ops : List Op) (hp : pubIDs.Nodup) (hs : (subs.map Prod.fst).Nodup)
    (hops : ∀ op ∈ ops, op.isSubscriptionCall = true)
    (s : Nat) (S : Subscriber) (p : Nat) (P : Publisher) (T : String)
    (hS : ((World.fresh pubIDs subs).run ops).subs[s]? = some S)
    (hP : ((World.fresh pubIDs subs).run ops).pubs[p]? = some P) :
    T ∈ mapIdx S.Subscriptions P.ID ↔ S.ID ∈ mapIdx P.Subscribers T :=
  ((World.Pristine.fresh pubIDs subs hp hs).toLinked.run_calls ops hops).agree s S p P T hS hP

/-- Witness for C3: two publishers, two subscribers, and calls that link,
unlink one topic, unlink a publisher, and name an unknown publisher. -/
theorem C3_subscription_sides_agree_witness :
    "x" ∈ mapIdx (Subscriber.mk "sub-1" [("pub-1", ["x"]), ("pub-9", ["z"])]
        ⟨1, [], false⟩).Subscriptions (Publisher.mk "pub-1" [("x", ["sub-1"]), ("y", [])]).ID ↔
      (Subscriber.mk "sub-1" [("pub-1", ["x"]), ("pub-9", ["z"])] ⟨1, [], false⟩).ID ∈
        mapIdx (Publisher.mk "pub-1" [("x", ["sub-1"]), ("y", [])]).Subscribers "x" :=
  C3_subscription_sides_agree ["pub-1", "pub-2"] [("sub-1", 1), ("sub-2", 0)]
    [.Subscribe 0 "pub-1" "x", .Subscribe 0 "pub-1" "y", .Subscribe 1 "pub-2" "",
     .Subscribe 0 "pub-9" "z", .UnsubscribeTopic 0 "pub-1" ["y", "q"],
     .UnsubscribePublisher 1 "pub-2"]
    (by decide) (by decide) (by decide) 0
    (Subscriber.mk "sub-1" [("pub-1", ["x"]), ("pub-9", ["z"])] ⟨1, [], false⟩) 0
    (Publisher.mk "pub-1" [("x", ["sub-1"]), ("y", [])]) "x" (by decide) (by decide)

/-- C20: `AddSubscriber(id, t)` puts `id` into `Subscribers[t]`, changes no
other membership and leaves the identifier of the publisher alone, and a
second call gives the state of the first; `RemoveSubscriber(id, topics)`
leaves `id` in none of the named topics' sets, changes no other membership,
and a second call gives the state of the first. -/
theorem C20_add_remove_subscriber_idempotent (P : Publisher) (id : PubSubID) (t : String)
    (topics : List String) :
    id ∈ mapIdx (P.AddSubscriber id t).Subscribers t ∧
    (∀ (t1 : String) (id1 : PubSubID), ¬ (t1 = t ∧ id1 = id) →
      (id1 ∈ mapIdx (P.AddSubscriber id t).Subscribers t1 ↔ id1 ∈ mapIdx P.Subscribers t1)) ∧
    (P.AddSubscriber id t).ID = P.ID ∧
    (P.AddSubscriber id t).AddSubscriber id t = P.AddSubscriber id t ∧
    (∀ t1 ∈ topics, id ∉ mapIdx (P.RemoveSubscriber id topics).Subscribers t1) ∧
    (∀ (t1 : String) (id1 : PubSubID), ¬ (t1 ∈ topics ∧ id1 = id) →
      (id1 ∈ mapIdx (P.RemoveSubscriber id topics).Subscribers t1 ↔
        id1 ∈ mapIdx P.Subscribers t1)) ∧
    (P.RemoveSubscriber id topics).ID = P.ID ∧
    (P.RemoveSubscriber id topics).RemoveSubscriber id topics = P.RemoveSubscriber id topics := by
  refine ⟨?_, ?_, rfl, ?_, ?_, ?_, rfl, ?_⟩
  · exact (mem_Subscribers_AddSubscriber P id id t t).mpr (Or.inr ⟨rfl, rfl⟩)
  · intro t1 id1 hne
    rw [mem_Subscribers_AddSubscriber]
    constructor
    · rintro (h | ⟨h1, h2⟩)
      · exact h
      · exact absurd ⟨h1.symm, h2⟩ hne
    · exact Or.inl
  · simp only [Publisher.AddSubscriber, addInner_idem]
  · intro t1 ht1 hmem
    exact ((mem_Subscribers_RemoveSubscriber P id id topics t1).mp hmem).2 ⟨ht1, rfl⟩
  · intro t1 id1 hne
    rw [mem_Subscribers_RemoveSubscriber]
    exact ⟨fun h => h.1, fun h => ⟨h, hne⟩⟩
  · have hnot : ∀ t1 ∈ topics, id ∉ mapIdx (P.RemoveSubscriber id topics).Subscribers t1 := by
      intro t1 ht1 hmem
      exact ((mem_Subscribers_RemoveSubscriber P id id topics t1).mp hmem).2 ⟨ht1, rfl⟩
    generalize P.RemoveSubscriber id topics = P1 at hnot
    simp only [Publisher.RemoveSubscriber, foldl_delInner_of_not_mem topics P1.Subscribers id hnot]

/-- C12: `S.Subscribe(pubID, topic)` always records the subscription in the
caller's map: `topic` is in `S.Subscriptions[pubID]` afterwards, the other
topics under `pubID` and the entries of other publishers are as before, and
the mailbox and identifier of `S` are untouched.  When `pubID` does not
resolve, nothing else in the world changes (no publisher, no registry, no
other subscriber, no goroutine).  When `pubID` resolves to `P`, the only
further change is `P.AddSubscriber(S.ID, topic)`: `S.ID` is in
`P.Subscribers[topic]` and every other membership of `P` is as before. -/
theorem C12_subscribe_records_locally (w : World) (s : Nat) (S : Subscriber)
    (pubID : PubSubID) (topic : String) (hS : w.subs[s]? = some S) :
    topic ∈ mapIdx (addInner S.Subscriptions pubID topic) pubID ∧
    (∀ T : String, T ≠ topic →
      (T ∈ mapIdx (addInner S.Subscriptions pubID topic) pubID ↔
        T ∈ mapIdx S.Subscriptions pubID)) ∧
    (∀ k : PubSubID, k ≠ pubID →
      mapGet? (addInner S.Subscriptions pubID topic) k = mapGet? S.Subscriptions k) ∧
    (w.GetPublisher pubID = none →
      w.Subscribe s pubID topic =
        World.mk w.pubs
          (w.subs.set s (Subscriber.mk S.ID (addInner S.Subscriptions pubID topic) S.MsgChan))
          w.Publishers w.Subscribers w.goroutines w.panicked) ∧
    (∀ (p : Nat) (P : Publisher), w.GetPublisher pubID = some p → w.pubs[p]? = some P →
      w.Subscribe s pubID topic =
        World.mk (w.pubs.set p (P.AddSubscriber S.ID topic))
          (w.subs.set s (Subscriber.mk S.ID (addInner S.Subscriptions pubID topic) S.MsgChan))
          w.Publishers w.Subscribers w.goroutines w.panicked ∧
      S.ID ∈ mapIdx (P.AddSubscriber S.ID topic).Subscribers topic ∧
      (∀ (T : String) (id : PubSubID), ¬ (T = topic ∧ id = S.ID) →
        (id ∈ mapIdx (P.AddSubscriber S.ID topic).Subscribers T ↔
          id ∈ mapIdx P.Subscribers T))) := by
  refine ⟨?_, ?_, ?_, ?_, ?_⟩
  · exact (mem_mapIdx_addInner _ _ _ _ _).mpr (Or.inr ⟨rfl, rfl⟩)
  · intro T hT
    rw [mem_mapIdx_addInner]
    constructor
    · rintro (h | ⟨-, h⟩)
      · exact h
      · exact absurd h hT
    · exact Or.inl
  · intro k hk
    exact mapGet?_addInner_ne _ _ _ _ (Ne.symm hk)
  · intro hnone
    simp only [World.Subscribe, hS, hnone, World.GetPublisher] at *
    simp [hnone]
  · intro p P hp hP
    refine ⟨?_, ?_, ?_⟩
    · simp only [World.GetPublisher] at hp
      simp [World.Subscribe, hS, World.GetPublisher, hp, World.updPub, hP]
    · exact (mem_Subscribers_AddSubscriber P S.ID S.ID topic topic).mpr (Or.inr ⟨rfl, rfl⟩)
    · intro T id hne
      rw [mem_Subscribers_AddSubscriber]
      constructor
      · rintro (h | ⟨h1, h2⟩)
        · exact h
        · exact absurd ⟨h1.symm, h2⟩ hne
      · exact Or.inl

/-- Witness for C12: a subscriber subscribing to an unknown publisher
identifier and to a registered one. -/
theorem C12_subscribe_records_locally_witness :
    (World.empty.run [.NewPublisher "pub-1" true, .NewSubscriber "sub-1" 3 true 64]).Subscribe 0
        "pub-9" "x" =
      World.mk [⟨"pub-1", []⟩] [⟨"sub-1", [("pub-9", ["x"])], ⟨3, [], false⟩⟩]
        [("pub-1", 0)] [("sub-1", 0)] [] false ∧
    (World.empty.run [.NewPublisher "pub-1" true, .NewSubscriber "sub-1" 3 true 64]).Subscribe 0
        "pub-1" "x" =
      World.mk [⟨"pub-1", [("x", ["sub-1"])]⟩] [⟨"sub-1", [("pub-1", ["x"])], ⟨3, [], false⟩⟩]
        [("pub-1", 0)] [("sub-1", 0)] [] false :=
  ⟨(C12_subscribe_records_locally
      (World.empty.run [.NewPublisher "pub-1" true, .NewSubscriber "sub-1" 3 true 64]) 0
      ⟨"sub-1", [], ⟨3, [], false⟩⟩ "pub-9" "x" (by decide)).2.2.2.1 (by decide),
   ((C12_subscribe_records_locally
      (World.empty.run [.NewPublisher "pub-1" true, .NewSubscriber "sub-1" 3 true 64]) 0
      ⟨"sub-1", [], ⟨3, [], false⟩⟩ "pub-1" "x" (by decide)).2.2.2.2 0 ⟨"pub-1", []⟩
      (by decide) (by decide)).1⟩

/-- C13, as stated, on the code, at two inputs.  First: `"sub-1"` subscribes to
the registered `"pub-1"` on `"x"`, the publisher is unregistered, the
subscriber unsubscribes `"x"` (which prunes its local entry and cannot reach
the publisher), and the publisher is registered again.  Now `"pub-1"` resolves
and still lists `"sub-1"` under `"x"`; `UnsubscribeTopic("pub-1", ["x"])`
finds no local entry, returns at once, and `"sub-1"` is still in the set of
`"x"`.  Second: a subscriber whose map holds an empty topic set for `"pub-1"`
(a state only a direct assignment to the exported field produces) and an
empty topics list: the key is still present although the remaining set is
empty. -/
theorem C13_early_return_leaves_publisher_entry :
    ((World.empty.run [.NewPublisher "pub-1" true, .NewSubscriber "sub-1" 3 true 64,
        .Subscribe 0 "pub-1" "x", .PublisherUnregister 0, .UnsubscribeTopic 0 "pub-1" ["x"],
        .RegisterPublisher 0]).GetPublisher "pub-1" = some 0 ∧
     (World.empty.run [.NewPublisher "pub-1" true, .NewSubscriber "sub-1" 3 true 64,
        .Subscribe 0 "pub-1" "x", .PublisherUnregister 0, .UnsubscribeTopic 0 "pub-1" ["x"],
        .RegisterPublisher 0]).subs = [⟨"sub-1", [], ⟨3, [], false⟩⟩] ∧
     ((World.empty.run [.NewPublisher "pub-1" true, .NewSubscriber "sub-1" 3 true 64,
        .Subscribe 0 "pub-1" "x", .PublisherUnregister 0, .UnsubscribeTopic 0 "pub-1" ["x"],
        .RegisterPublisher 0]).UnsubscribeTopic 0 "pub-1" ["x"]).pubs =
       [⟨"pub-1", [("x", ["sub-1"])]⟩]) ∧
    ((World.mk [] [⟨"sub-1", [("pub-1", [])], ⟨3, [], false⟩⟩] [] [("sub-1", 0)] []
        false).UnsubscribeTopic 0 "pub-1" []).subs =
      [⟨"sub-1", [("pub-1", [])], ⟨3, [], false⟩⟩] := by
  refine ⟨⟨by decide, by decide, by decide⟩, by decide⟩

/-- C13, amended.  If `S` has no local entry for `pubID`, `UnsubscribeTopic`
returns at once and the world is unchanged (the publisher is not touched,
whatever it lists).  If `S` has a local entry, then afterwards: the local
topic set for `pubID` is the old set minus the named topics; when the old
entry was not an empty set (as in every state the methods produce), the key
`pubID` is present iff the remaining set is non-empty; the entries for other
publishers are unchanged; nothing else in `S` or the registries changes; and
if `pubID` resolves to `P` the only further change is
`P.RemoveSubscriber(S.ID, topics)`: `S.ID` is in none of the named topics'
sets and every other membership of `P` is as before. -/
theorem C13_unsubscribeTopic_effect (w : World) (s : Nat) (S : Subscriber)
    (pubID : PubSubID) (topics : List String) (hS : w.subs[s]? = some S) :
    (mapGet? S.Subscriptions pubID = none → w.UnsubscribeTopic s pubID topics = w) ∧
    (∀ ts : List String, mapGet? S.Subscriptions pubID = some ts →
      (∀ T : String,
        T ∈ mapIdx (topics.foldl (unsubscribeStep pubID) S.Subscriptions) pubID ↔
          T ∈ ts ∧ T ∉ topics) ∧
      (ts ≠ [] →
        (mapGet? (topics.foldl (unsubscribeStep pubID) S.Subscriptions) pubID ≠ none ↔
          mapIdx (topics.foldl (unsubscribeStep pubID) S.Subscriptions) pubID ≠ [])) ∧
      (∀ k : PubSubID, k ≠ pubID →
        mapGet? (topics.foldl (unsubscribeStep pubID) S.Subscriptions) k =
          mapGet? S.Subscriptions k) ∧
      (w.GetPublisher pubID = none →
        w.UnsubscribeTopic s pubID topics =
          World.mk w.pubs
            (w.subs.set s (Subscriber.mk S.ID
              (topics.foldl (unsubscribeStep pubID) S.Subscriptions) S.MsgChan))
            w.Publishers w.Subscribers w.goroutines w.panicked) ∧
      (∀ (p : Nat) (P : Publisher), w.GetPublisher pubID = some p → w.pubs[p]? = some P →
        w.UnsubscribeTopic s pubID topics =
          World.mk (w.pubs.set p (P.RemoveSubscriber S.ID topics))
            (w.subs.set s (Subscriber.mk S.ID
              (topics.foldl (unsubscribeStep pubID) S.Subscriptions) S.MsgChan))
            w.Publishers w.Subscribers w.goroutines w.panicked ∧
        (∀ T ∈ topics, S.ID ∉ mapIdx (P.RemoveSubscriber S.ID topics).Subscribers T) ∧
        (∀ (T : String) (id : PubSubID), ¬ (T ∈ topics ∧ id = S.ID) →
          (id ∈ mapIdx (P.RemoveSubscriber S.ID topics).Subscribers T ↔
            id ∈ mapIdx P.Subscribers T)))) := by
  refine ⟨UnsubscribeTopic_absent w s S pubID topics hS, ?_⟩
  intro ts hts
  have hidx : mapIdx S.Subscriptions pubID = ts := by simp [mapIdx, hts]
  refine ⟨?_, ?_, ?_, ?_, ?_⟩
  · intro T
    rw [mem_mapIdx_unsubscribe, hidx]
    constructor
    · exact fun h => ⟨h.1, fun h2 => h.2 ⟨rfl, h2⟩⟩
    · exact fun h => ⟨h.1, fun h2 => h.2 h2.2⟩
  · intro hne
    have hkey := mapGet?_unsubscribe_self topics pubID S.Subscriptions
    rw [hts] at hkey
    simp only [Option.some_bind] at hkey
    unfold mapIdx
    rw [hkey]
    by_cases ht : topics = []
    · simp [ht, hne]
    · by_cases hr : topics.foldl setDel ts = []
      · simp [ht, hr]
      · simp [ht, hr]
  · intro k hk
    exact mapGet?_unsubscribe_ne topics pubID S.Subscriptions k hk
  · intro hnone
    simp only [World.GetPublisher] at hnone
    simp [World.UnsubscribeTopic, hS, hts, World.GetPublisher, hnone]
  · intro p P hp hP
    refine ⟨?_, ?_, ?_⟩
    · simp only [World.GetPublisher] at hp
      simp [World.UnsubscribeTopic, hS, hts, World.GetPublisher, hp, World.updPub, hP]
    · intro T hT hmem
      exact ((mem_Subscribers_RemoveSubscriber P S.ID S.ID topics T).mp hmem).2 ⟨hT, rfl⟩
    · intro T id hne
      rw [mem_Subscribers_RemoveSubscriber]
      exact ⟨fun h => h.1, fun h => ⟨h, hne⟩⟩

/-- Witness for C13: a subscriber on `"x"` and `"y"` of a registered
publisher unsubscribes `"y"` and an unknown topic, then `"x"`, which prunes
the entry. -/
theorem C13_unsubscribeTopic_effect_witness :
    (World.empty.run [.NewPublisher "pub-1" true, .NewSubscriber "sub-1" 3 true 64,
        .Subscribe 0 "pub-1" "x", .Subscribe 0 "pub-1" "y"]).UnsubscribeTopic 0 "pub-1"
        ["y", "q"] =
      World.mk [⟨"pub-1", [("x", ["sub-1"]), ("y", [])]⟩]
        [⟨"sub-1", [("pub-1", ["x"])], ⟨3, [], false⟩⟩] [("pub-1", 0)] [("sub-1", 0)] []
        false ∧
    (World.empty.run [.NewPublisher "pub-1" true, .NewSubscriber "sub-1" 3 true 64,
        .Subscribe 0 "pub-1" "x", .Subscribe 0 "pub-1" "y"]).UnsubscribeTopic 0 "pub-1"
        ["x", "q", "y"] =
      World.mk [⟨"pub-1", [("x", []), ("y", [])]⟩]
        [⟨"sub-1", [], ⟨3, [], false⟩⟩] [("pub-1", 0)] [("sub-1", 0)] [] false :=
  ⟨(((C13_unsubscribeTopic_effect
      (World.empty.run [.NewPublisher "pub-1" true, .NewSubscriber "sub-1" 3 true 64,
        .Subscribe 0 "pub-1" "x", .Subscribe 0 "pub-1" "y"]) 0
      ⟨"sub-1", [("pub-1", ["x", "y"])], ⟨3, [], false⟩⟩ "pub-1" ["y", "q"] (by decide)).2
        ["x", "y"] (by decide)).2.2.2.2 0 ⟨"pub-1", [("x", ["sub-1"]), ("y", ["sub-1"])]⟩
        (by decide) (by decide)).1,
   (((C13_unsubscribeTopic_effect
      (World.empty.run [.NewPublisher "pub-1" true, .NewSubscriber "sub-1" 3 true 64,
        .Subscribe 0 "pub-1" "x", .Subscribe 0 "pub-1" "y"]) 0
      ⟨"sub-1", [("pub-1", ["x", "y"])], ⟨3, [], false⟩⟩ "pub-1" ["x", "q", "y"]
        (by decide)).2
        ["x", "y"] (by decide)).2.2.2.2 0 ⟨"pub-1", [("x", ["sub-1"]), ("y", ["sub-1"])]⟩
        (by decide) (by decide)).1⟩

/-- C15, as stated, on the code, at two inputs.  First: `"sub-1"` subscribes to
the registered `"pub-1"` on `"x"` and `"y"`, the publisher is unregistered, the
subscriber unsubscribes `"x"` (which cannot reach the publisher), and the
publisher is registered again.  Now `"sub-1"` holds the entry `"pub-1"` with
`"y"` only, so `"x"` is not subscribed, `"pub-1"` resolves and still lists
`"sub-1"` under `"x"`; `UnsubscribeTopic("pub-1", ["x"])` passes the guard and
removes `"sub-1"` from the publisher's set of `"x"`: the publisher's topic sets
change.  Second: a subscriber whose map holds an empty topic set for `"pub-1"`
(a state only a direct assignment to the exported field produces):
`UnsubscribeTopic("pub-1", ["x"])` prunes the entry, so `S.Subscriptions`
changes. -/
theorem C15_stale_publisher_entry_is_removed :
    ((World.empty.run [.NewPublisher "pub-1" true, .NewSubscriber "sub-1" 3 true 64,
        .Subscribe 0 "pub-1" "x", .Subscribe 0 "pub-1" "y", .PublisherUnregister 0,
        .UnsubscribeTopic 0 "pub-1" ["x"], .RegisterPublisher 0]).subs =
       [⟨"sub-1", [("pub-1", ["y"])], ⟨3, [], false⟩⟩] ∧
     (World.empty.run [.NewPublisher "pub-1" true, .NewSubscriber "sub-1" 3 true 64,
        .Subscribe 0 "pub-1" "x", .Subscribe 0 "pub-1" "y", .PublisherUnregister 0,
        .UnsubscribeTopic 0 "pub-1" ["x"], .RegisterPublisher 0]).GetPublisher "pub-1" =
       some 0 ∧
     (World.empty.run [.NewPublisher "pub-1" true, .NewSubscriber "sub-1" 3 true 64,
        .Subscribe 0 "pub-1" "x", .Subscribe 0 "pub-1" "y", .PublisherUnregister 0,
        .UnsubscribeTopic 0 "pub-1" ["x"], .RegisterPublisher 0]).pubs =
       [⟨"pub-1", [("x", ["sub-1"]), ("y", ["sub-1"])]⟩] ∧
     ((World.empty.run [.NewPublisher "pub-1" true, .NewSubscriber "sub-1" 3 true 64,
        .Subscribe 0 "pub-1" "x", .Subscribe 0 "pub-1" "y", .PublisherUnregister 0,
        .UnsubscribeTopic 0 "pub-1" ["x"], .RegisterPublisher 0]).UnsubscribeTopic 0
          "pub-1" ["x"]).pubs =
       [⟨"pub-1", [("x", []), ("y", ["sub-1"])]⟩]) ∧
    ((World.mk [] [⟨"sub-1", [("pub-1", [])], ⟨3, [], false⟩⟩] [] [("sub-1", 0)] []
        false).UnsubscribeTopic 0 "pub-1" ["x"]).subs =
      [⟨"sub-1", [], ⟨3, [], false⟩⟩] := by
  refine ⟨⟨by decide, by decide, by decide, by decide⟩, by decide⟩

/-- C15, amended.  Let none of `topics` be in `S.Subscriptions[pubID]`, whose
entry, if present, is not an empty set (as in every state the methods
produce).  Then `S.UnsubscribeTopic(pubID, topics)` leaves every subscriber,
`S.Subscriptions` included, both registries and the goroutines as they were.
The whole world is unchanged when `S` has no local entry for `pubID`
(whatever the publisher lists), when `pubID` does not resolve, and when
`pubID` resolves to a publisher that has `S.ID` under none of `topics`.  When
`S` has a local entry and `pubID` resolves to `P`, the call does not panic and
its only effect is `P.RemoveSubscriber(S.ID, topics)`: a membership of `S.ID`
that `P` still lists under a named topic is removed, every other membership
of `P` is as before.  `RemoveSubscriber(id, topics)` on a publisher that has
`id` under none of `topics` returns the publisher unchanged. -/
theorem C15_unsubscribe_unsubscribed_local_noop (w : World) (s : Nat) (S : Subscriber)
    (pubID : PubSubID) (topics : List String) (hS : w.subs[s]? = some S)
    (hlocal : ∀ t ∈ topics, t ∉ mapIdx S.Subscriptions pubID)
    (hentry : mapGet? S.Subscriptions pubID ≠ some []) :
    (w.UnsubscribeTopic s pubID topics).subs = w.subs ∧
    (w.UnsubscribeTopic s pubID topics).Publishers = w.Publishers ∧
    (w.UnsubscribeTopic s pubID topics).Subscribers = w.Subscribers ∧
    (w.UnsubscribeTopic s pubID topics).goroutines = w.goroutines ∧
    (mapGet? S.Subscriptions pubID = none → w.UnsubscribeTopic s pubID topics = w) ∧
    (w.GetPublisher pubID = none → w.UnsubscribeTopic s pubID topics = w) ∧
    (∀ (p : Nat) (P : Publisher), w.GetPublisher pubID = some p → w.pubs[p]? = some P →
      (w.UnsubscribeTopic s pubID topics).panicked = w.panicked ∧
      (mapGet? S.Subscriptions pubID ≠ none →
        w.UnsubscribeTopic s pubID topics =
          World.mk (w.pubs.set p (P.RemoveSubscriber S.ID topics)) w.subs
            w.Publishers w.Subscribers w.goroutines w.panicked) ∧
      (∀ (T : String) (id : PubSubID), ¬ (T ∈ topics ∧ id = S.ID) →
        (id ∈ mapIdx (P.RemoveSubscriber S.ID topics).Subscribers T ↔
          id ∈ mapIdx P.Subscribers T)) ∧
      ((∀ t ∈ topics, S.ID ∉ mapIdx P.Subscribers t) →
        w.UnsubscribeTopic s pubID topics = w)) ∧
    (∀ (P : Publisher) (id : PubSubID) (ts : List String),
      (∀ t ∈ ts, id ∉ mapIdx P.Subscribers t) → P.RemoveSubscriber id ts = P) := by
  have hloc := unsubscribe_of_not_mem topics pubID S.Subscriptions hlocal hentry
  have hset : w.subs.set s S = w.subs := set_of_getElem?_eq_some w.subs s S hS
  have hframe := UnsubscribeTopic_frame w s pubID topics
  have habsent := UnsubscribeTopic_absent w s S pubID topics hS
  have hsubs : (w.UnsubscribeTopic s pubID topics).subs = w.subs := by
    cases hk : mapGet? S.Subscriptions pubID with
    | none => rw [habsent hk]
    | some ts =>
        rw [UnsubscribeTopic_subs w s S pubID topics ts hS hk, hloc]
        exact hset
  have hnone : w.GetPublisher pubID = none → w.UnsubscribeTopic s pubID topics = w := by
    intro hg
    cases hk : mapGet? S.Subscriptions pubID with
    | none => exact habsent hk
    | some ts =>
        simp only [World.GetPublisher] at hg
        simp [World.UnsubscribeTopic, hS, hk, World.GetPublisher, hg, hloc, hset]
  have hsome : ∀ (p : Nat) (P : Publisher), w.GetPublisher pubID = some p →
      w.pubs[p]? = some P → mapGet? S.Subscriptions pubID ≠ none →
        w.UnsubscribeTopic s pubID topics =
          World.mk (w.pubs.set p (P.RemoveSubscriber S.ID topics)) w.subs
            w.Publishers w.Subscribers w.goroutines w.panicked := by
    intro p P hg hP hk
    cases hk1 : mapGet? S.Subscriptions pubID with
    | none => exact absurd hk1 hk
    | some ts =>
        simp only [World.GetPublisher] at hg
        simp [World.UnsubscribeTopic, hS, hk1, World.GetPublisher, hg, hloc, hset,
          World.updPub, hP]
  refine ⟨hsubs, hframe.1, hframe.2.1, hframe.2.2, habsent, hnone, ?_, ?_⟩
  · intro p P hg hP
    refine ⟨?_, hsome p P hg hP, ?_, ?_⟩
    · cases hk : mapGet? S.Subscriptions pubID with
      | none => rw [habsent hk]
      | some ts => rw [hsome p P hg hP (by rw [hk]; exact Option.some_ne_none ts)]
    · intro T id hne
      rw [mem_Subscribers_RemoveSubscriber]
      exact ⟨fun h => h.1, fun h => ⟨h, hne⟩⟩
    · intro hno
      cases hk : mapGet? S.Subscriptions pubID with
      | none => exact habsent hk
      | some ts =>
          rw [hsome p P hg hP (by rw [hk]; exact Option.some_ne_none ts),
            RemoveSubscriber_of_not_member P S.ID topics hno,
            set_of_getElem?_eq_some w.pubs p P hP]
  · intro P id ts h
    exact RemoveSubscriber_of_not_member P id ts h

/-- Witness for C15: a subscriber without a local entry for `"pub-1"`, which
still lists it under `"x"`, unsubscribes `"x"`; a subscriber on `"x"` of
`"pub-1"` unsubscribes `"q"`. -/
theorem C15_unsubscribe_unsubscribed_local_noop_witness :
    (World.mk [⟨"pub-1", [("x", ["sub-1"])]⟩] [⟨"sub-1", [], ⟨3, [], false⟩⟩]
        [("pub-1", 0)] [("sub-1", 0)] [] false).UnsubscribeTopic 0 "pub-1" ["x"] =
      World.mk [⟨"pub-1", [("x", ["sub-1"])]⟩] [⟨"sub-1", [], ⟨3, [], false⟩⟩]
        [("pub-1", 0)] [("sub-1", 0)] [] false ∧
    (World.mk [⟨"pub-1", [("x", ["sub-1"])]⟩] [⟨"sub-1", [("pub-1", ["x"])], ⟨3, [], false⟩⟩]
        [("pub-1", 0)] [("sub-1", 0)] [] false).UnsubscribeTopic 0 "pub-1" ["q"] =
      World.mk [⟨"pub-1", [("x", ["sub-1"])]⟩] [⟨"sub-1", [("pub-1", ["x"])], ⟨3, [], false⟩⟩]
        [("pub-1", 0)] [("sub-1", 0)] [] false :=
  ⟨(C15_unsubscribe_unsubscribed_local_noop
      (World.mk [⟨"pub-1", [("x", ["sub-1"])]⟩] [⟨"sub-1", [], ⟨3, [], false⟩⟩]
        [("pub-1", 0)] [("sub-1", 0)] [] false) 0
      ⟨"sub-1", [], ⟨3, [], false⟩⟩ "pub-1" ["x"] (by decide) (by decide)
      (by decide)).2.2.2.2.1 (by decide),
   ((C15_unsubscribe_unsubscribed_local_noop
      (World.mk [⟨"pub-1", [("x", ["sub-1"])]⟩]
        [⟨"sub-1", [("pub-1", ["x"])], ⟨3, [], false⟩⟩]
        [("pub-1", 0)] [("sub-1", 0)] [] false) 0
      ⟨"sub-1", [("pub-1", ["x"])], ⟨3, [], false⟩⟩ "pub-1" ["q"] (by decide) (by decide)
      (by decide)).2.2.2.2.2.2.1 0 ⟨"pub-1", [("x", ["sub-1"])]⟩ (by decide)
      (by decide)).2.2.2 (by decide)⟩

/-- C16: for a publisher `P` behind pointer `p`: `RegisterPublisher` only
binds `P.ID` to `p` in the publisher registry, after which `GetPublisher(P.ID)`
returns `p`; `UnregisterPublisher` (and the method `Unregister`) only deletes
the binding of `P.ID`, after which `GetPublisher(P.ID)` returns nil; when
`P.ID` was not registered the world is unchanged, so a second unregister
changes nothing; lookups of every other identifier, all publishers with their
topic maps, all subscribers and the subscriber registry are as before.
`GetPublisher` returns nil for an identifier without a binding, and what it
returns otherwise is the pointer bound in the registry.  The same holds for
`RegisterSubscriber`, `UnregisterSubscriber` and `GetSubscriber`. -/
theorem C16_registry_is_a_finite_map (w : World) (p : Nat) (P : Publisher) (s : Nat)
    (S : Subscriber) (hP : w.pubs[p]? = some P) (hS : w.subs[s]? = some S) :
    (w.RegisterPublisher p =
        World.mk w.pubs w.subs (mapPut w.Publishers P.ID p) w.Subscribers w.goroutines
          w.panicked ∧
      (w.RegisterPublisher p).GetPublisher P.ID = some p ∧
      (∀ id : PubSubID, id ≠ P.ID →
        (w.RegisterPublisher p).GetPublisher id = w.GetPublisher id) ∧
      w.UnregisterPublisher p =
        World.mk w.pubs w.subs (mapDel w.Publishers P.ID) w.Subscribers w.goroutines
          w.panicked ∧
      w.PublisherUnregister p = w.UnregisterPublisher p ∧
      (w.UnregisterPublisher p).GetPublisher P.ID = none ∧
      (∀ id : PubSubID, id ≠ P.ID →
        (w.UnregisterPublisher p).GetPublisher id = w.GetPublisher id) ∧
      (w.GetPublisher P.ID = none → w.UnregisterPublisher p = w) ∧
      (w.UnregisterPublisher p).UnregisterPublisher p = w.UnregisterPublisher p ∧
      (∀ id : PubSubID, (∀ q : Nat, (id, q) ∉ w.Publishers) → w.GetPublisher id = none) ∧
      (∀ (id : PubSubID) (q : Nat), w.GetPublisher id = some q → (id, q) ∈ w.Publishers)) ∧
    (w.RegisterSubscriber s =
        World.mk w.pubs w.subs w.Publishers (mapPut w.Subscribers S.ID s) w.goroutines
          w.panicked ∧
      (w.RegisterSubscriber s).GetSubscriber S.ID = some s ∧
      (∀ id : PubSubID, id ≠ S.ID →
        (w.RegisterSubscriber s).GetSubscriber id = w.GetSubscriber id) ∧
      w.UnregisterSubscriber s =
        World.mk w.pubs w.subs w.Publishers (mapDel w.Subscribers S.ID) w.goroutines
          w.panicked ∧
      (w.UnregisterSubscriber s).GetSubscriber S.ID = none ∧
      (∀ id : PubSubID, id ≠ S.ID →
        (w.UnregisterSubscriber s).GetSubscriber id = w.GetSubscriber id) ∧
      (w.GetSubscriber S.ID = none → w.UnregisterSubscriber s = w) ∧
      (w.UnregisterSubscriber s).UnregisterSubscriber s = w.UnregisterSubscriber s ∧
      (∀ id : PubSubID, (∀ q : Nat, (id, q) ∉ w.Subscribers) → w.GetSubscriber id = none) ∧
      (∀ (id : PubSubID) (q : Nat), w.GetSubscriber id = some q → (id, q) ∈ w.Subscribers)) := by
  have hreg : w.RegisterPublisher p =
      World.mk w.pubs w.subs (mapPut w.Publishers P.ID p) w.Subscribers w.goroutines
        w.panicked := by
    simp [World.RegisterPublisher, hP]
  have hunreg : w.UnregisterPublisher p =
      World.mk w.pubs w.subs (mapDel w.Publishers P.ID) w.Subscribers w.goroutines
        w.panicked := by
    simp [World.UnregisterPublisher, hP]
  have hregS : w.RegisterSubscriber s =
      World.mk w.pubs w.subs w.Publishers (mapPut w.Subscribers S.ID s) w.goroutines
        w.panicked := by
    simp [World.RegisterSubscriber, hS]
  have hunregS : w.UnregisterSubscriber s =
      World.mk w.pubs w.subs w.Publishers (mapDel w.Subscribers S.ID) w.goroutines
        w.panicked := by
    simp [World.UnregisterSubscriber, hS]
  refine ⟨⟨hreg, ?_, ?_, hunreg, rfl, ?_, ?_, ?_, ?_, ?_, ?_⟩,
    ⟨hregS, ?_, ?_, hunregS, ?_, ?_, ?_, ?_, ?_, ?_⟩⟩
  · rw [hreg]
    simp [World.GetPublisher, mapGet?_mapPut]
  · intro id hid
    rw [hreg]
    simp [World.GetPublisher, mapGet?_mapPut, Ne.symm hid]
  · rw [hunreg]
    simp [World.GetPublisher, mapGet?_mapDel]
  · intro id hid
    rw [hunreg]
    simp [World.GetPublisher, mapGet?_mapDel, Ne.symm hid]
  · intro hnone
    rw [hunreg, mapDel_of_get?_none w.Publishers P.ID hnone]
  · rw [hunreg]
    simp [World.UnregisterPublisher, hP, mapDel_mapDel]
  · intro id hid
    exact mapGet?_eq_none_of_no_key w.Publishers id hid
  · intro id q hq
    exact mem_of_mapGet?_eq_some w.Publishers id q hq
  · rw [hregS]
    simp [World.GetSubscriber, mapGet?_mapPut]
  · intro id hid
    rw [hregS]
    simp [World.GetSubscriber, mapGet?_mapPut, Ne.symm hid]
  · rw [hunregS]
    simp [World.GetSubscriber, mapGet?_mapDel]
  · intro id hid
    rw [hunregS]
    simp [World.GetSubscriber, mapGet?_mapDel, Ne.symm hid]
  · intro hnone
    rw [hunregS, mapDel_of_get?_none w.Subscribers S.ID hnone]
  · rw [hunregS]
    simp [World.UnregisterSubscriber, hS, mapDel_mapDel]
  · intro id hid
    exact mapGet?_eq_none_of_no_key w.Subscribers id hid
  · intro id q hq
    exact mem_of_mapGet?_eq_some w.Subscribers id q hq

/-- Witness for C16: register, look up, unregister twice, on a publisher and a
subscriber made with `autoRegister = false`. -/
theorem C16_registry_is_a_finite_map_witness :
    ((World.empty.run [.NewPublisher "pub-1" false, .NewSubscriber "sub-1" 3 false 64]).run
        [.RegisterPublisher 0]).GetPublisher "pub-1" = some 0 ∧
    ((World.empty.run [.NewPublisher "pub-1" false, .NewSubscriber "sub-1" 3 false 64]).run
        [.RegisterPublisher 0, .UnregisterPublisher 0]).GetPublisher "pub-1" = none ∧
    (World.empty.run [.NewPublisher "pub-1" false,
        .NewSubscriber "sub-1" 3 false 64]).UnregisterPublisher 0 =
      World.empty.run [.NewPublisher "pub-1" false, .NewSubscriber "sub-1" 3 false 64] ∧
    (World.empty.run [.NewPublisher "pub-1" false,
        .NewSubscriber "sub-1" 3 false 64]).UnregisterSubscriber 0 =
      World.empty.run [.NewPublisher "pub-1" false, .NewSubscriber "sub-1" 3 false 64] :=
  ⟨by decide, by decide,
    (C16_registry_is_a_finite_map
      (World.empty.run [.NewPublisher "pub-1" false, .NewSubscriber "sub-1" 3 false 64]) 0
      ⟨"pub-1", []⟩ 0 ⟨"sub-1", [], ⟨3, [], false⟩⟩ (by decide) (by decide)).1.2.2.2.2.2.2.2.1
      (by decide),
    (C16_registry_is_a_finite_map
      (World.empty.run [.NewPublisher "pub-1" false, .NewSubscriber "sub-1" 3 false 64]) 0
      ⟨"pub-1", []⟩ 0 ⟨"sub-1", [], ⟨3, [], false⟩⟩ (by decide) (by decide)).2.2.2.2.2.2.2.1
      (by decide)⟩

/-- C17, as stated, on the code: `NewSubscriber(9223372036854775807, true)`,
the largest `int`, with an allocator that would provide any size.  The size
passes the default unchanged, `make(chan Message, bufferSize)` panics, so no
subscriber is returned, none is allocated and `"sub-1"` does not resolve
through `GetSubscriber` although `autoRegister` is true. -/
theorem C17_oversized_buffer_panics :
    bufferCap 9223372036854775807 = 9223372036854775807 ∧
    World.empty.NewSubscriber "sub-1" 9223372036854775807 true 9223372036854775807 =
      (World.mk [] [] [] [] [] true, none) ∧
    (World.empty.NewSubscriber "sub-1" 9223372036854775807 true
      9223372036854775807).1.GetSubscriber "sub-1" = none ∧
    (World.empty.NewSubscriber "sub-1" 9223372036854775807 true
      9223372036854775807).1.subs = [] := by
  refine ⟨by decide, by decide, by decide, by decide⟩

/-- C17, amended.  Let `n` be the `int` that `bufferSize` holds (`bufferSize`
itself between `-2^63` and `2^63 - 1`).  `NewSubscriber` asks `make` for a
channel of size `n` when `n ≥ 1` and 10 when `n ≤ 0`, hence at least 1.  When
`make` provides it (the buffer fits an address and the allocator's limit),
`NewSubscriber(bufferSize, autoRegister)` returns a new subscriber with the
drawn identifier, an empty subscription map and an empty, open mailbox of
that capacity; with `autoRegister = true` it binds the identifier to the new
subscriber in the registry, with `autoRegister = false` it leaves the registry
alone, so for a fresh identifier `GetSubscriber` resolves it iff
`autoRegister` is true; nothing else changes.  When `make` does not provide
it, which is so for every size from `2^64 / 104` up, the call does not return:
no subscriber comes back, and heap and registries are as before.
`NewPublisher(autoRegister)` always returns a new publisher with an empty
topic map, registered iff `autoRegister` is true. -/
theorem C17_constructors_within_make_limit (w : World) (id : PubSubID) (bufferSize : Int)
    (limit : Nat) :
    (-9223372036854775808 ≤ bufferSize → bufferSize ≤ 9223372036854775807 →
      goInt bufferSize = bufferSize) ∧
    (goInt bufferSize ≤ 0 → bufferCap bufferSize = 10) ∧
    (1 ≤ goInt bufferSize → (bufferCap bufferSize : Int) = goInt bufferSize) ∧
    1 ≤ bufferCap bufferSize ∧
    (bufferCap bufferSize * messageSize < 18446744073709551616 →
      bufferCap bufferSize ≤ limit →
      w.NewSubscriber id bufferSize true limit =
        (World.mk w.pubs (w.subs ++ [Subscriber.mk id [] ⟨bufferCap bufferSize, [], false⟩])
          w.Publishers (mapPut w.Subscribers id w.subs.length) w.goroutines w.panicked,
         some w.subs.length) ∧
      w.NewSubscriber id bufferSize false limit =
        (World.mk w.pubs (w.subs ++ [Subscriber.mk id [] ⟨bufferCap bufferSize, [], false⟩])
          w.Publishers w.Subscribers w.goroutines w.panicked,
         some w.subs.length) ∧
      (∀ a : Bool,
        (w.NewSubscriber id bufferSize a limit).2 = some w.subs.length ∧
        (w.NewSubscriber id bufferSize a limit).1.subs[w.subs.length]? =
          some (Subscriber.mk id [] ⟨bufferCap bufferSize, [], false⟩) ∧
        (w.GetSubscriber id = none →
          ((w.NewSubscriber id bufferSize a limit).1.GetSubscriber id = some w.subs.length ↔
            a = true)))) ∧
    (¬ (bufferCap bufferSize * messageSize < 18446744073709551616 ∧
        bufferCap bufferSize ≤ limit) →
      ∀ a : Bool, w.NewSubscriber id bufferSize a limit =
        (World.mk w.pubs w.subs w.Publishers w.Subscribers w.goroutines true, none)) ∧
    (w.NewPublisher id true =
      (World.mk (w.pubs ++ [Publisher.mk id []]) w.subs
        (mapPut w.Publishers id w.pubs.length) w.Subscribers w.goroutines w.panicked,
       w.pubs.length)) ∧
    (w.NewPublisher id false =
      (World.mk (w.pubs ++ [Publisher.mk id []]) w.subs w.Publishers w.Subscribers
        w.goroutines w.panicked,
       w.pubs.length)) ∧
    (∀ a : Bool, (w.NewPublisher id a).1.pubs[(w.NewPublisher id a).2]? =
      some (Publisher.mk id [])) ∧
    (∀ a : Bool, w.GetPublisher id = none →
      ((w.NewPublisher id a).1.GetPublisher id = some (w.NewPublisher id a).2 ↔ a = true)) := by
  have hpT : w.NewPublisher id true =
      (World.mk (w.pubs ++ [Publisher.mk id []]) w.subs
        (mapPut w.Publishers id w.pubs.length) w.Subscribers w.goroutines w.panicked,
       w.pubs.length) := by
    simp [World.NewPublisher, World.RegisterPublisher]
  have hpF : w.NewPublisher id false =
      (World.mk (w.pubs ++ [Publisher.mk id []]) w.subs w.Publishers w.Subscribers
        w.goroutines w.panicked,
       w.pubs.length) := by
    simp [World.NewPublisher]
  refine ⟨?_, ?_, ?_, ?_, ?_, ?_, hpT, hpF, ?_, ?_⟩
  · intro h1 h2
    unfold goInt
    omega
  · intro h
    simp [bufferCap, h]
  · intro h
    have h0 : ¬ goInt bufferSize ≤ 0 := by omega
    simp only [bufferCap, h0, if_false]
    exact Int.toNat_of_nonneg (by omega)
  · unfold bufferCap
    split
    · decide
    · omega
  · intro h1 h2
    have hm : makeChan (bufferCap bufferSize) limit =
        some ⟨bufferCap bufferSize, [], false⟩ := by
      simp [makeChan, h1, h2]
    have hsT : w.NewSubscriber id bufferSize true limit =
        (World.mk w.pubs (w.subs ++ [Subscriber.mk id [] ⟨bufferCap bufferSize, [], false⟩])
          w.Publishers (mapPut w.Subscribers id w.subs.length) w.goroutines w.panicked,
         some w.subs.length) := by
      simp [World.NewSubscriber, hm, World.RegisterSubscriber]
    have hsF : w.NewSubscriber id bufferSize false limit =
        (World.mk w.pubs (w.subs ++ [Subscriber.mk id [] ⟨bufferCap bufferSize, [], false⟩])
          w.Publishers w.Subscribers w.goroutines w.panicked,
         some w.subs.length) := by
      simp [World.NewSubscriber, hm]
    refine ⟨hsT, hsF, ?_⟩
    intro a
    cases a
    · rw [hsF]
      refine ⟨rfl, by simp, ?_⟩
      intro hfresh
      simp only [World.GetSubscriber] at hfresh
      simp [World.GetSubscriber, hfresh]
    · rw [hsT]
      refine ⟨rfl, by simp, ?_⟩
      intro _
      simp [World.GetSubscriber, mapGet?_mapPut]
  · intro h a
    have hm : makeChan (bufferCap bufferSize) limit = none := by
      simp only [makeChan, h, if_false]
    simp [World.NewSubscriber, hm, World.panic]
  · intro a
    cases a
    · rw [hpF]; simp
    · rw [hpT]; simp
  · intro a hfresh
    cases a
    · rw [hpF]
      simp only [World.GetPublisher] at hfresh
      simp [World.GetPublisher, hfresh]
    · rw [hpT]
      simp [World.GetPublisher, mapGet?_mapPut]

/-- Witness for C17: buffer sizes 0, -5 and 4 on the empty world with an
allocator limit of 64, and size 100 above that limit. -/
theorem C17_constructors_within_make_limit_witness :
    bufferCap 0 = 10 ∧ bufferCap (-5) = 10 ∧ (bufferCap 4 : Int) = goInt 4 ∧
    (World.empty.NewSubscriber "sub-1" 4 true 64 =
      (World.mk [] [Subscriber.mk "sub-1" [] ⟨bufferCap 4, [], false⟩] []
        (mapPut [] "sub-1" 0) [] false, some 0)) ∧
    ((World.empty.NewSubscriber "sub-1" 4 false 64).1.GetSubscriber "sub-1" = some 0 ↔
        false = true) ∧
    (World.empty.NewSubscriber "sub-1" 100 true 64 = (World.mk [] [] [] [] [] true, none)) ∧
    ((World.empty.NewPublisher "pub-1" true).1.GetPublisher "pub-1" =
        some (World.empty.NewPublisher "pub-1" true).2 ↔ true = true) :=
  ⟨(C17_constructors_within_make_limit World.empty "sub-1" 0 64).2.1 (by decide),
   (C17_constructors_within_make_limit World.empty "sub-1" (-5) 64).2.1 (by decide),
   (C17_constructors_within_make_limit World.empty "sub-1" 4 64).2.2.1 (by decide),
   ((C17_constructors_within_make_limit World.empty "sub-1" 4 64).2.2.2.2.1 (by decide)
      (by decide)).1,
   (((C17_constructors_within_make_limit World.empty "sub-1" 4 64).2.2.2.2.1 (by decide)
      (by decide)).2.2 false).2.2 (by decide),
   (C17_constructors_within_make_limit World.empty "sub-1" 100 64).2.2.2.2.2.1 (by decide)
      true,
   (C17_constructors_within_make_limit World.empty "pub-1" 4 64).2.2.2.2.2.2.2.2.2 true
      (by decide)⟩

/-- C18: when goroutine `i` is a dispatch of `Publish` whose target identifier
does not resolve in the subscriber registry, running it only ends that
goroutine: no mailbox, subscriber, publisher or registry changes, nothing is
enqueued, the panic flag is untouched (no error reaches anybody), every other
goroutine is still there, and running any other goroutine afterwards does to
the subscribers and the panic flag exactly what it would have done had the
dropped dispatch not run. -/
theorem C18_unresolved_dispatch_is_dropped (w : World) (i : Nat) (subID : PubSubID)
    (msg : Message) (hg : w.goroutines[i]? = some (Goroutine.dispatch subID msg))
    (hnone : w.GetSubscriber subID = none) :
    w.runGoroutine i =
      World.mk w.pubs w.subs w.Publishers w.Subscribers (w.goroutines.eraseIdx i) w.panicked ∧
    (∀ j : Nat, j ≠ i →
      (w.runGoroutine i).goroutines[if j < i then j else j - 1]? = w.goroutines[j]?) ∧
    (∀ j : Nat, j ≠ i →
      ((w.runGoroutine i).runGoroutine (if j < i then j else j - 1)).subs =
        (w.runGoroutine j).subs ∧
      ((w.runGoroutine i).runGoroutine (if j < i then j else j - 1)).panicked =
        (w.runGoroutine j).panicked) := by
  have hw : w.runGoroutine i =
      World.mk w.pubs w.subs w.Publishers w.Subscribers (w.goroutines.eraseIdx i)
        w.panicked := by
    simp [World.runGoroutine, hg, hnone]
  refine ⟨hw, ?_, ?_⟩
  · intro j hj
    rw [hw]
    exact getElem?_eraseIdx_other w.goroutines i j hj
  · intro j hj
    refine runGoroutine_congr _ _ _ _ ?_ ?_ ?_ ?_
    · rw [hw]
      exact getElem?_eraseIdx_other w.goroutines i j hj
    · rw [hw]
    · rw [hw]
    · rw [hw]

/-- Witness for C18: a publisher lists `"sub-1"` (registered) and `"sub-2"`
(never registered) under `"x"`; the dispatch to `"sub-2"` is dropped and the
dispatch to `"sub-1"` delivers. -/
theorem C18_unresolved_dispatch_is_dropped_witness :
    (World.mk [⟨"pub-1", [("x", ["sub-2", "sub-1"])]⟩]
        [⟨"sub-1", [("pub-1", ["x"])], ⟨3, [], false⟩⟩, ⟨"sub-2", [("pub-1", ["x"])], ⟨3, [], false⟩⟩]
        [("pub-1", 0)] [("sub-1", 0)]
        [.dispatch "sub-2" ⟨"msg-1", [104, 105], ["x"], "pub-1", 7⟩,
         .dispatch "sub-1" ⟨"msg-1", [104, 105], ["x"], "pub-1", 7⟩] false).runGoroutine 0 =
      World.mk [⟨"pub-1", [("x", ["sub-2", "sub-1"])]⟩]
        [⟨"sub-1", [("pub-1", ["x"])], ⟨3, [], false⟩⟩, ⟨"sub-2", [("pub-1", ["x"])], ⟨3, [], false⟩⟩]
        [("pub-1", 0)] [("sub-1", 0)]
        [.dispatch "sub-1" ⟨"msg-1", [104, 105], ["x"], "pub-1", 7⟩] false ∧
    (((World.mk [⟨"pub-1", [("x", ["sub-2", "sub-1"])]⟩]
        [⟨"sub-1", [("pub-1", ["x"])], ⟨3, [], false⟩⟩, ⟨"sub-2", [("pub-1", ["x"])], ⟨3, [], false⟩⟩]
        [("pub-1", 0)] [("sub-1", 0)]
        [.dispatch "sub-2" ⟨"msg-1", [104, 105], ["x"], "pub-1", 7⟩,
         .dispatch "sub-1" ⟨"msg-1", [104, 105], ["x"], "pub-1", 7⟩] false).runGoroutine
          0).runGoroutine 0).subs =
      [⟨"sub-1", [("pub-1", ["x"])], ⟨3, [⟨"msg-1", [104, 105], ["x"], "pub-1", 7⟩], false⟩⟩,
       ⟨"sub-2", [("pub-1", ["x"])], ⟨3, [], false⟩⟩] :=
  ⟨(C18_unresolved_dispatch_is_dropped
      (World.mk [⟨"pub-1", [("x", ["sub-2", "sub-1"])]⟩]
        [⟨"sub-1", [("pub-1", ["x"])], ⟨3, [], false⟩⟩,
         ⟨"sub-2", [("pub-1", ["x"])], ⟨3, [], false⟩⟩]
        [("pub-1", 0)] [("sub-1", 0)]
        [.dispatch "sub-2" ⟨"msg-1", [104, 105], ["x"], "pub-1", 7⟩,
         .dispatch "sub-1" ⟨"msg-1", [104, 105], ["x"], "pub-1", 7⟩] false) 0 "sub-2"
      ⟨"msg-1", [104, 105], ["x"], "pub-1", 7⟩ (by decide) (by decide)).1,
   by decide⟩

/-- C11, as stated, on the code: the subscriber `"sub-1"` is registered, no
publisher is.  `Subscribe` with the empty publisher identifier returns `OK`
and records a subscription under `""`; `Subscribe` with the unknown publisher
identifier `"pub-9"` returns `OK` and records it; `UnsubscribePublisher` and
`UnsubscribeTopic` with an empty or unknown publisher identifier return
`OK`. -/
theorem C11_publisher_id_of_subscribe_is_not_validated :
    Service.Subscribe (World.empty.run [.NewSubscriber "sub-1" 3 true 64]) "sub-1" "" "x" =
      (World.mk [] [⟨"sub-1", [("", ["x"])], ⟨3, [], false⟩⟩] [] [("sub-1", 0)] [] false,
        Code.OK) ∧
    Service.Subscribe (World.empty.run [.NewSubscriber "sub-1" 3 true 64]) "sub-1" "pub-9" "x" =
      (World.mk [] [⟨"sub-1", [("pub-9", ["x"])], ⟨3, [], false⟩⟩] [] [("sub-1", 0)] [] false,
        Code.OK) ∧
    (Service.UnsubscribePublisher (World.empty.run [.NewSubscriber "sub-1" 3 true 64]) "sub-1"
      "").2 = Code.OK ∧
    (Service.UnsubscribePublisher (World.empty.run [.NewSubscriber "sub-1" 3 true 64]) "sub-1"
      "pub-9").2 = Code.OK ∧
    (Service.UnsubscribeTopic (World.empty.run [.NewSubscriber "sub-1" 3 true 64]) "sub-1"
      "" ["x"]).2 = Code.OK ∧
    (Service.UnsubscribeTopic (World.empty.run [.NewSubscriber "sub-1" 3 true 64]) "sub-1"
      "pub-9" ["x"]).2 = Code.OK := by
  refine ⟨by decide, by decide, by decide, by decide, by decide, by decide⟩

/-- C11, amended.  Every handler that takes identifiers validates the
identifier of the object it acts on (`SubId` for `UnregisterSubscriber`,
`Subscribe`, `UnsubscribePublisher`, `UnsubscribeTopic`, `TryConsume`,
`KeepConsume`; `PubId` for `Publish`, `UnregisterPublisher`): when it is empty
the handler returns `InvalidArgument`, when it does not resolve in the registry
the handler returns `NotFound`, and in both cases the world is unchanged.  The
`PubId` of `Subscribe`, `UnsubscribePublisher` and `UnsubscribeTopic` is handed
to the core call as it is: with a resolving `SubId` and a non-empty `PubId`,
resolving or not, these handlers return `OK` and the world is that of the core
call. -/
theorem C11_service_validates_the_acting_id (w : World) :
    ((∀ (topics : List String) (data : List UInt8) (msgID : PubSubID) (now : Nat),
        Service.Publish w "" topics data msgID now = (w, Code.InvalidArgument)) ∧
      Service.UnregisterPublisher w "" = (w, Code.InvalidArgument) ∧
      Service.UnregisterSubscriber w "" = (w, Code.InvalidArgument) ∧
      (∀ pubId topic : String,
        Service.Subscribe w "" pubId topic = (w, Code.InvalidArgument)) ∧
      (∀ pubId : String, Service.UnsubscribePublisher w "" pubId = (w, Code.InvalidArgument)) ∧
      (∀ (pubId : String) (topics : List String),
        Service.UnsubscribeTopic w "" pubId topics = (w, Code.InvalidArgument)) ∧
      Service.TryConsume w "" = (w, Code.InvalidArgument, none, false) ∧
      (∀ ctxs : List (Option Error × Bool),
        Service.KeepConsume w "" ctxs = (w, [], some Code.InvalidArgument))) ∧
    (∀ id : String, id ≠ "" → w.GetPublisher id = none →
      (∀ (topics : List String) (data : List UInt8) (msgID : PubSubID) (now : Nat),
        Service.Publish w id topics data msgID now = (w, Code.NotFound)) ∧
      Service.UnregisterPublisher w id = (w, Code.NotFound)) ∧
    (∀ id : String, id ≠ "" → w.GetSubscriber id = none →
      Service.UnregisterSubscriber w id = (w, Code.NotFound) ∧
      (∀ pubId topic : String, Service.Subscribe w id pubId topic = (w, Code.NotFound)) ∧
      (∀ pubId : String, Service.UnsubscribePublisher w id pubId = (w, Code.NotFound)) ∧
      (∀ (pubId : String) (topics : List String),
        Service.UnsubscribeTopic w id pubId topics = (w, Code.NotFound)) ∧
      Service.TryConsume w id = (w, Code.NotFound, none, false) ∧
      (∀ ctxs : List (Option Error × Bool),
        Service.KeepConsume w id ctxs = (w, [], some Code.NotFound))) ∧
    (∀ (id : String) (s : Nat), id ≠ "" → w.GetSubscriber id = some s →
      ∀ pubId : String, pubId ≠ "" →
        (∀ topic : String,
          Service.Subscribe w id pubId topic = (w.Subscribe s pubId topic, Code.OK)) ∧
        Service.UnsubscribePublisher w id pubId = (w.UnsubscribePublisher s pubId, Code.OK) ∧
        (∀ topics : List String,
          Service.UnsubscribeTopic w id pubId topics =
            (w.UnsubscribeTopic s pubId topics, Code.OK))) := by
  have hse := Service.GetSubscriber_empty w
  have hpe := Service.GetPublisher_empty w
  refine ⟨⟨?_, ?_, ?_, ?_, ?_, ?_, ?_, ?_⟩, ?_, ?_, ?_⟩
  · intro topics data msgID now
    simp only [Service.Publish, hpe]
  · simp only [Service.UnregisterPublisher, hpe]
  · simp only [Service.UnregisterSubscriber, hse]
  · intro pubId topic
    simp only [Service.Subscribe, hse]
  · intro pubId
    simp only [Service.UnsubscribePublisher, hse]
  · intro pubId topics
    simp only [Service.UnsubscribeTopic, hse]
  · simp only [Service.TryConsume, hse]
  · intro ctxs
    simp only [Service.KeepConsume, hse]
  · intro id hne hnone
    have h := Service.GetPublisher_unresolved w id hne hnone
    refine ⟨?_, ?_⟩
    · intro topics data msgID now
      simp only [Service.Publish, h]
    · simp only [Service.UnregisterPublisher, h]
  · intro id hne hnone
    have h := Service.GetSubscriber_unresolved w id hne hnone
    refine ⟨?_, ?_, ?_, ?_, ?_, ?_⟩
    · simp only [Service.UnregisterSubscriber, h]
    · intro pubId topic
      simp only [Service.Subscribe, h]
    · intro pubId
      simp only [Service.UnsubscribePublisher, h]
    · intro pubId topics
      simp only [Service.UnsubscribeTopic, h]
    · simp only [Service.TryConsume, h]
    · intro ctxs
      simp only [Service.KeepConsume, h]
  · intro id s hne hsome pubId _
    have h := Service.GetSubscriber_resolved w id s hne hsome
    refine ⟨?_, ?_, ?_⟩
    · intro topic
      simp only [Service.Subscribe, h]
    · simp only [Service.UnsubscribePublisher, h]
    · intro topics
      simp only [Service.UnsubscribeTopic, h]

/-- Witness for C11: one registered publisher and one registered subscriber;
unknown identifiers are answered with `NotFound`, and `Subscribe` with an
unknown publisher identifier is answered with `OK`. -/
theorem C11_service_validates_the_acting_id_witness :
    Service.Publish (World.empty.run [.NewPublisher "pub-1" true, .NewSubscriber "sub-1" 3 true 64])
        "pub-9" ["x"] [104, 105] "msg-1" 7 =
      (World.empty.run [.NewPublisher "pub-1" true, .NewSubscriber "sub-1" 3 true 64],
        Code.NotFound) ∧
    Service.TryConsume (World.empty.run [.NewPublisher "pub-1" true,
        .NewSubscriber "sub-1" 3 true 64]) "sub-9" =
      (World.empty.run [.NewPublisher "pub-1" true, .NewSubscriber "sub-1" 3 true 64],
        Code.NotFound, none, false) ∧
    Service.Subscribe (World.empty.run [.NewPublisher "pub-1" true,
        .NewSubscriber "sub-1" 3 true 64]) "sub-1" "pub-9" "x" =
      ((World.empty.run [.NewPublisher "pub-1" true,
        .NewSubscriber "sub-1" 3 true 64]).Subscribe 0 "pub-9" "x", Code.OK) :=
  ⟨((C11_service_validates_the_acting_id
      (World.empty.run [.NewPublisher "pub-1" true, .NewSubscriber "sub-1" 3 true 64])).2.1
      "pub-9" (by decide) (by decide)).1 ["x"] [104, 105] "msg-1" 7,
   ((C11_service_validates_the_acting_id
      (World.empty.run [.NewPublisher "pub-1" true, .NewSubscriber "sub-1" 3 true 64])).2.2.1
      "sub-9" (by decide) (by decide)).2.2.2.2.1,
   ((C11_service_validates_the_acting_id
      (World.empty.run [.NewPublisher "pub-1" true, .NewSubscriber "sub-1" 3 true 64])).2.2.2
      "sub-1" 0 (by decide) (by decide) "pub-9" (by decide)).1 "x"⟩

/-- C21: in every world reached from program start by any sequence of
operations of the package (so in particular for a subscriber made by
`NewSubscriber` and then used through `Subscribe`, `UnsubscribeTopic` and
`UnsubscribePublisher`, with any arguments and in any order), every publisher
identifier that is a key of a subscriber's `Subscriptions` is bound to a
non-empty topic set. -/
theorem C21_no_empty_subscription_entry (ops : List Op) (s : Nat) (S : Subscriber)
    (k : PubSubID) (ts : List String)
    (hS : (World.empty.run ops).subs[s]? = some S)
    (hk : mapGet? S.Subscriptions k = some ts) : ts ≠ [] :=
  run_noEmptyEntries ops World.empty (by intro S0 h0; simp [World.empty] at h0) S
    (List.getElem?_mem hS) k ts hk

/-- Witness for C21: a subscriber that subscribes to two topics of one
publisher and one of another, removes one topic, and removes the only topic
of the second publisher, whose entry is pruned. -/
theorem C21_no_empty_subscription_entry_witness :
    (World.empty.run [.NewPublisher "pub-1" true, .NewSubscriber "sub-1" 3 true 64,
        .Subscribe 0 "pub-1" "x", .Subscribe 0 "pub-1" "y", .Subscribe 0 "pub-2" "z",
        .UnsubscribeTopic 0 "pub-1" ["y"], .UnsubscribeTopic 0 "pub-2" ["z", "q"]]).subs =
      [⟨"sub-1", [("pub-1", ["x"])], ⟨3, [], false⟩⟩] ∧
    (["x"] : List String) ≠ [] :=
  ⟨by decide,
   C21_no_empty_subscription_entry
    [.NewPublisher "pub-1" true, .NewSubscriber "sub-1" 3 true 64,
      .Subscribe 0 "pub-1" "x", .Subscribe 0 "pub-1" "y", .Subscribe 0 "pub-2" "z",
      .UnsubscribeTopic 0 "pub-1" ["y"], .UnsubscribeTopic 0 "pub-2" ["z", "q"]] 0
    ⟨"sub-1", [("pub-1", ["x"])], ⟨3, [], false⟩⟩ "pub-1" ["x"] (by decide) (by decide)⟩

end PubSub
